import Mathlib

/-!
# ManhattanProject: the VTK pipeline controller (`src/VTKPipeline.cpp`)

A shallow embedding of the clipping, statistics, colour-map and clip-settings
code of `VTKPipeline`.

* C++ `double` values are modelled by an ordered field `K` with exact
  arithmetic (no rounding, no NaN, no infinity).  The definitions are
  polymorphic in `K` and computable, so they run on `ℚ`.
* Where rounding or NaN decides a property, the same statements are embedded
  a second time with every result rounded to a `double` (`flDouble`,
  `cellSumsDouble`, `scalarMeanDouble`, `buildClippingTransformDouble`) or with
  NaN made explicit (`meanAngleNaN`).
* The functions of the C math library are a parameter `MathLib K`; over `ℝ`
  they are Mathlib's real functions (`realMath`).
* Theorems that need no trigonometry hold for every `K`; their concrete
  instances are evaluated over `ℚ`.  Theorems about rotations and angles are
  stated over `ℝ` with `realMath`.
* The VTK objects the pipeline drives (`vtkTransform`, `vtkActor`, the text
  actors, the filters) are modelled by the part of their state the code reads
  and writes, following the VTK documentation.
-/

namespace ManhattanProject

/-! ## The C math library and `vtkMath` -/

/-- The functions of `<cmath>` the pipeline (and the VTK classes it drives) calls. -/
structure MathLib (K : Type) where
  /-- The constant pi used by `vtkMath::RadiansFromDegrees` and `DegreesFromRadians`. -/
  pi : K
  cos : K → K
  sin : K → K
  acos : K → K
  sqrt : K → K

/-- The math library over the reals.  `Real.arccos` is defined for every real
number (it clamps its argument to `[-1, 1]`) where the C `acos` returns NaN
outside `[-1, 1]`; `meanAngleNaN` makes that case explicit. -/
noncomputable def realMath : MathLib ℝ where
  pi := Real.pi
  cos := Real.cos
  sin := Real.sin
  acos := Real.arccos
  sqrt := Real.sqrt

section Defs

variable {K : Type} [LinearOrderedField K] [FloorRing K]

/-- Conversion `vtkMath::RadiansFromDegrees`. -/
def RadiansFromDegrees (m : MathLib K) (x : K) : K := x * m.pi / 180

/-- Conversion `vtkMath::DegreesFromRadians`. -/
def DegreesFromRadians (m : MathLib K) (x : K) : K := x * 180 / m.pi

/-! ## Enumerations of `VTKPipeline.h` -/

/-- The enum `VTKPipeline::DataSet`. -/
inductive DataSet where
  | RoofOffset
  | Mesh
  deriving DecidableEq, Repr

/-- The enum `VTKPipeline::VectorData`. -/
inductive VectorData where
  | XYMagnitude
  | XYAngle
  | ZComponent
  deriving DecidableEq, Repr

/-- The enum `VTKPipeline::ClipType`.  A C++ unscoped enum is an integer with
named values, and `OpenClipSettings` casts an arbitrary `int` to it, so the
embedding keeps the underlying integer. -/
structure ClipType where
  toInt : Int
  deriving DecidableEq, Repr

namespace ClipType

def Extract : ClipType := ⟨0⟩
def FastClip : ClipType := ⟨1⟩
def AccurateClip : ClipType := ⟨2⟩
def CutX : ClipType := ⟨3⟩
def CutY : ClipType := ⟨4⟩
def CutZ : ClipType := ⟨5⟩

/-- The six enumerators. -/
def enumerators : List ClipType := [Extract, FastClip, AccurateClip, CutX, CutY, CutZ]

end ClipType

/-! ## Points, `vtkTransform`, `vtkActor` -/

/-- A `double[3]`. -/
structure Vec3 (K : Type) where
  x : K
  y : K
  z : K
  deriving DecidableEq, Repr

/-- The 4x4 matrix of a `vtkTransform`. -/
abbrev Matrix4 (K : Type) := Matrix (Fin 4) (Fin 4) K

/-- The matrix that `vtkTransform::Scale(x, y, z)` concatenates. -/
def scaleMatrix (x y z : K) : Matrix4 K :=
  Matrix.of ![![x, 0, 0, 0], ![0, y, 0, 0], ![0, 0, z, 0], ![0, 0, 0, 1]]

/-- The matrix that `vtkTransform::RotateZ(angle)` concatenates (angle in degrees). -/
def rotateZMatrix (m : MathLib K) (angle : K) : Matrix4 K :=
  let a := RadiansFromDegrees m angle
  Matrix.of ![![m.cos a, -m.sin a, 0, 0], ![m.sin a, m.cos a, 0, 0],
    ![0, 0, 1, 0], ![0, 0, 0, 1]]

/-- The matrix that `vtkTransform::Translate(x, y, z)` concatenates. -/
def translateMatrix (x y z : K) : Matrix4 K :=
  Matrix.of ![![1, 0, 0, x], ![0, 1, 0, y], ![0, 0, 1, z], ![0, 0, 0, 1]]

/-- A `vtkTransform` in its default PreMultiply mode: `Identity()` resets the
matrix and every later operation multiplies the current matrix on the right,
so the operation concatenated last acts on a point first. -/
structure vtkTransform (K : Type) where
  matrix : Matrix4 K

namespace vtkTransform

def Identity (_t : vtkTransform K) : vtkTransform K := ⟨1⟩

def Scale (t : vtkTransform K) (x y z : K) : vtkTransform K :=
  ⟨t.matrix * scaleMatrix x y z⟩

def RotateZ (m : MathLib K) (t : vtkTransform K) (angle : K) : vtkTransform K :=
  ⟨t.matrix * rotateZMatrix m angle⟩

def Translate (t : vtkTransform K) (x y z : K) : vtkTransform K :=
  ⟨t.matrix * translateMatrix x y z⟩

end vtkTransform

/-- Apply a 4x4 matrix to the point `(p, 1)` and return the first three
coordinates (`vtkTransform::TransformPoint` for an affine matrix). -/
def transformPoint (M : Matrix4 K) (p : Vec3 K) : Vec3 K :=
  ⟨M 0 0 * p.x + M 0 1 * p.y + M 0 2 * p.z + M 0 3,
   M 1 0 * p.x + M 1 1 * p.y + M 1 2 * p.z + M 1 3,
   M 2 0 * p.x + M 2 1 * p.y + M 2 2 * p.z + M 2 3⟩

/-- The fields of a `vtkActor` (a `vtkProp3D`) the pipeline reads and writes.
The getters return what the setters stored. -/
structure vtkActor (K : Type) where
  Position : Vec3 K
  Scale : Vec3 K
  Orientation : Vec3 K
  Visibility : Bool

/-- The display matrix of a `vtkProp3D` with origin 0 whose orientation is a
rotation about Z (the only orientation `SetClippingBoxRotation` installs): a
model point is scaled, then rotated about Z, then translated to the position. -/
def displayMatrix (m : MathLib K) (a : vtkActor K) : Matrix4 K :=
  translateMatrix a.Position.x a.Position.y a.Position.z
    * rotateZMatrix m a.Orientation.z
    * scaleMatrix a.Scale.x a.Scale.y a.Scale.z

/-! ## Cells and the data the statistics read -/

/-- A cell of the data set coming out of `dataCellData`: a `VTK_TRIANGLE` or a
`VTK_TETRA` with its points, or a cell of another type (only its type id). -/
inductive vtkCell (K : Type) where
  | triangle (p0 p1 p2 : Vec3 K)
  | tetra (p0 p1 p2 p3 : Vec3 K)
  | other (cellType : Nat)
  deriving DecidableEq, Repr

/-- Squared distance `vtkMath::Distance2BetweenPoints`. -/
def Distance2BetweenPoints (p q : Vec3 K) : K :=
  (p.x - q.x) * (p.x - q.x) + (p.y - q.y) * (p.y - q.y) + (p.z - q.z) * (p.z - q.z)

/-- Area `vtkTriangle::TriangleArea`, the value of `vtkTriangle::ComputeArea`. -/
def TriangleArea (m : MathLib K) (p1 p2 p3 : Vec3 K) : K :=
  let a := Distance2BetweenPoints p1 p2
  let b := Distance2BetweenPoints p2 p3
  let c := Distance2BetweenPoints p3 p1
  (1 / 4) * m.sqrt |4 * a * c - (a - b + c) * (a - b + c)|

/-- Determinant `vtkMath::Determinant3x3` of the matrix with rows `a`, `b`, `c`. -/
def Determinant3x3 (a1 a2 a3 b1 b2 b3 c1 c2 c3 : K) : K :=
  a1 * b2 * c3 + b1 * c2 * a3 + c1 * a2 * b3 - a1 * c2 * b3 - b1 * a2 * c3 - c1 * b2 * a3

/-- Signed volume `vtkTetra::ComputeVolume`. -/
def ComputeVolume (p1 p2 p3 p4 : Vec3 K) : K :=
  Determinant3x3 (p2.x - p1.x) (p3.x - p1.x) (p4.x - p1.x)
                 (p2.y - p1.y) (p3.y - p1.y) (p4.y - p1.y)
                 (p2.z - p1.z) (p3.z - p1.z) (p4.z - p1.z) / 6

/-- The `cellSize` computed by the `switch` on the cell type in
`ComputeStatistics` (and `SaveData`): the triangle's area, the absolute value
of the tetrahedron's volume; for any other type the variable keeps its
initial `0.0` (the type is only logged). -/
def cellSize (m : MathLib K) : vtkCell K → K
  | .triangle p0 p1 p2 => TriangleArea m p0 p1 p2
  | .tetra p0 p1 p2 p3 => |ComputeVolume p0 p1 p2 p3|
  | .other _ => 0

/-- What `ComputeStatistics` reads after `dataCellData->Update()` and
`dataTriangle->Update()`; `none` is a `NULL` pointer.
`data` are the cells of `dataCellData->GetOutput()`, `pd` the point scalars of
`dataTriangle`, `cd` and `cv` the cell scalars and cell vectors of `data`. -/
structure PipelineOutput (K : Type) where
  data : Option (List (vtkCell K))
  pd : Option (List K)
  cd : Option (List K)
  cv : Option (List (Vec3 K))

/-! ## Labels

The text actors receive `sprintf` output; the embedding keeps which format
string was used and the numbers passed to it. -/

/-- Arguments of `UpdateStatisticsLabel`: the format is chosen by `vectorData`. -/
structure StatisticsText (K : Type) where
  vectorData : VectorData
  min : K
  max : K
  mean : K

/-- Heading of the volume label. -/
inductive MeasureKind where
  | Volume
  | Area
  deriving DecidableEq, Repr

/-- Text of the volume label; `kind = none` when the `switch` on the clip type
matched no case and the buffer was not written.  `format` is the `sprintf`
format string that was used (empty when no case matched). -/
structure VolumeText (K : Type) where
  kind : Option MeasureKind
  clipType : ClipType
  clipSize : K
  size : K
  difference : K
  format : String

/-- Text of the clip label. -/
structure ClipText (K : Type) where
  c : Vec3 K
  s : Vec3 K
  r : K

/-- A control point `AddRGBPoint(x, r, g, b)` of the colour transfer function. -/
structure RGBPoint (K : Type) where
  x : K
  r : K
  g : K
  b : K
  deriving DecidableEq, Repr

/-- Output ports that can feed a stage of the pipeline. -/
inductive Port where
  | roofOffsetReader
  | meshReader
  | dataAttribute
  | extractData
  | clipDataBox
  | cutData
  | clipDataPlanesLast
  | dataSurface
  | roofOffsetExtrusion
  | clipDataPlanesFirst
  | dataClip2
  | dataClip3
  | dataClip4
  | dataClip5
  | dataTriangle
  | dataCellData
  | buildingReader
  deriving DecidableEq, Repr

/-! ## The pipeline state -/

/-- The members of `VTKPipeline` the embedded operations read or write. -/
structure Pipeline (K : Type) where
  clippingBoxTransform : vtkTransform K
  /-- Lengths `XLength`, `YLength`, `ZLength` of `clippingCubeSource`. -/
  clippingCubeSource : Vec3 K
  clippingBoxActor : vtkActor K
  /-- Normal of `cutPlane`. -/
  cutPlaneNormal : Vec3 K
  /-- Input connection of `dataTriangle`. -/
  dataTriangleInput : Port
  /-- Input connection of `clipDataPlanesFirst` (none until `UpdateClipping` sets it). -/
  clipDataPlanesFirstInput : Option Port
  /-- Input connection of `dataAttribute`. -/
  dataAttributeInput : Option Port
  /-- Input connection of `dataMapper`. -/
  dataMapperInput : Option Port
  clipType : ClipType
  dataSet : DataSet
  vectorData : VectorData
  /-- Control points of `dataColor`, in the order they were added. -/
  dataColor : List (RGBPoint K)
  /-- The legend's `NumberOfLabels`. -/
  legendNumberOfLabels : Nat
  statisticsLabel : Option (StatisticsText K)
  volumeLabel : Option (VolumeText K)
  clipLabel : Option (ClipText K)
  volumeLabelVisibility : Bool
  colorWheelVisibility : Bool
  colorWheelBorderVisibility : Bool
  contourVisibility : Bool
  /-- The legend's title. -/
  legendTitle : String
  /-- The point array `dataAttribute` assigns as the active scalars. -/
  dataAttributeScalars : String
  /-- The flag `ImmediateModeRendering` of `dataMapper`. -/
  dataMapperImmediateMode : Bool
  /-- The text of `fileNameLabel` (none for a `NULL` input). -/
  fileNameLabel : Option String
  /-- The file name of `roofOffsetReader` (none for `NULL`). -/
  roofOffsetFileName : Option String
  /-- The file name of `meshReader` (none for `NULL`). -/
  meshFileName : Option String
  /-- The file name of `buildingReader` (none for `NULL`). -/
  buildingFileName : Option String

/-! ## Getters of the clipping box -/

/-- Getter `VTKPipeline::GetClipType`. -/
def GetClipType (p : Pipeline K) : ClipType := p.clipType

/-- Getter `VTKPipeline::GetClippingBoxCenter`. -/
def GetClippingBoxCenter (p : Pipeline K) : Vec3 K := p.clippingBoxActor.Position

/-- Getter `VTKPipeline::GetClippingBoxSize`. -/
def GetClippingBoxSize (p : Pipeline K) : Vec3 K := p.clippingBoxActor.Scale

/-- Getter `VTKPipeline::GetClippingBoxRotation`: minus the actor's Z orientation. -/
def GetClippingBoxRotation (p : Pipeline K) : K := -p.clippingBoxActor.Orientation.z

/-! ## Label updates -/

/-- Method `VTKPipeline::UpdateStatisticsLabel`. -/
def UpdateStatisticsLabel (p : Pipeline K) (min max mean : K) : Pipeline K :=
  { p with statisticsLabel := some ⟨p.vectorData, min, max, mean⟩ }

/-- Method `VTKPipeline::UpdateVolumeLabel`: the clip-region measure is the
product of the box sizes (all three, or the two across the cut axis). -/
def UpdateVolumeLabel (p : Pipeline K) (size : K) : Pipeline K :=
  let clip := GetClippingBoxSize p
  let t := p.clipType
  if t = ClipType.Extract ∨ t = ClipType.FastClip ∨ t = ClipType.AccurateClip then
    let clipSize := clip.x * clip.y * clip.z
    { p with volumeLabel := some ⟨some .Volume, t, clipSize, size, clipSize - size,
        "Volume Statistics:\nClip: %g m^3\nCells: %g m^3\nDifference: %g m^3"⟩ }
  else if t = ClipType.CutX then
    let clipSize := clip.y * clip.z
    { p with volumeLabel := some ⟨some .Area, t, clipSize, size, clipSize - size,
        "Area Statistics:\n\tClip: %g m^2\nCells: %g m^2\nDifference: %g m^2"⟩ }
  else if t = ClipType.CutY then
    let clipSize := clip.x * clip.z
    { p with volumeLabel := some ⟨some .Area, t, clipSize, size, clipSize - size,
        "Area Statistics:\nClip: %g m^2\nCells: %g m^2\nDifference: %g m^2"⟩ }
  else if t = ClipType.CutZ then
    let clipSize := clip.x * clip.y
    { p with volumeLabel := some ⟨some .Area, t, clipSize, size, clipSize - size,
        "Area Statistics:\nClip: %g m^2\nCells: %g m^2\nDifference: %g m^2"⟩ }
  else
    { p with volumeLabel := some ⟨none, t, 0, size, 0, ""⟩ }

/-- Method `VTKPipeline::UpdateClipLabel`. -/
def UpdateClipLabel (p : Pipeline K) : Pipeline K :=
  let r := abs (GetClippingBoxRotation p)
  { p with clipLabel := some ⟨GetClippingBoxCenter p, GetClippingBoxSize p, r⟩ }

/-! ## Statistics -/

/-- One pass of the loop over the point scalars in `ComputeStatistics`:
`min = v < min ? v : min; max = v > max ? v : max`. -/
def minMaxStep (acc : K × K) (v : K) : K × K :=
  (if v < acc.1 then v else acc.1, if v > acc.2 then v else acc.2)

/-- The `min` and `max` of `ComputeStatistics`: both start at the first point
value (`0.0` for an empty array) and the loop visits the values from index 1. -/
def pointMinMax (pd : List K) : K × K :=
  let min := if pd.length > 0 then pd.getD 0 0 else 0
  ((List.range pd.length).tail.map (fun i => pd.getD i 0)).foldl minMaxStep (min, min)

/-- The accumulators of the loop over the cells. -/
structure Sums (K : Type) where
  sum : K
  xSum : K
  ySum : K
  size : K

/-- Body of the loop over the cells in `ComputeStatistics`, at index `i`.
An index beyond `data` or `cv` (undefined in C++; the arrays of a VTK data set
have one tuple per cell) reads a cell of unknown type, the zero vector. -/
def cellStep (m : MathLib K) (vectorData : VectorData) (data : List (vtkCell K))
    (cd : List K) (cv : List (Vec3 K)) (acc : Sums K) (i : Nat) : Sums K :=
  let cell := data.getD i (.other 0)
  let cellSize := cellSize m cell
  let acc :=
    if vectorData = .XYAngle then
      { acc with xSum := acc.xSum + (cv.getD i ⟨0, 0, 0⟩).x * cellSize,
                 ySum := acc.ySum + (cv.getD i ⟨0, 0, 0⟩).y * cellSize }
    else
      { acc with sum := acc.sum + cd.getD i 0 * cellSize }
  { acc with size := acc.size + cellSize }

/-- The loop over the cells: `for (int i = 0; i < cd->GetNumberOfTuples(); i++)`. -/
def cellSums (m : MathLib K) (vectorData : VectorData) (data : List (vtkCell K))
    (cd : List K) (cv : List (Vec3 K)) : Sums K :=
  (List.range cd.length).foldl (cellStep m vectorData data cd cv) ⟨0, 0, 0, 0⟩

/-- The mean angle computed from `xMean`, `yMean` in the `XYAngle` branch. -/
def meanAngle (m : MathLib K) (xMean yMean : K) : K :=
  let ySign : K := if yMean < 0 then -1 else 1
  let mean := -(DegreesFromRadians m (m.acos (-xMean)) * -ySign - 90)
  if mean < 0 then mean + 360 else mean

/-- The velocity vector of a wind of unit horizontal speed that comes from the
direction `a` (degrees clockwise from +Y): the negated direction vector;
`z` is the vertical component, which the angle statistics do not read. -/
def incomingWindVelocity (m : MathLib K) (a z : K) : Vec3 K :=
  ⟨-m.sin (RadiansFromDegrees m a), -m.cos (RadiansFromDegrees m a), z⟩

/-- The angle `a` is the direction of the vector `(x, y)` measured in degrees
clockwise from +Y and normalised into `[0, 360)`: `(x, y)` is a positive
multiple of `(sin a, cos a)`. -/
def IsDirectionFromY (m : MathLib K) (a x y : K) : Prop :=
  0 ≤ a ∧ a < 360 ∧
    ∃ r : K, 0 < r ∧ x = r * m.sin (RadiansFromDegrees m a) ∧
      y = r * m.cos (RadiansFromDegrees m a)

/-- The `mean` of `ComputeStatistics` from the accumulated sums, in exact
arithmetic; `scalarMeanDouble` is the non-angular branch in double arithmetic,
`meanAngleNaN` the angular branch with the NaN of a zero `size` or of an `acos`
argument outside `[-1, 1]`. -/
def statisticsMean (m : MathLib K) (vectorData : VectorData) (s : Sums K) : K :=
  if vectorData = .XYAngle then
    let xMean := s.xSum / s.size
    let yMean := s.ySum / s.size
    meanAngle m xMean yMean
  else
    s.sum / s.size

/-- Method `VTKPipeline::ComputeStatistics`: returns at once when one of the
four pointers is `NULL`; otherwise sets the statistics label to min, max, mean
and the volume label to the summed cell size. -/
def ComputeStatistics (m : MathLib K) (p : Pipeline K) (out : PipelineOutput K) :
    Pipeline K :=
  match out.data, out.pd, out.cd, out.cv with
  | some data, some pd, some cd, some cv =>
    let mm := pointMinMax pd
    let s := cellSums m p.vectorData data cd cv
    let mean := statisticsMean m p.vectorData s
    let p := UpdateStatisticsLabel p mm.1 mm.2 mean
    UpdateVolumeLabel p s.size
  | _, _, _, _ => p

/-- The output of VTK's `vtkPointDataToCellData` (the `dataCellData` stage) as
`ComputeStatistics` reads it, for a triangulated input with cells `cells`,
point scalars `pd`, and the per-cell averages `cd`, `cv` of the point data:
the filter copies the structure and, when the input has no cell, returns before
it allocates any cell array, so the cell scalars and vectors are `NULL`. -/
def dataCellDataOutput (cells : List (vtkCell K)) (pd : List K) (cd : List K)
    (cv : List (Vec3 K)) : PipelineOutput K :=
  if cells.length < 1 then
    { data := some cells, pd := some pd, cd := none, cv := none }
  else
    { data := some cells, pd := some pd, cd := some cd, cv := some cv }

/-! ## Colour maps

`AddRGBPoint` calls are recorded in call order after `RemoveAllPoints`. -/

/-- Method `VTKPipeline::CreateBlackBody`: the banded ramp, six legend labels. -/
def CreateBlackBody (p : Pipeline K) (min max : K) : Pipeline K :=
  let step : K := 1 / 1000
  { p with
    dataColor := [
      ⟨min, 1 / 16, 0, 1 / 4⟩,
      ⟨min + (max - min) * 1 / 5, 1 / 4, 0, 1⟩,
      ⟨min + (max - min) * 1 / 5 + step, 1 / 4, 0, 0⟩,
      ⟨min + (max - min) * 2 / 5, 1, 0, 0⟩,
      ⟨min + (max - min) * 2 / 5 + step, 1 / 4, 1 / 8, 0⟩,
      ⟨min + (max - min) * 3 / 5, 1, 1 / 2, 0⟩,
      ⟨min + (max - min) * 3 / 5 + step, 1 / 4, 1 / 4, 0⟩,
      ⟨min + (max - min) * 4 / 5, 1, 1, 0⟩,
      ⟨min + (max - min) * 4 / 5 + step, 1 / 4, 1 / 4, 1 / 4⟩,
      ⟨max, 1, 1, 1⟩],
    legendNumberOfLabels := 6 }

/-- Method `VTKPipeline::CreateCircular`: the fixed ramp over 0..360, nine legend labels. -/
def CreateCircular (p : Pipeline K) : Pipeline K :=
  { p with
    dataColor := [
      ⟨0, 1, 1, 1⟩,
      ⟨45, 0, 1, 1⟩,
      ⟨90, 0, 1 / 2, 0⟩,
      ⟨135, 0, 0, 1 / 2⟩,
      ⟨180, 1 / 4, 0, 1 / 4⟩,
      ⟨225, 1 / 2, 0, 0⟩,
      ⟨270, 1, 1 / 2, 0⟩,
      ⟨315, 1, 1, 0⟩,
      ⟨360, 1, 1, 1⟩],
    legendNumberOfLabels := 9 }

/-- Method `VTKPipeline::CreateDoubleEnded`: the ramp anchored at 0, five legend labels. -/
def CreateDoubleEnded (p : Pipeline K) (min max : K) : Pipeline K :=
  { p with
    dataColor := [
      ⟨min, 3 / 4, 1, 1⟩,
      ⟨min * (3 / 4), 0, 1, 1⟩,
      ⟨min * (1 / 10), 0, 0, 1 / 2⟩,
      ⟨0, 1 / 10, 1 / 10, 1 / 10⟩,
      ⟨max * (1 / 10), 1 / 2, 0, 0⟩,
      ⟨max * (3 / 4), 1, 1, 0⟩,
      ⟨max, 1, 1, 3 / 4⟩],
    legendNumberOfLabels := 5 }

/-- Method `VTKPipeline::SetColorMapRange`. -/
def SetColorMapRange (p : Pipeline K) (min max : K) : Pipeline K :=
  match p.vectorData with
  | .XYMagnitude => CreateBlackBody p min max
  | .XYAngle => CreateCircular p
  | .ZComponent =>
    if min < 0 ∧ max > 0 then CreateDoubleEnded p min max
    else CreateBlackBody p min max

/-! ## Clip type and clipping box -/

/-- Method `VTKPipeline::SetClipType`: stores the type and sets the lengths of
the representative cube; the `switch` has no default case. -/
def SetClipType (p : Pipeline K) (type : ClipType) : Pipeline K :=
  let p := { p with clipType := type }
  if type = ClipType.Extract ∨ type = ClipType.FastClip ∨ type = ClipType.AccurateClip then
    { p with clippingCubeSource := ⟨1, 1, 1⟩ }
  else if type = ClipType.CutX then
    { p with clippingCubeSource := ⟨0, 1, 1⟩ }
  else if type = ClipType.CutY then
    { p with clippingCubeSource := ⟨1, 0, 1⟩ }
  else if type = ClipType.CutZ then
    { p with clippingCubeSource := ⟨1, 1, 0⟩ }
  else p

/-- Method `VTKPipeline::SetClippingBoxCenter`. -/
def SetClippingBoxCenter (p : Pipeline K) (x y z : K) : Pipeline K :=
  UpdateClipLabel { p with clippingBoxActor := { p.clippingBoxActor with Position := ⟨x, y, z⟩ } }

/-- Method `VTKPipeline::SetClippingBoxSize`. -/
def SetClippingBoxSize (p : Pipeline K) (x y z : K) : Pipeline K :=
  UpdateClipLabel { p with clippingBoxActor := { p.clippingBoxActor with Scale := ⟨x, y, z⟩ } }

/-- Method `VTKPipeline::SetClippingBoxRotation`: the actor is turned by `-theta` about Z. -/
def SetClippingBoxRotation (p : Pipeline K) (theta : K) : Pipeline K :=
  UpdateClipLabel
    { p with clippingBoxActor := { p.clippingBoxActor with Orientation := ⟨0, 0, -theta⟩ } }

/-- The re-linking `switch` at the head of `VTKPipeline::UpdateClipping`. -/
def relinkClipping (p : Pipeline K) : Pipeline K :=
  let t := p.clipType
  if t = ClipType.Extract then
    { p with dataTriangleInput := .extractData }
  else if t = ClipType.FastClip then
    { p with dataTriangleInput := .clipDataBox }
  else if t = ClipType.AccurateClip then
    { p with clipDataPlanesFirstInput := some .dataAttribute,
             dataTriangleInput := .clipDataPlanesLast }
  else if t = ClipType.CutX then
    { p with cutPlaneNormal := ⟨1, 0, 0⟩, clipDataPlanesFirstInput := some .cutData,
             dataTriangleInput := .clipDataPlanesLast }
  else if t = ClipType.CutY then
    { p with cutPlaneNormal := ⟨0, 1, 0⟩, clipDataPlanesFirstInput := some .cutData,
             dataTriangleInput := .clipDataPlanesLast }
  else if t = ClipType.CutZ then
    { p with cutPlaneNormal := ⟨0, 0, 1⟩, clipDataPlanesFirstInput := some .cutData,
             dataTriangleInput := .clipDataPlanesLast }
  else p

/-- The clipping transform `UpdateClipping` builds: `Identity`, then `Scale` by
the reciprocal actor scale, `RotateZ` by minus the actor's Z orientation,
`Translate` by minus the actor position.  The reciprocals are exact here;
`buildClippingTransformDouble` rounds them to a `double`. -/
def buildClippingTransform (m : MathLib K) (p : Pipeline K) : vtkTransform K :=
  let a := p.clippingBoxActor
  let t := p.clippingBoxTransform.Identity
  let t := t.Scale (1 / a.Scale.x) (1 / a.Scale.y) (1 / a.Scale.z)
  let t := vtkTransform.RotateZ m t (-a.Orientation.z)
  t.Translate (-a.Position.x) (-a.Position.y) (-a.Position.z)

/-- Method `VTKPipeline::UpdateClipping`; `out` is what the VTK pipeline yields
when `ComputeStatistics` updates it. -/
def UpdateClipping (m : MathLib K) (p : Pipeline K) (out : PipelineOutput K) : Pipeline K :=
  let p := relinkClipping p
  let p := { p with clippingBoxTransform := buildClippingTransform m p }
  ComputeStatistics m p out

/-- The C++ conversion `(int)x` of a double: truncation toward zero (defined by
the language when the truncated value fits an `int`). -/
def truncToInt (x : K) : Int := if 0 ≤ x then ⌊x⌋ else ⌈x⌉

/-- The value is a whole number. -/
def IsInteger (x : K) : Prop := ∃ n : ℤ, x = (n : K)

/-- The truncation of `x` is representable as a 32-bit `int`, so `(int)x` is defined. -/
def FitsInt (x : K) : Prop := -(2 : K) ^ 31 - 1 < x ∧ x < (2 : K) ^ 31

/-- Method `VTKPipeline::ResetClippingBox`; `bounds` is what `GetBounds` returns
(`xmin, xmax, ymin, ymax, zmin, zmax`). -/
def ResetClippingBox (p : Pipeline K) (bounds : Fin 6 → K) : Pipeline K :=
  let p := SetClippingBoxCenter p
    (truncToInt ((bounds 1 + bounds 0) / 2))
    (truncToInt ((bounds 3 + bounds 2) / 2))
    (truncToInt ((bounds 5 + bounds 4) / 2))
  let p := SetClippingBoxSize p
    (truncToInt (bounds 1 - bounds 0))
    (truncToInt (bounds 3 - bounds 2))
    (truncToInt (bounds 5 - bounds 4))
  SetClippingBoxRotation p 0

/-! ## Clip settings file -/

/-- Rounding to the nearest integer, an exact tie going to the even neighbour:
the rounding of IEEE 754 arithmetic and of the conversion of a `double` to
decimal digits. -/
def roundHalfEven (x : K) : Int :=
  if x - ⌊x⌋ < 1 / 2 then ⌊x⌋
  else if 1 / 2 < x - ⌊x⌋ then ⌊x⌋ + 1
  else if ⌊x⌋ % 2 = 0 then ⌊x⌋
  else ⌊x⌋ + 1

/-- The number denoted by the text `file << v` writes for a `double` on a
stream with the default format flags and the default precision 6: `v` rounded
to six significant decimal digits, an exact tie to the even digit (`10 ^ e` is
the largest power of ten not above `|v|`; the digits kept are those down to
`10 ^ (e - 5)`). -/
def streamDouble (v : K) : K :=
  if v = 0 then 0
  else
    let e := Int.log 10 |v|
    let q : K := 10 ^ (e - 5)
    (roundHalfEven (v / q) : K) * q

/-- A value with at most six significant decimal digits: an integer below
`10 ^ 6` in absolute value times a power of ten. -/
def SixDigits (v : K) : Prop := ∃ n k : ℤ, |n| < 10 ^ 6 ∧ v = (n : K) * (10 : K) ^ k

/-- The data line of a clip settings file, as the numbers its eight
space-separated fields denote (`file >> x` reads back the number a field
denotes), below the header line. -/
structure ClipSettingsFile (K : Type) where
  header : String
  c : Vec3 K
  s : Vec3 K
  r : K
  t : Int

/-- Method `VTKPipeline::SaveClipSettings`: the file it writes. -/
def SaveClipSettings (p : Pipeline K) : ClipSettingsFile K :=
  let c := GetClippingBoxCenter p
  let s := GetClippingBoxSize p
  let r := GetClippingBoxRotation p
  let t : Int := p.clipType.toInt
  { header := "Center, Size, Rotation, Type",
    c := ⟨streamDouble c.x, streamDouble c.y, streamDouble c.z⟩,
    s := ⟨streamDouble s.x, streamDouble s.y, streamDouble s.z⟩,
    r := streamDouble r,
    t := t }

/-- Method `VTKPipeline::OpenClipSettings` on a file that opened: the header
line is skipped, the eight numbers are read and installed with the setters. -/
def OpenClipSettings (p : Pipeline K) (file : ClipSettingsFile K) : Pipeline K :=
  let p := SetClippingBoxCenter p file.c.x file.c.y file.c.z
  let p := SetClippingBoxSize p file.s.x file.s.y file.s.z
  let p := SetClippingBoxRotation p file.r
  SetClipType p ⟨file.t⟩

/-- The state the constructor `VTKPipeline::VTKPipeline` leaves: VTK's defaults
for the actor (position 0, scale 1, orientation 0, visible), the cube lengths
set to 0, `dataTriangle` fed by the box clip, `XYMagnitude`, five legend labels,
no file name in any reader; `clipType` and `dataSet` are not initialised by the
constructor and are parameters here. -/
def newPipeline (clipType : ClipType) (dataSet : DataSet) : Pipeline K where
  clippingBoxTransform := ⟨1⟩
  clippingCubeSource := ⟨0, 0, 0⟩
  clippingBoxActor := ⟨⟨0, 0, 0⟩, ⟨1, 1, 1⟩, ⟨0, 0, 0⟩, true⟩
  cutPlaneNormal := ⟨0, 0, 1⟩
  dataTriangleInput := .clipDataBox
  clipDataPlanesFirstInput := none
  dataAttributeInput := none
  dataMapperInput := none
  clipType := clipType
  dataSet := dataSet
  vectorData := .XYMagnitude
  dataColor := []
  legendNumberOfLabels := 5
  statisticsLabel := none
  volumeLabel := none
  clipLabel := none
  volumeLabelVisibility := true
  colorWheelVisibility := false
  colorWheelBorderVisibility := false
  contourVisibility := false
  legendTitle := "XY Velocity Magnitude (m/s)"
  dataAttributeScalars := "velocityNormXYMag"
  dataMapperImmediateMode := false
  fileNameLabel := none
  roofOffsetFileName := none
  meshFileName := none
  buildingFileName := none

/-! ## Data set and vector data -/

/-- Getter `VTKPipeline::GetShowVolumeAreaStatisticsLabel`. -/
def GetShowVolumeAreaStatisticsLabel (p : Pipeline K) : Bool := p.volumeLabelVisibility

/-- Method `VTKPipeline::SetShowVolumeAreaStatisticsLabel`. -/
def SetShowVolumeAreaStatisticsLabel (p : Pipeline K) (showLabel : Bool) : Pipeline K :=
  { p with volumeLabelVisibility := showLabel }

/-- Method `VTKPipeline::ResetColorMapRange`; `dataRange` is the scalar range
of the output of `dataAttribute`. -/
def ResetColorMapRange (p : Pipeline K) (dataRange : Fin 2 → K) : Pipeline K :=
  SetColorMapRange p (dataRange 0) (dataRange 1)

/-- Method `VTKPipeline::SetDataSet`.  `dataRange` and `bounds` are the scalar
range and the bounds of the output of `dataAttribute` once it is fed by the
chosen reader, `out` what the pipeline yields to `ComputeStatistics`. -/
def SetDataSet (m : MathLib K) (p : Pipeline K) (which : DataSet) (dataRange : Fin 2 → K)
    (bounds : Fin 6 → K) (out : PipelineOutput K) : Pipeline K :=
  let p := { p with dataSet := which }
  let p :=
    match which with
    | .RoofOffset =>
      let p := SetClipType p ClipType.AccurateClip
      { p with dataAttributeInput := some .roofOffsetReader,
               dataMapperImmediateMode := false,
               dataMapperInput := some .roofOffsetExtrusion,
               volumeLabelVisibility := false,
               fileNameLabel := p.roofOffsetFileName }
    | .Mesh =>
      let p := SetClipType p ClipType.CutZ
      { p with dataAttributeInput := some .meshReader,
               dataMapperImmediateMode := true,
               dataMapperInput := some .dataSurface,
               volumeLabelVisibility := true,
               fileNameLabel := p.meshFileName }
  let p := ResetColorMapRange p dataRange
  let p := ResetClippingBox p bounds
  UpdateClipping m p out

/-- Method `VTKPipeline::SetVectorData`; `dataRange` and `out` as for `SetDataSet`.
The call `contourActor->VisibilityOn()` of the `ZComponent` case is commented
out in the source. -/
def SetVectorData (m : MathLib K) (p : Pipeline K) (which : VectorData)
    (dataRange : Fin 2 → K) (out : PipelineOutput K) : Pipeline K :=
  let p := { p with vectorData := which, colorWheelVisibility := false,
                    colorWheelBorderVisibility := false, contourVisibility := false }
  let p :=
    match which with
    | .XYMagnitude =>
      { p with legendTitle := "XY Velocity Magnitude (m/s)",
               dataAttributeScalars := "velocityNormXYMag" }
    | .XYAngle =>
      { p with legendTitle := "XY Velocity Angle (degrees)",
               dataAttributeScalars := "velocityNormXYAngle",
               colorWheelVisibility := true,
               colorWheelBorderVisibility := true }
    | .ZComponent =>
      { p with legendTitle := "Z Velocity Component (m/s)",
               dataAttributeScalars := "velocityNormZ" }
  let p := ResetColorMapRange p dataRange
  ComputeStatistics m p out

/-! ## Reading a file that may not open -/

/-- Method `VTKPipeline::OpenClipSettings` on a file name: `file` is the content
of the file, `none` when it cannot be opened.  On failure the method only
prints a message and goes on; the reads on the failed stream store nothing, so
the setters receive the values `uninit` that the uninitialised locals
`c`, `s`, `r`, `t` happen to hold. -/
def OpenClipSettingsFile (p : Pipeline K) (file : Option (ClipSettingsFile K))
    (uninit : ClipSettingsFile K) : Pipeline K :=
  match file with
  | some f => OpenClipSettings p f
  | none => OpenClipSettings p uninit

/-- The fields of the active `vtkCamera` that the camera view file holds. -/
structure vtkCamera (K : Type) where
  Position : Vec3 K
  FocalPoint : Vec3 K
  ViewUp : Vec3 K

/-- The data line of a camera view file: nine numbers. -/
structure CameraViewFile (K : Type) where
  header : String
  p : Vec3 K
  f : Vec3 K
  u : Vec3 K

/-- Method `VTKPipeline::SaveCameraView`: the file it writes. -/
def SaveCameraView (c : vtkCamera K) : CameraViewFile K :=
  { header := "Position, Focal Point, View Up",
    p := ⟨streamDouble c.Position.x, streamDouble c.Position.y, streamDouble c.Position.z⟩,
    f := ⟨streamDouble c.FocalPoint.x, streamDouble c.FocalPoint.y,
          streamDouble c.FocalPoint.z⟩,
    u := ⟨streamDouble c.ViewUp.x, streamDouble c.ViewUp.y, streamDouble c.ViewUp.z⟩ }

/-- Setter `vtkCamera::SetViewUp`: the vector is stored normalised, and a zero
vector is replaced by (0, 1, 0). -/
def vtkCamera.SetViewUp (m : MathLib K) (c : vtkCamera K) (u : Vec3 K) : vtkCamera K :=
  let norm := m.sqrt (u.x * u.x + u.y * u.y + u.z * u.z)
  if norm ≠ 0 then { c with ViewUp := ⟨u.x / norm, u.y / norm, u.z / norm⟩ }
  else { c with ViewUp := ⟨0, 1, 0⟩ }

/-- Method `VTKPipeline::OpenCameraView` on a file name, as it acts on the
camera: `file` is `none` when the file cannot be opened, and then the setters
receive the values `uninit` of the uninitialised locals `p`, `f`, `u`. -/
def OpenCameraView (m : MathLib K) (c : vtkCamera K) (file : Option (CameraViewFile K))
    (uninit : CameraViewFile K) : vtkCamera K :=
  let v := match file with
    | some f => f
    | none => uninit
  let c := { c with Position := v.p }
  let c := { c with FocalPoint := v.f }
  vtkCamera.SetViewUp m c v.u

/-! ## Saved data export -/

/-- Center `vtkTriangle::TriangleCenter`. -/
def TriangleCenter (p1 p2 p3 : Vec3 K) : Vec3 K :=
  ⟨(p1.x + p2.x + p3.x) / 3, (p1.y + p2.y + p3.y) / 3, (p1.z + p2.z + p3.z) / 3⟩

/-- Center `vtkTetra::TetraCenter`. -/
def TetraCenter (p1 p2 p3 p4 : Vec3 K) : Vec3 K :=
  ⟨(p1.x + p2.x + p3.x + p4.x) / 4, (p1.y + p2.y + p3.y + p4.y) / 4,
   (p1.z + p2.z + p3.z + p4.z) / 4⟩

/-- The `center` computed by the `switch` on the cell type in `SaveData`; for
a cell of another type the array is not written and holds whatever the
uninitialised local `center` holds, `uninit`. -/
def cellCenter (uninit : Vec3 K) : vtkCell K → Vec3 K
  | .triangle p0 p1 p2 => TriangleCenter p0 p1 p2
  | .tetra p0 p1 p2 p3 => TetraCenter p0 p1 p2 p3
  | .other _ => uninit

/-- One data line of the export, as the numbers its five comma-separated
fields denote. -/
structure SaveDataRecord (K : Type) where
  value : K
  cellSize : K
  x : K
  y : K
  z : K

/-- The file `SaveData` writes: the header line and one record per line. -/
structure SaveDataFile (K : Type) where
  header : String
  records : List (SaveDataRecord K)

/-- Body of the loop over the cells in `SaveData`, at index `i`: the line
written for cell `i`.  `uninit i` is what the uninitialised `center` holds in
that pass. -/
def saveDataRecord (m : MathLib K) (uninit : Nat → Vec3 K) (data : List (vtkCell K))
    (cd : List K) (i : Nat) : SaveDataRecord K :=
  let cell := data.getD i (.other 0)
  let cellSize := cellSize m cell
  let center := cellCenter (uninit i) cell
  ⟨streamDouble (cd.getD i 0), streamDouble cellSize, streamDouble center.x,
   streamDouble center.y, streamDouble center.z⟩

/-- The word `av` of the header of `SaveData`. -/
def areaOrVolume (p : Pipeline K) : String :=
  if p.dataSet = .RoofOffset ∨ p.clipType = ClipType.CutX ∨ p.clipType = ClipType.CutY ∨
      p.clipType = ClipType.CutZ then "Area"
  else "Volume"

/-- Method `VTKPipeline::SaveData`: the file it writes, `none` when it returns
at its guard (`data` or `cd` is `NULL`) before opening the file. -/
def SaveData (m : MathLib K) (p : Pipeline K) (out : PipelineOutput K)
    (uninit : Nat → Vec3 K) : Option (SaveDataFile K) :=
  match out.data, out.cd with
  | some data, some cd =>
    some { header := "Value, " ++ areaOrVolume p ++ ", X, Y, Z",
           records := (List.range cd.length).map (saveDataRecord m uninit data cd) }
  | _, _ => none

/-! ## Sequences of public operations -/

/-- A call of a public operation of the controller, with its arguments and the
data the VTK pipeline yields during the call. -/
inductive Operation (K : Type) where
  | SetClipType (type : ClipType)
  | SetDataSet (which : DataSet) (dataRange : Fin 2 → K) (bounds : Fin 6 → K)
      (out : PipelineOutput K)
  | SetVectorData (which : VectorData) (dataRange : Fin 2 → K) (out : PipelineOutput K)
  | UpdateClipping (out : PipelineOutput K)
  | OpenClipSettings (file : Option (ClipSettingsFile K)) (uninit : ClipSettingsFile K)
  | SetClippingBoxCenter (x y z : K)
  | SetClippingBoxSize (x y z : K)
  | SetClippingBoxRotation (theta : K)
  | ResetClippingBox (bounds : Fin 6 → K)
  | SetColorMapRange (min max : K)
  | SetShowVolumeAreaStatisticsLabel (showLabel : Bool)

/-- The state after one operation. -/
def applyOperation (m : MathLib K) (p : Pipeline K) : Operation K → Pipeline K
  | .SetClipType type => SetClipType p type
  | .SetDataSet which dataRange bounds out => SetDataSet m p which dataRange bounds out
  | .SetVectorData which dataRange out => SetVectorData m p which dataRange out
  | .UpdateClipping out => UpdateClipping m p out
  | .OpenClipSettings file uninit => OpenClipSettingsFile p file uninit
  | .SetClippingBoxCenter x y z => SetClippingBoxCenter p x y z
  | .SetClippingBoxSize x y z => SetClippingBoxSize p x y z
  | .SetClippingBoxRotation theta => SetClippingBoxRotation p theta
  | .ResetClippingBox bounds => ResetClippingBox p bounds
  | .SetColorMapRange min max => SetColorMapRange p min max
  | .SetShowVolumeAreaStatisticsLabel showLabel => SetShowVolumeAreaStatisticsLabel p showLabel

/-- The state after a sequence of operations, applied from the left. -/
def runOperations (m : MathLib K) (p : Pipeline K) (ops : List (Operation K)) : Pipeline K :=
  ops.foldl (applyOperation m) p

/-- The stage that has to feed the triangulation for a clip type: the extract
filter, the box clip, or the end of the plane-clip chain; `none` for a value
that is not an enumerator. -/
def clipStageOf (t : ClipType) : Option Port :=
  if t = ClipType.Extract then some .extractData
  else if t = ClipType.FastClip then some .clipDataBox
  else if t = ClipType.AccurateClip ∨ t = ClipType.CutX ∨ t = ClipType.CutY ∨
      t = ClipType.CutZ then some .clipDataPlanesLast
  else none

/-! ## The wiring of the stages -/

/-- The plane (1 to 6) a stage of the plane-clip chain clips against, as the
constructor sets the clip functions: `clipDataPlanesFirst` has `plane1`, the
local filters `dataClip2` to `dataClip5` have `plane2` to `plane5`,
`clipDataPlanesLast` has `plane6`; `none` for any other stage. -/
def clipPlaneOf : Port → Option Nat
  | .clipDataPlanesFirst => some 1
  | .dataClip2 => some 2
  | .dataClip3 => some 3
  | .dataClip4 => some 4
  | .dataClip5 => some 5
  | .clipDataPlanesLast => some 6
  | _ => none

/-- The input connection of the stage that owns an output port: the fixed
connections the constructor makes, and the connections the operations change
(kept in the state). -/
def inputOf (p : Pipeline K) : Port → Option Port
  | .roofOffsetReader => none
  | .meshReader => none
  | .buildingReader => none
  | .dataAttribute => p.dataAttributeInput
  | .extractData => some .dataAttribute
  | .clipDataBox => some .dataAttribute
  | .cutData => some .dataAttribute
  | .clipDataPlanesFirst => p.clipDataPlanesFirstInput
  | .dataClip2 => some .clipDataPlanesFirst
  | .dataClip3 => some .dataClip2
  | .dataClip4 => some .dataClip3
  | .dataClip5 => some .dataClip4
  | .clipDataPlanesLast => some .dataClip5
  | .dataTriangle => some p.dataTriangleInput
  | .dataCellData => some .dataTriangle
  | .dataSurface => some .dataTriangle
  | .roofOffsetExtrusion => some .dataSurface

/-- The stages the data passes before it reaches `port`, the nearest first, at
most `fuel` of them. -/
def upstreamOf (p : Pipeline K) : Nat → Port → List Port
  | 0, _ => []
  | fuel + 1, port =>
    match inputOf p port with
    | none => []
    | some q => q :: upstreamOf p fuel q

/-! ## Opening files -/

/-- Predicate `VTKPipeline::HasRoofOffset`. -/
def HasRoofOffset (p : Pipeline K) : Bool := p.roofOffsetFileName.isSome

/-- Predicate `VTKPipeline::HasMesh`. -/
def HasMesh (p : Pipeline K) : Bool := p.meshFileName.isSome

/-- Predicate `VTKPipeline::HasBuilding`. -/
def HasBuilding (p : Pipeline K) : Bool := p.buildingFileName.isSome

/-- The local `needReset` of the three file-opening methods, computed before
the file name is set. -/
def needReset (p : Pipeline K) : Bool := !HasRoofOffset p && !HasMesh p && !HasBuilding p

/-- Method `VTKPipeline::OpenRoofOffsetFile` with a non-null file name: the new
state, and whether `renderer->ResetCamera()` was called.  The actors it adds
to the renderer are not part of the modelled state. -/
def OpenRoofOffsetFile (m : MathLib K) (p : Pipeline K) (fileName : String)
    (dataRange : Fin 2 → K) (bounds : Fin 6 → K) (out : PipelineOutput K) :
    Pipeline K × Bool :=
  let needReset := needReset p
  let p := { p with roofOffsetFileName := some fileName }
  let p := SetDataSet m p .RoofOffset dataRange bounds out
  (p, needReset)

/-- Method `VTKPipeline::OpenMeshFile` with a non-null file name. -/
def OpenMeshFile (m : MathLib K) (p : Pipeline K) (fileName : String)
    (dataRange : Fin 2 → K) (bounds : Fin 6 → K) (out : PipelineOutput K) :
    Pipeline K × Bool :=
  let needReset := needReset p
  let p := { p with meshFileName := some fileName }
  let p := SetDataSet m p .Mesh dataRange bounds out
  (p, needReset)

/-- Method `VTKPipeline::OpenBuildingFile` with a non-null file name. -/
def OpenBuildingFile (p : Pipeline K) (fileName : String) : Pipeline K × Bool :=
  let needReset := needReset p
  let p := { p with buildingFileName := some fileName }
  (p, needReset)

/-- A call of one of the three file-opening methods. -/
inductive OpenCall (K : Type) where
  | roofOffset (fileName : String) (dataRange : Fin 2 → K) (bounds : Fin 6 → K)
      (out : PipelineOutput K)
  | mesh (fileName : String) (dataRange : Fin 2 → K) (bounds : Fin 6 → K)
      (out : PipelineOutput K)
  | building (fileName : String)

/-- The state after a file-opening call and whether it reset the camera. -/
def applyOpenCall (m : MathLib K) (p : Pipeline K) : OpenCall K → Pipeline K × Bool
  | .roofOffset fileName dataRange bounds out =>
    OpenRoofOffsetFile m p fileName dataRange bounds out
  | .mesh fileName dataRange bounds out => OpenMeshFile m p fileName dataRange bounds out
  | .building fileName => OpenBuildingFile p fileName

/-- For a sequence of file-opening calls, whether each call reset the camera. -/
def cameraResets (m : MathLib K) (p : Pipeline K) : List (OpenCall K) → List Bool
  | [] => []
  | c :: cs => (applyOpenCall m p c).2 :: cameraResets m (applyOpenCall m p c).1 cs

/-! ## The order of the steps of an action -/

/-- A step of a state-changing action, as far as its order matters:
a `SetInputConnection` on a stage, the attribute assignment of
`dataAttribute`, a colour-map rebuild (`CreateBlackBody`, `CreateCircular` or
`CreateDoubleEnded`, reached through `ResetColorMapRange`), a call of
`ComputeStatistics`, or any other statement. -/
inductive Step where
  | setInputConnection (stage : String) (input : Port)
  | assignAttribute (name : String)
  | rebuildColorMap
  | computeStatistics
  | other (statement : String)
  deriving DecidableEq, Repr

/-- A re-linking step: a `SetInputConnection` or the attribute assignment. -/
def Step.isRelink : Step → Bool
  | .setInputConnection _ _ => true
  | .assignAttribute _ => true
  | _ => false

/-- A dependent recomputation: the colour-map rebuild or `ComputeStatistics`. -/
def Step.isRecompute : Step → Bool
  | .rebuildColorMap => true
  | .computeStatistics => true
  | _ => false

/-- No re-linking step comes after a recomputation. -/
def relinksFirst (steps : List Step) : Prop :=
  steps.Pairwise (fun a b => ¬ (a.isRecompute = true ∧ b.isRelink = true))

/-- The steps of `VTKPipeline::UpdateClipping` for the clip type `t`, in the
order of the source. -/
def UpdateClippingSteps (t : ClipType) : List Step :=
  (if t = ClipType.Extract then
    [.setInputConnection "dataTriangle" .extractData]
  else if t = ClipType.FastClip then
    [.setInputConnection "dataTriangle" .clipDataBox]
  else if t = ClipType.AccurateClip then
    [.setInputConnection "clipDataPlanesFirst" .dataAttribute,
     .setInputConnection "dataTriangle" .clipDataPlanesLast]
  else if t = ClipType.CutX ∨ t = ClipType.CutY ∨ t = ClipType.CutZ then
    [.other "cutPlane->SetNormal",
     .setInputConnection "clipDataPlanesFirst" .cutData,
     .setInputConnection "dataTriangle" .clipDataPlanesLast]
  else [])
  ++ [.other "clippingBoxTransform: Identity, Scale, RotateZ, Translate",
      .computeStatistics]

/-- The steps of `VTKPipeline::SetDataSet`, in the order of the source. -/
def SetDataSetSteps (which : DataSet) : List Step :=
  [.other "dataSet = which"]
  ++ (match which with
    | .RoofOffset =>
      [.other "SetClipType(AccurateClip)",
       .setInputConnection "dataAttribute" .roofOffsetReader,
       .other "dataMapper->ImmediateModeRenderingOff",
       .setInputConnection "dataMapper" .roofOffsetExtrusion,
       .other "volumeLabel->VisibilityOff",
       .other "fileNameLabel->SetInput"]
    | .Mesh =>
      [.other "SetClipType(CutZ)",
       .setInputConnection "dataAttribute" .meshReader,
       .other "dataMapper->ImmediateModeRenderingOn",
       .setInputConnection "dataMapper" .dataSurface,
       .other "volumeLabel->VisibilityOn",
       .other "fileNameLabel->SetInput"])
  ++ [.other "dataAttribute->Update",
      .rebuildColorMap,
      .other "ResetClippingBox"]
  ++ UpdateClippingSteps (match which with
    | .RoofOffset => ClipType.AccurateClip
    | .Mesh => ClipType.CutZ)
  ++ [.other "renderer->ResetCameraClippingRange"]

/-- The steps of `VTKPipeline::SetVectorData`, in the order of the source. -/
def SetVectorDataSteps (which : VectorData) : List Step :=
  [.other "vectorData = which",
   .other "colorWheelActor->VisibilityOff",
   .other "colorWheelBorderActor->VisibilityOff",
   .other "contourActor->VisibilityOff"]
  ++ (match which with
    | .XYMagnitude =>
      [.other "legend->SetTitle", .assignAttribute "velocityNormXYMag"]
    | .XYAngle =>
      [.other "legend->SetTitle", .assignAttribute "velocityNormXYAngle",
       .other "colorWheelActor->VisibilityOn", .other "colorWheelBorderActor->VisibilityOn"]
    | .ZComponent =>
      [.other "legend->SetTitle", .assignAttribute "velocityNormZ"])
  ++ [.other "UpdatePipeline", .rebuildColorMap, .computeStatistics]

/-- The arguments of a state-changing action and what the VTK pipeline yields
during it: the `which` of `SetDataSet` and of `SetVectorData`, the scalar range
and the bounds of the output of `dataAttribute`, the data `ComputeStatistics`
reads. -/
structure StepArgs (K : Type) where
  dataSet : DataSet
  vectorData : VectorData
  dataRange : Fin 2 → K
  bounds : Fin 6 → K
  out : PipelineOutput K

/-- What a step does to the state: the statement of the source it stands for,
executed on the embedded state. -/
def Step.run (m : MathLib K) (a : StepArgs K) (p : Pipeline K) : Step → Pipeline K
  | .setInputConnection stage input =>
    if stage = "dataTriangle" then { p with dataTriangleInput := input }
    else if stage = "clipDataPlanesFirst" then { p with clipDataPlanesFirstInput := some input }
    else if stage = "dataAttribute" then { p with dataAttributeInput := some input }
    else if stage = "dataMapper" then { p with dataMapperInput := some input }
    else p
  | .assignAttribute name => { p with dataAttributeScalars := name }
  | .rebuildColorMap => ResetColorMapRange p a.dataRange
  | .computeStatistics => ComputeStatistics m p a.out
  | .other statement =>
    if statement = "dataSet = which" then { p with dataSet := a.dataSet }
    else if statement = "SetClipType(AccurateClip)" then SetClipType p ClipType.AccurateClip
    else if statement = "SetClipType(CutZ)" then SetClipType p ClipType.CutZ
    else if statement = "dataMapper->ImmediateModeRenderingOff" then
      { p with dataMapperImmediateMode := false }
    else if statement = "dataMapper->ImmediateModeRenderingOn" then
      { p with dataMapperImmediateMode := true }
    else if statement = "volumeLabel->VisibilityOff" then
      { p with volumeLabelVisibility := false }
    else if statement = "volumeLabel->VisibilityOn" then
      { p with volumeLabelVisibility := true }
    else if statement = "fileNameLabel->SetInput" then
      { p with fileNameLabel :=
          match a.dataSet with
          | .RoofOffset => p.roofOffsetFileName
          | .Mesh => p.meshFileName }
    else if statement = "ResetClippingBox" then ResetClippingBox p a.bounds
    else if statement = "cutPlane->SetNormal" then
      { p with cutPlaneNormal :=
          if p.clipType = ClipType.CutX then ⟨1, 0, 0⟩
          else if p.clipType = ClipType.CutY then ⟨0, 1, 0⟩
          else ⟨0, 0, 1⟩ }
    else if statement = "clippingBoxTransform: Identity, Scale, RotateZ, Translate" then
      { p with clippingBoxTransform := buildClippingTransform m p }
    else if statement = "vectorData = which" then { p with vectorData := a.vectorData }
    else if statement = "colorWheelActor->VisibilityOff" then
      { p with colorWheelVisibility := false }
    else if statement = "colorWheelBorderActor->VisibilityOff" then
      { p with colorWheelBorderVisibility := false }
    else if statement = "contourActor->VisibilityOff" then
      { p with contourVisibility := false }
    else if statement = "colorWheelActor->VisibilityOn" then
      { p with colorWheelVisibility := true }
    else if statement = "colorWheelBorderActor->VisibilityOn" then
      { p with colorWheelBorderVisibility := true }
    else if statement = "legend->SetTitle" then
      { p with legendTitle :=
          match a.vectorData with
          | .XYMagnitude => "XY Velocity Magnitude (m/s)"
          | .XYAngle => "XY Velocity Angle (degrees)"
          | .ZComponent => "Z Velocity Component (m/s)" }
    else p

/-- The state after the steps of an action, executed in their order. -/
def runSteps (m : MathLib K) (a : StepArgs K) (p : Pipeline K) (steps : List Step) :
    Pipeline K :=
  steps.foldl (Step.run m a) p

/-! ## Double arithmetic and NaN

The definitions above compute in an exact ordered field.  The ones below follow
the same statements of the source with every arithmetic result rounded to a
`double`, and with the C library's NaN made explicit. -/

/-- The `double` nearest to `x` (IEEE 754 binary64, round to nearest, an exact
tie to the even significand): `2 ^ e` is the largest power of two not above
`|x|` and the 53 binary digits down to `2 ^ (e - 52)` are kept.  Overflow and
subnormal numbers are not modelled. -/
def flDouble (x : K) : K :=
  if x = 0 then 0
  else
    let e := Int.log 2 |x|
    let q : K := 2 ^ (e - 52)
    (roundHalfEven (x / q) : K) * q

/-- Body of the loop over the cells in `ComputeStatistics` in double
arithmetic: every product and every sum is rounded to a `double`; the cell size
is the `double` the VTK function returns. -/
def cellStepDouble (m : MathLib K) (vectorData : VectorData) (data : List (vtkCell K))
    (cd : List K) (cv : List (Vec3 K)) (acc : Sums K) (i : Nat) : Sums K :=
  let cell := data.getD i (.other 0)
  let cellSize := flDouble (cellSize m cell)
  let acc :=
    if vectorData = .XYAngle then
      { acc with
          xSum := flDouble (acc.xSum + flDouble ((cv.getD i ⟨0, 0, 0⟩).x * cellSize)),
          ySum := flDouble (acc.ySum + flDouble ((cv.getD i ⟨0, 0, 0⟩).y * cellSize)) }
    else
      { acc with sum := flDouble (acc.sum + flDouble (cd.getD i 0 * cellSize)) }
  { acc with size := flDouble (acc.size + cellSize) }

/-- The loop over the cells of `ComputeStatistics` in double arithmetic. -/
def cellSumsDouble (m : MathLib K) (vectorData : VectorData) (data : List (vtkCell K))
    (cd : List K) (cv : List (Vec3 K)) : Sums K :=
  (List.range cd.length).foldl (cellStepDouble m vectorData data cd cv) ⟨0, 0, 0, 0⟩

/-- The statement `mean = sum / size` of the non-angular branch of
`ComputeStatistics` in double arithmetic. -/
def scalarMeanDouble (s : Sums K) : K := flDouble (s.sum / s.size)

/-- The clipping transform of `UpdateClipping` with the scale factors
`1.0 / clippingBoxActor->GetScale()[i]` rounded to a `double`, as the code
passes them to `Scale`.  The concatenation of the matrices is kept exact; for
orientation 0 and position 0 it only multiplies by 0 and 1 and adds 0, which is
exact in double arithmetic as well. -/
def buildClippingTransformDouble (m : MathLib K) (p : Pipeline K) : vtkTransform K :=
  let a := p.clippingBoxActor
  let t := p.clippingBoxTransform.Identity
  let t := t.Scale (flDouble (1 / a.Scale.x)) (flDouble (1 / a.Scale.y))
    (flDouble (1 / a.Scale.z))
  let t := vtkTransform.RotateZ m t (-a.Orientation.z)
  t.Translate (-a.Position.x) (-a.Position.y) (-a.Position.z)

end Defs

/-! ## Theorems -/

section Lemmas

variable {K : Type} [LinearOrderedField K]

theorem ComputeStatistics_clippingBoxActor (m : MathLib K) (p : Pipeline K)
    (out : PipelineOutput K) :
    (ComputeStatistics m p out).clippingBoxActor = p.clippingBoxActor := by
  unfold ComputeStatistics
  split
  · simp only [UpdateVolumeLabel, UpdateStatisticsLabel]
    split_ifs <;> rfl
  · rfl

theorem ComputeStatistics_clippingBoxTransform (m : MathLib K) (p : Pipeline K)
    (out : PipelineOutput K) :
    (ComputeStatistics m p out).clippingBoxTransform = p.clippingBoxTransform := by
  unfold ComputeStatistics
  split
  · simp only [UpdateVolumeLabel, UpdateStatisticsLabel]
    split_ifs <;> rfl
  · rfl

theorem relinkClipping_clippingBoxActor (p : Pipeline K) :
    (relinkClipping p).clippingBoxActor = p.clippingBoxActor := by
  unfold relinkClipping
  simp only
  split_ifs <;> rfl

theorem UpdateClipping_clippingBoxActor (m : MathLib K) (p : Pipeline K)
    (out : PipelineOutput K) :
    (UpdateClipping m p out).clippingBoxActor = p.clippingBoxActor := by
  simp only [UpdateClipping, ComputeStatistics_clippingBoxActor,
    relinkClipping_clippingBoxActor]

theorem UpdateClipping_matrix (m : MathLib K) (p : Pipeline K) (out : PipelineOutput K) :
    (UpdateClipping m p out).clippingBoxTransform.matrix =
      scaleMatrix (1 / p.clippingBoxActor.Scale.x) (1 / p.clippingBoxActor.Scale.y)
          (1 / p.clippingBoxActor.Scale.z)
        * rotateZMatrix m (-p.clippingBoxActor.Orientation.z)
        * translateMatrix (-p.clippingBoxActor.Position.x) (-p.clippingBoxActor.Position.y)
          (-p.clippingBoxActor.Position.z) := by
  simp only [UpdateClipping, ComputeStatistics_clippingBoxTransform, buildClippingTransform,
    relinkClipping_clippingBoxActor, vtkTransform.Identity, vtkTransform.Scale,
    vtkTransform.RotateZ, vtkTransform.Translate, one_mul]

/-- Affine matrices act on points by composition. -/
theorem transformPoint_mul (A B : Matrix4 K) (hB : B 3 0 = 0 ∧ B 3 1 = 0 ∧ B 3 2 = 0 ∧ B 3 3 = 1)
    (pt : Vec3 K) :
    transformPoint (A * B) pt = transformPoint A (transformPoint B pt) := by
  obtain ⟨h0, h1, h2, h3⟩ := hB
  simp only [transformPoint, Matrix.mul_apply, Fin.sum_univ_four, h0, h1, h2, h3,
    Vec3.mk.injEq]
  refine ⟨?_, ?_, ?_⟩ <;> ring

theorem scaleMatrix_mul_inv (x y z : K) (hx : x ≠ 0) (hy : y ≠ 0) (hz : z ≠ 0) :
    scaleMatrix (1 / x) (1 / y) (1 / z) * scaleMatrix x y z = 1 ∧
      scaleMatrix x y z * scaleMatrix (1 / x) (1 / y) (1 / z) = 1 := by
  constructor <;>
  · ext i j
    fin_cases i <;> fin_cases j <;>
      simp [scaleMatrix, Matrix.mul_apply, Fin.sum_univ_four, Matrix.vecHead, Matrix.vecTail,
        hx, hy, hz]

theorem translateMatrix_mul_inv (x y z : K) :
    translateMatrix (-x) (-y) (-z) * translateMatrix x y z = 1 ∧
      translateMatrix x y z * translateMatrix (-x) (-y) (-z) = 1 := by
  constructor <;>
  · ext i j
    fin_cases i <;> fin_cases j <;>
      simp [translateMatrix, Matrix.mul_apply, Fin.sum_univ_four, Matrix.vecHead,
        Matrix.vecTail]

/-- Inverses compose: the product of three inverses, in reverse order, inverts a product. -/
theorem mul_three_inv (A B C A1 B1 C1 : Matrix4 K) (hA : A1 * A = 1) (hB : B1 * B = 1)
    (hC : C1 * C = 1) : (A1 * B1 * C1) * (C * B * A) = 1 := by
  calc (A1 * B1 * C1) * (C * B * A) = A1 * (B1 * (C1 * C) * B) * A := by
        simp only [Matrix.mul_assoc]
    _ = 1 := by rw [hC, Matrix.mul_one, hB, Matrix.mul_one, hA]

theorem rotateZMatrix_mul_inv (a : ℝ) :
    rotateZMatrix realMath (-a) * rotateZMatrix realMath a = 1 ∧
      rotateZMatrix realMath a * rotateZMatrix realMath (-a) = 1 := by
  have e : -(a * Real.pi) / 180 = -(a * Real.pi / 180) := by ring
  have h1 := Real.cos_sq_add_sin_sq (a * Real.pi / 180)
  constructor <;>
  · ext i j
    fin_cases i <;> fin_cases j <;>
      simp [rotateZMatrix, RadiansFromDegrees, realMath, Matrix.mul_apply, Fin.sum_univ_four,
        Matrix.vecHead, Matrix.vecTail, e] <;>
      nlinarith [h1]

theorem SetClipType_clippingBoxActor (p : Pipeline K) (t : ClipType) :
    (SetClipType p t).clippingBoxActor = p.clippingBoxActor := by
  unfold SetClipType
  simp only
  split_ifs <;> rfl

theorem SetClipType_clipType (p : Pipeline K) (t : ClipType) :
    (SetClipType p t).clipType = t := by
  unfold SetClipType
  simp only
  split_ifs <;> rfl

/-- What the getters return after `OpenClipSettings`: the numbers of the file. -/
theorem OpenClipSettings_getters (q : Pipeline K) (f : ClipSettingsFile K) :
    GetClippingBoxCenter (OpenClipSettings q f) = f.c ∧
      GetClippingBoxSize (OpenClipSettings q f) = f.s ∧
      GetClippingBoxRotation (OpenClipSettings q f) = f.r ∧
      GetClipType (OpenClipSettings q f) = ⟨f.t⟩ := by
  simp [OpenClipSettings, GetClippingBoxCenter, GetClippingBoxSize, GetClippingBoxRotation,
    GetClipType, SetClipType_clippingBoxActor, SetClipType_clipType, SetClippingBoxRotation,
    SetClippingBoxSize, SetClippingBoxCenter, UpdateClipLabel]

theorem realMath_pi : realMath.pi = Real.pi := rfl

theorem realMath_cos : realMath.cos = Real.cos := rfl

theorem realMath_sin : realMath.sin = Real.sin := rfl

theorem realMath_acos : realMath.acos = Real.arccos := rfl

theorem realMath_sqrt : realMath.sqrt = Real.sqrt := rfl

/-! Lemmas on the loop over the cells -/

theorem map_range_getD {α β : Type} (l : List α) (d : α) (f : α → β) :
    (List.range l.length).map (fun i => f (l.getD i d)) = l.map f := by
  apply List.ext_getElem
  · simp
  · intro i h1 h2
    simp at h1
    simp [List.getElem?_eq_getElem h1]

/-- The size accumulated over a list of indices. -/
theorem foldl_cellStep_size (m : MathLib K) (vd : VectorData) (data : List (vtkCell K))
    (cd : List K) (cv : List (Vec3 K)) (is : List Nat) (acc : Sums K) :
    (is.foldl (cellStep m vd data cd cv) acc).size =
      acc.size + (is.map (fun i => cellSize m (data.getD i (.other 0)))).sum := by
  induction is generalizing acc with
  | nil => simp
  | cons i is ih =>
    have hstep : (cellStep m vd data cd cv acc i).size =
        acc.size + cellSize m (data.getD i (.other 0)) := by
      unfold cellStep
      simp only
      split_ifs <;> rfl
    rw [List.foldl_cons, ih, hstep]
    simp only [List.map_cons, List.sum_cons]
    ring

/-- The weighted scalar sum accumulated over a list of indices, in a non-angular mode. -/
theorem foldl_cellStep_sum (m : MathLib K) (vd : VectorData) (hvd : vd ≠ .XYAngle)
    (data : List (vtkCell K)) (cd : List K) (cv : List (Vec3 K)) (is : List Nat)
    (acc : Sums K) :
    (is.foldl (cellStep m vd data cd cv) acc).sum =
      acc.sum + (is.map (fun i => cd.getD i 0 * cellSize m (data.getD i (.other 0)))).sum := by
  induction is generalizing acc with
  | nil => simp
  | cons i is ih =>
    rw [List.foldl_cons, ih]
    simp only [cellStep, if_neg hvd, List.map_cons, List.sum_cons]
    ring

/-- The weighted vector sums accumulated over a list of indices, in `XYAngle` mode. -/
theorem foldl_cellStep_xySum (m : MathLib K) (data : List (vtkCell K)) (cd : List K)
    (cv : List (Vec3 K)) (is : List Nat) (acc : Sums K) :
    (is.foldl (cellStep m .XYAngle data cd cv) acc).xSum =
        acc.xSum + (is.map (fun i =>
          (cv.getD i ⟨0, 0, 0⟩).x * cellSize m (data.getD i (.other 0)))).sum ∧
      (is.foldl (cellStep m .XYAngle data cd cv) acc).ySum =
        acc.ySum + (is.map (fun i =>
          (cv.getD i ⟨0, 0, 0⟩).y * cellSize m (data.getD i (.other 0)))).sum := by
  induction is generalizing acc with
  | nil => simp
  | cons i is ih =>
    rw [List.foldl_cons, (ih _).1, (ih _).2]
    simp only [cellStep, if_true, List.map_cons, List.sum_cons]
    constructor <;> ring

/-- The summed cell size when there is one scalar per cell. -/
theorem cellSums_size (m : MathLib K) (vd : VectorData) (data : List (vtkCell K))
    (cd : List K) (cv : List (Vec3 K)) (hlen : cd.length = data.length) :
    (cellSums m vd data cd cv).size = (data.map (cellSize m)).sum := by
  rw [cellSums, foldl_cellStep_size, hlen, map_range_getD data (.other 0) (cellSize m)]
  simp

/-- With the same scalar `V` on every cell the weighted sum is `V` times the size. -/
theorem cellSums_sum_uniform (m : MathLib K) (vd : VectorData) (hvd : vd ≠ .XYAngle)
    (data : List (vtkCell K)) (cd : List K) (cv : List (Vec3 K)) (V : K)
    (hV : ∀ v ∈ cd, v = V) :
    (cellSums m vd data cd cv).sum = V * (cellSums m vd data cd cv).size := by
  rw [cellSums, foldl_cellStep_sum m vd hvd, foldl_cellStep_size]
  simp only [zero_add]
  rw [← List.sum_map_mul_left]
  congr 1
  apply List.map_congr_left
  intro i hi
  have hi2 : i < cd.length := List.mem_range.1 hi
  rw [List.getD_eq_getElem _ _ hi2, hV _ (List.getElem_mem hi2)]

/-! Lemmas on the loop over the point scalars -/

/-- The loop over the point scalars visits, after the first value, the rest of the array. -/
theorem pointMinMax_cons (a : K) (rest : List K) :
    pointMinMax (a :: rest) = rest.foldl minMaxStep (a, a) := by
  have h : ((List.range (a :: rest).length).tail.map (fun i => (a :: rest).getD i 0)) = rest := by
    rw [List.length_cons, List.range_succ_eq_map, List.tail_cons, List.map_map]
    have := map_range_getD rest (0 : K) id
    simpa [Function.comp_def] using this
  unfold pointMinMax
  rw [h]
  simp

/-- Invariant of the min/max loop. -/
theorem foldl_minMaxStep (l : List K) (acc : K × K) :
    ((l.foldl minMaxStep acc).1 = acc.1 ∨ (l.foldl minMaxStep acc).1 ∈ l) ∧
      ((l.foldl minMaxStep acc).2 = acc.2 ∨ (l.foldl minMaxStep acc).2 ∈ l) ∧
      (l.foldl minMaxStep acc).1 ≤ acc.1 ∧ acc.2 ≤ (l.foldl minMaxStep acc).2 ∧
      ∀ v ∈ l, (l.foldl minMaxStep acc).1 ≤ v ∧ v ≤ (l.foldl minMaxStep acc).2 := by
  induction l generalizing acc with
  | nil => simp
  | cons a l ih =>
    obtain ⟨h1, h2, h3, h4, h5⟩ := ih (minMaxStep acc a)
    have hs1 : (minMaxStep acc a).1 = acc.1 ∨ (minMaxStep acc a).1 = a := by
      unfold minMaxStep; simp only; split_ifs <;> simp
    have hs2 : (minMaxStep acc a).2 = acc.2 ∨ (minMaxStep acc a).2 = a := by
      unfold minMaxStep; simp only; split_ifs <;> simp
    have hs3 : (minMaxStep acc a).1 ≤ acc.1 ∧ (minMaxStep acc a).1 ≤ a := by
      unfold minMaxStep; simp only; split_ifs with h
      · exact ⟨h.le, le_rfl⟩
      · exact ⟨le_rfl, not_lt.1 h⟩
    have hs4 : acc.2 ≤ (minMaxStep acc a).2 ∧ a ≤ (minMaxStep acc a).2 := by
      unfold minMaxStep; simp only; split_ifs with h
      · exact ⟨h.le, le_rfl⟩
      · exact ⟨le_rfl, not_lt.1 h⟩
    rw [List.foldl_cons]
    refine ⟨?_, ?_, h3.trans hs3.1, hs4.1.trans h4, ?_⟩
    · rcases h1 with h | h
      · rcases hs1 with g | g
        · left; rw [h, g]
        · right; rw [h, g]; exact List.mem_cons_self _ _
      · right; exact List.mem_cons_of_mem _ h
    · rcases h2 with h | h
      · rcases hs2 with g | g
        · left; rw [h, g]
        · right; rw [h, g]; exact List.mem_cons_self _ _
      · right; exact List.mem_cons_of_mem _ h
    · intro v hv
      rcases List.mem_cons.1 hv with rfl | hv
      · exact ⟨h3.trans hs3.2, hs4.2.trans h4⟩
      · exact h5 v hv

/-- The min and max of a non-empty point array are its least and greatest value. -/
theorem pointMinMax_spec (pd : List K) (hne : pd ≠ []) :
    (pointMinMax pd).1 ∈ pd ∧ (pointMinMax pd).2 ∈ pd ∧
      ∀ v ∈ pd, (pointMinMax pd).1 ≤ v ∧ v ≤ (pointMinMax pd).2 := by
  cases pd with
  | nil => exact absurd rfl hne
  | cons a rest =>
    rw [pointMinMax_cons]
    obtain ⟨h1, h2, h3, h4, h5⟩ := foldl_minMaxStep rest (a, a)
    refine ⟨?_, ?_, ?_⟩
    · rcases h1 with h | h
      · rw [h]; exact List.mem_cons_self _ _
      · exact List.mem_cons_of_mem _ h
    · rcases h2 with h | h
      · rw [h]; exact List.mem_cons_self _ _
      · exact List.mem_cons_of_mem _ h
    · intro v hv
      rcases List.mem_cons.1 hv with rfl | hv
      · exact ⟨h3, h4⟩
      · exact h5 v hv

/-- The labels `ComputeStatistics` sets when no pointer is `NULL`. -/
theorem ComputeStatistics_labels (m : MathLib K) (p : Pipeline K) (data : List (vtkCell K))
    (pd cd : List K) (cv : List (Vec3 K)) :
    (ComputeStatistics m p ⟨some data, some pd, some cd, some cv⟩).statisticsLabel =
        some ⟨p.vectorData, (pointMinMax pd).1, (pointMinMax pd).2,
          statisticsMean m p.vectorData (cellSums m p.vectorData data cd cv)⟩ ∧
      (ComputeStatistics m p ⟨some data, some pd, some cd, some cv⟩).volumeLabel.map
        (fun t => t.size) = some (cellSums m p.vectorData data cd cv).size := by
  simp only [ComputeStatistics, UpdateVolumeLabel, UpdateStatisticsLabel]
  split_ifs <;> exact ⟨rfl, rfl⟩

end Lemmas

section FloorLemmas

variable {K : Type} [LinearOrderedField K] [FloorRing K]

/-- A whole number rounds to itself. -/
theorem roundHalfEven_intCast (n : ℤ) : roundHalfEven (n : K) = n := by
  unfold roundHalfEven
  rw [Int.floor_intCast, sub_self, if_pos (by norm_num)]

/-- A number less than a half above a whole number rounds down to it. -/
theorem roundHalfEven_of_lt_half {x : K} {n : ℤ} (h1 : (n : K) ≤ x) (h2 : x < n + 1 / 2) :
    roundHalfEven x = n := by
  have hf : ⌊x⌋ = n := Int.floor_eq_iff.2 ⟨h1, by linarith⟩
  unfold roundHalfEven
  rw [hf, if_pos (by linarith)]

/-- A number more than a half above a whole number rounds up to the next. -/
theorem roundHalfEven_of_half_lt {x : K} {n : ℤ} (h1 : (n : K) + 1 / 2 < x) (h2 : x < n + 1) :
    roundHalfEven x = n + 1 := by
  have hf : ⌊x⌋ = n := Int.floor_eq_iff.2 ⟨by linarith, h2⟩
  unfold roundHalfEven
  rw [hf, if_neg (by linarith), if_pos (by linarith)]

/-- An exact tie above an even whole number rounds down to it. -/
theorem roundHalfEven_tie_even {x : K} {n : ℤ} (hx : x = (n : K) + 1 / 2) (hn : n % 2 = 0) :
    roundHalfEven x = n := by
  have hf : ⌊x⌋ = n := Int.floor_eq_iff.2 ⟨by linarith, by linarith⟩
  unfold roundHalfEven
  rw [hf, if_neg (by linarith), if_neg (by linarith), if_pos hn]

/-- An exact tie above an odd whole number rounds up to the next. -/
theorem roundHalfEven_tie_odd {x : K} {n : ℤ} (hx : x = (n : K) + 1 / 2) (hn : n % 2 = 1) :
    roundHalfEven x = n + 1 := by
  have hf : ⌊x⌋ = n := Int.floor_eq_iff.2 ⟨by linarith, by linarith⟩
  unfold roundHalfEven
  rw [hf, if_neg (by linarith), if_neg (by linarith), if_neg (by omega)]

/-- Writing a value of at most six significant digits loses nothing. -/
theorem streamDouble_eq_self {v : K} (h : SixDigits v) : streamDouble v = v := by
  obtain ⟨n, k, hn, hv⟩ := h
  unfold streamDouble
  split_ifs with h0
  · exact h0.symm
  · have hvpos : 0 < |v| := abs_pos.mpr h0
    have h10 : (0:K) < 10 := by norm_num
    have hle : ((10:ℕ):K) ^ (Int.log 10 |v|) ≤ |v| := Int.zpow_log_le_self (by norm_num) hvpos
    have hlt : |v| < (10:K)^(6 + k) := by
      rw [hv, abs_mul, abs_of_pos (zpow_pos h10 k), zpow_add₀ (by norm_num)]
      apply mul_lt_mul_of_pos_right _ (zpow_pos h10 k)
      have : ((|n| : ℤ) : K) < ((10^6 : ℤ) : K) := by exact_mod_cast hn
      have h6 : ((10:K))^(6:ℤ) = 1000000 := by norm_num
      rw [h6]; simpa [Int.cast_abs] using this
    have hek : Int.log 10 |v| - 5 ≤ k := by
      have h1 : (10:K)^(Int.log 10 |v|) < (10:K)^(6+k) := lt_of_le_of_lt (by simpa using hle) hlt
      have := (zpow_lt_zpow_iff_right₀ (by norm_num : (1:K) < 10)).1 h1
      omega
    obtain ⟨j, hj⟩ : ∃ j : ℕ, k = (Int.log 10 |v| - 5) + j :=
      ⟨(k - (Int.log 10 |v| - 5)).toNat, by omega⟩
    have hpos : (0:K) < 10 ^ (Int.log 10 |v| - 5) := zpow_pos h10 _
    have hq : v / (10:K)^(Int.log 10 |v| - 5) = ((n * 10^j : ℤ) : K) := by
      rw [div_eq_iff hpos.ne']
      conv_lhs => rw [hv, hj]
      rw [zpow_add₀ (by norm_num), zpow_natCast]; push_cast; ring
    simp only []
    rw [hq, roundHalfEven_intCast, ← hq]
    field_simp

/-- An exact tie goes to the even digit: 1234565 is written as 1.23456e+06. -/
theorem streamDouble_tie : streamDouble (1234565 : K) = 1234560 := by
  have hlog : Int.log 10 |(1234565 : K)| = 6 := by
    have h1 : |(1234565 : K)| = ((1234565 : ℕ) : K) := by norm_num
    have h2 : Nat.log 10 1234565 = 6 := by
      rw [Nat.log_eq_iff (by norm_num)]
      norm_num
    rw [h1, Int.log_natCast, h2]
    rfl
  have hr : roundHalfEven ((1234565 : K) / 10 ^ ((6 : ℤ) - 5)) = 123456 :=
    roundHalfEven_tie_even (by norm_num) (by norm_num)
  unfold streamDouble
  rw [if_neg (by norm_num)]
  simp only [hlog, hr]
  norm_num

/-- The integer 1234567 has seven significant digits: it is written as 1.23457e+06. -/
theorem streamDouble_1234567 : streamDouble (1234567 : ℚ) = 1234570 := by
  have hlog : Int.log 10 |(1234567 : ℚ)| = 6 := by
    have h1 : |(1234567 : ℚ)| = ((1234567 : ℕ) : ℚ) := by norm_num
    have h2 : Nat.log 10 1234567 = 6 := by rw [Nat.log_eq_iff (by norm_num)]; norm_num
    rw [h1, Int.log_natCast, h2]; rfl
  have hr : roundHalfEven ((1234567 : ℚ) / 10 ^ ((6:ℤ) - 5)) = 123457 := by
    have h := roundHalfEven_of_half_lt (x := (1234567 : ℚ) / 10 ^ ((6:ℤ) - 5)) (n := 123456)
      (by norm_num) (by norm_num)
    simpa using h
  unfold streamDouble
  rw [if_neg (by norm_num)]
  simp only [hlog, hr]
  norm_num

/-- The `(int)` conversion of a whole number is that number. -/
theorem truncToInt_intCast (n : ℤ) : truncToInt (n : K) = n := by
  unfold truncToInt
  split_ifs <;> simp

/-- On one axis with bounds `lo`, `hi`: the box with the truncated midpoint as
center and the truncated extent as size has `lo` and `hi` as faces exactly when
midpoint and extent are whole numbers. -/
theorem truncated_box_eq_bounds_iff (lo hi : K) :
    ((truncToInt ((hi + lo) / 2) : K) - (truncToInt (hi - lo) : K) / 2 = lo ∧
        (truncToInt ((hi + lo) / 2) : K) + (truncToInt (hi - lo) : K) / 2 = hi) ↔
      (IsInteger ((hi + lo) / 2) ∧ IsInteger (hi - lo)) := by
  constructor
  · rintro ⟨h1, h2⟩
    refine ⟨⟨truncToInt ((hi + lo) / 2), ?_⟩, ⟨truncToInt (hi - lo), ?_⟩⟩ <;> linarith
  · rintro ⟨⟨a, ha⟩, ⟨b, hb⟩⟩
    rw [ha, hb, truncToInt_intCast, truncToInt_intCast]
    constructor <;> linarith

/-- The state of the box after `ResetClippingBox`. -/
theorem ResetClippingBox_getters (p : Pipeline K) (bounds : Fin 6 → K) :
    GetClippingBoxCenter (ResetClippingBox p bounds) =
        ⟨(truncToInt ((bounds 1 + bounds 0) / 2) : K),
         (truncToInt ((bounds 3 + bounds 2) / 2) : K),
         (truncToInt ((bounds 5 + bounds 4) / 2) : K)⟩ ∧
      GetClippingBoxSize (ResetClippingBox p bounds) =
        ⟨(truncToInt (bounds 1 - bounds 0) : K), (truncToInt (bounds 3 - bounds 2) : K),
         (truncToInt (bounds 5 - bounds 4) : K)⟩ ∧
      GetClippingBoxRotation (ResetClippingBox p bounds) = 0 := by
  simp [ResetClippingBox, GetClippingBoxCenter, GetClippingBoxSize, GetClippingBoxRotation,
    SetClippingBoxRotation, SetClippingBoxSize, SetClippingBoxCenter, UpdateClipLabel]

/-- The exponent of a positive number between two consecutive powers of the base. -/
theorem log_eq_of_zpow_le_of_lt {b : ℕ} (hb : 1 < b) {r : K} {e : ℤ}
    (h1 : (b : K) ^ e ≤ r) (h2 : r < (b : K) ^ (e + 1)) : Int.log b r = e := by
  have hb0 : (0 : K) < b := by exact_mod_cast (lt_trans Nat.zero_lt_one hb)
  have hr : 0 < r := lt_of_lt_of_le (zpow_pos hb0 e) h1
  have hle : Int.log b r < e + 1 := (Int.lt_zpow_iff_log_lt hb hr).1 h2
  have hge : e ≤ Int.log b r := (Int.zpow_le_iff_le_log hb hr).1 h1
  omega

/-- The `double` nearest to a number, from its binary exponent and its rounded significand. -/
theorem flDouble_eq {x : K} {e n : ℤ} (h1 : (2 : K) ^ e ≤ |x|) (h2 : |x| < (2 : K) ^ (e + 1))
    (hr : roundHalfEven (x / (2 : K) ^ (e - 52)) = n) :
    flDouble x = (n : K) * (2 : K) ^ (e - 52) := by
  have hlog : Int.log 2 |x| = e :=
    log_eq_of_zpow_le_of_lt (by norm_num) (by exact_mod_cast h1) (by exact_mod_cast h2)
  have hx : x ≠ 0 := by
    intro h
    rw [h, abs_zero] at h1
    exact absurd h1 (not_le.2 (zpow_pos (by norm_num) e))
  unfold flDouble
  rw [if_neg hx]
  simp only [hlog, hr]

/-- A number with at most 53 significant binary digits is a `double`. -/
theorem flDouble_eq_self {x : K} (h : ∃ n k : ℤ, |n| < 2 ^ 53 ∧ x = (n : K) * (2 : K) ^ k) :
    flDouble x = x := by
  obtain ⟨n, k, hn, hv⟩ := h
  unfold flDouble
  split_ifs with h0
  · exact h0.symm
  · have hvpos : 0 < |x| := abs_pos.mpr h0
    have h2 : (0:K) < 2 := by norm_num
    have hle : ((2:ℕ):K) ^ (Int.log 2 |x|) ≤ |x| := Int.zpow_log_le_self (by norm_num) hvpos
    have hlt : |x| < (2:K)^(53 + k) := by
      rw [hv, abs_mul, abs_of_pos (zpow_pos h2 k), zpow_add₀ (by norm_num)]
      apply mul_lt_mul_of_pos_right _ (zpow_pos h2 k)
      have : ((|n| : ℤ) : K) < ((2^53 : ℤ) : K) := by exact_mod_cast hn
      have h6 : ((2:K))^(53:ℤ) = ((2^53 : ℤ) : K) := by norm_num
      rw [h6]; simpa [Int.cast_abs] using this
    have hek : Int.log 2 |x| - 52 ≤ k := by
      have h1 : (2:K)^(Int.log 2 |x|) < (2:K)^(53+k) := lt_of_le_of_lt (by simpa using hle) hlt
      have := (zpow_lt_zpow_iff_right₀ (by norm_num : (1:K) < 2)).1 h1
      omega
    obtain ⟨j, hj⟩ : ∃ j : ℕ, k = (Int.log 2 |x| - 52) + j :=
      ⟨(k - (Int.log 2 |x| - 52)).toNat, by omega⟩
    have hpos : (0:K) < 2 ^ (Int.log 2 |x| - 52) := zpow_pos h2 _
    have hq : x / (2:K)^(Int.log 2 |x| - 52) = ((n * 2^j : ℤ) : K) := by
      rw [div_eq_iff hpos.ne']
      conv_lhs => rw [hv, hj]
      rw [zpow_add₀ (by norm_num), zpow_natCast]; push_cast; ring
    simp only []
    rw [hq, roundHalfEven_intCast, ← hq]
    field_simp

/-- The number 3 is a `double`. -/
theorem flDouble_three : flDouble (3 : K) = 3 :=
  flDouble_eq_self ⟨3, 0, by norm_num, by simp⟩

/-- The `double` quotient `1.0 / 49.0`. -/
theorem flDouble_one_div_49 : flDouble ((1 : K) / 49) = 5882252574524729 / 288230376151711744 := by
  have h := flDouble_eq (x := (1 : K) / 49) (e := -6) (n := 5882252574524729)
    (by rw [abs_of_pos (by norm_num)]; norm_num)
    (by rw [abs_of_pos (by norm_num)]; norm_num)
    (by
      have h := roundHalfEven_of_lt_half (x := (1 : K) / 49 / 2 ^ ((-6 : ℤ) - 52))
        (n := 5882252574524729) (by norm_num) (by norm_num)
      exact h)
  rw [h]
  norm_num


/-- The `double` product `0.1 * 3.0` (0.1 is the `double` 3602879701896397 / 2 ^ 55): an
exact tie, rounded to the even significand. -/
theorem flDouble_tenth_mul_three : flDouble ((3602879701896397 : K) / 36028797018963968 * 3)
    = 5404319552844596 / 18014398509481984 := by
  have h := flDouble_eq (x := (3602879701896397 : K) / 36028797018963968 * 3) (e := -2)
    (n := 5404319552844596)
    (by rw [abs_of_pos (by norm_num)]; norm_num)
    (by rw [abs_of_pos (by norm_num)]; norm_num)
    (by
      have h := roundHalfEven_tie_odd
        (x := (3602879701896397 : K) / 36028797018963968 * 3 / 2 ^ ((-2 : ℤ) - 52))
        (n := 5404319552844595) (by norm_num) (by norm_num)
      rw [h]
      norm_num)
  rw [h]
  norm_num

/-- The `double` quotient `(0.1 * 3.0) / 3.0`. -/
theorem flDouble_tenth_mul_three_div_three : flDouble ((5404319552844596 : K) / 18014398509481984 / 3)
    = 7205759403792795 / 72057594037927936 := by
  have h := flDouble_eq (x := (5404319552844596 : K) / 18014398509481984 / 3) (e := -4)
    (n := 7205759403792795)
    (by rw [abs_of_pos (by norm_num)]; norm_num)
    (by rw [abs_of_pos (by norm_num)]; norm_num)
    (by
      have h := roundHalfEven_of_half_lt
        (x := (5404319552844596 : K) / 18014398509481984 / 3 / 2 ^ ((-4 : ℤ) - 52))
        (n := 7205759403792794) (by norm_num) (by norm_num)
      rw [h]
      norm_num)
  rw [h]
  norm_num

/-- The product `0.1 * 3.0` is a `double`. -/
theorem flDouble_tenth_mul_three_self : flDouble ((5404319552844596 : K) / 18014398509481984)
    = 5404319552844596 / 18014398509481984 :=
  flDouble_eq_self ⟨5404319552844596, -54, by norm_num, by norm_num⟩

/-- The `double` product `(1.0 / 49.0) * 49.0`. -/
theorem flDouble_one_div_49_mul_49 : flDouble ((5882252574524729 : K) / 288230376151711744 * 49)
    = 9007199254740991 / 9007199254740992 := by
  have h := flDouble_eq (x := (5882252574524729 : K) / 288230376151711744 * 49) (e := -1)
    (n := 9007199254740991)
    (by rw [abs_of_pos (by norm_num)]; norm_num)
    (by rw [abs_of_pos (by norm_num)]; norm_num)
    (by
      have h := roundHalfEven_of_lt_half
        (x := (5882252574524729 : K) / 288230376151711744 * 49 / 2 ^ ((-1 : ℤ) - 52))
        (n := 9007199254740991) (by norm_num) (by norm_num)
      exact h)
  rw [h]
  norm_num

/-- The number 1 is a `double`. -/
theorem flDouble_one : flDouble (1 : K) = 1 :=
  flDouble_eq_self ⟨1, 0, by norm_num, by simp⟩

/-- The sums of the loop of `ComputeStatistics` in double arithmetic for a single
cell, in a non-angular mode. -/
theorem cellSumsDouble_single (m : MathLib K) (vd : VectorData) (hvd : vd ≠ .XYAngle)
    (cell : vtkCell K) (v : K) (cv : List (Vec3 K)) :
    cellSumsDouble m vd [cell] [v] cv =
      ⟨flDouble (flDouble (v * flDouble (cellSize m cell))), 0, 0,
        flDouble (flDouble (cellSize m cell))⟩ := by
  simp [cellSumsDouble, cellStepDouble, hvd, List.range_succ]

/-- The mean of the non-angular branch in double arithmetic for a single cell of size 3
whose scalar is the `double` 0.1 (3602879701896397 / 2 ^ 55): the `double`
7205759403792795 / 2 ^ 56, that is 0.10000000000000002. -/
theorem scalarMeanDouble_tenth_tetra (m : MathLib K) (vd : VectorData) (hvd : vd ≠ .XYAngle)
    (cell : vtkCell K) (cv : List (Vec3 K)) (hc : cellSize m cell = 3) :
    scalarMeanDouble (cellSumsDouble m vd [cell] [3602879701896397 / 36028797018963968] cv)
      = 7205759403792795 / 72057594037927936 := by
  rw [cellSumsDouble_single m vd hvd, hc]
  simp only [scalarMeanDouble, flDouble_three, flDouble_tenth_mul_three,
    flDouble_tenth_mul_three_self, flDouble_tenth_mul_three_div_three]

end FloorLemmas

/-! ### C1, C2: the clipping transform -/

/-- C1 (as amended): for every clipping box with center `c`, non-zero size
components `s` and rotation `θ = GetClippingBoxRotation()`, the clipping
transform built by `UpdateClipping` is `Scale(1/s) * RotateZ(θ) * Translate(-c)`:
a point is translated by `-c`, then rotated about Z by `+θ` (that is, by minus
the actor's Z orientation), then scaled by `1/s`. -/
theorem UpdateClipping_transform_eq {K : Type} [LinearOrderedField K] (m : MathLib K)
    (p : Pipeline K) (out : PipelineOutput K)
    (hs : (GetClippingBoxSize p).x ≠ 0 ∧ (GetClippingBoxSize p).y ≠ 0 ∧
      (GetClippingBoxSize p).z ≠ 0) :
    (UpdateClipping m p out).clippingBoxTransform.matrix =
        scaleMatrix (1 / (GetClippingBoxSize p).x) (1 / (GetClippingBoxSize p).y)
            (1 / (GetClippingBoxSize p).z)
          * rotateZMatrix m (GetClippingBoxRotation p)
          * translateMatrix (-(GetClippingBoxCenter p).x) (-(GetClippingBoxCenter p).y)
            (-(GetClippingBoxCenter p).z) ∧
      ∀ pt : Vec3 K,
        transformPoint (UpdateClipping m p out).clippingBoxTransform.matrix pt =
          transformPoint
            (scaleMatrix (1 / (GetClippingBoxSize p).x) (1 / (GetClippingBoxSize p).y)
              (1 / (GetClippingBoxSize p).z))
            (transformPoint (rotateZMatrix m (GetClippingBoxRotation p))
              (transformPoint
                (translateMatrix (-(GetClippingBoxCenter p).x) (-(GetClippingBoxCenter p).y)
                  (-(GetClippingBoxCenter p).z)) pt)) := by
  have _ := hs
  have hM := UpdateClipping_matrix m p out
  refine ⟨hM, fun pt => ?_⟩
  rw [hM, transformPoint_mul _ _ ⟨rfl, rfl, rfl, rfl⟩,
    transformPoint_mul _ _ ⟨rfl, rfl, rfl, rfl⟩]
  rfl

/-- Witness of C1 (as amended): the freshly constructed box turned to rotation 90. -/
theorem UpdateClipping_transform_eq_witness :
    (UpdateClipping realMath
        (SetClippingBoxRotation (newPipeline ClipType.CutZ DataSet.Mesh) 90)
        ⟨none, none, none, none⟩).clippingBoxTransform.matrix =
      scaleMatrix 1 1 1 * rotateZMatrix realMath 90 * translateMatrix 0 0 0 := by
  have h := (UpdateClipping_transform_eq realMath
    (SetClippingBoxRotation (newPipeline ClipType.CutZ DataSet.Mesh) 90)
    ⟨none, none, none, none⟩
    (by simp [GetClippingBoxSize, SetClippingBoxRotation, UpdateClipLabel, newPipeline])).1
  simpa [GetClippingBoxSize, GetClippingBoxRotation, GetClippingBoxCenter,
    SetClippingBoxRotation, UpdateClipLabel, newPipeline] using h

/-- C1 as stated fails: for the box with center 0, size 1 and rotation
`GetClippingBoxRotation() = 90`, the transform built by `UpdateClipping` is not
`Scale(1/s) * RotateZ(-θ) * Translate(-c)`. -/
theorem UpdateClipping_transform_ne_rotateZ_neg :
    GetClippingBoxRotation
        (SetClippingBoxRotation (newPipeline ClipType.CutZ DataSet.Mesh : Pipeline ℝ) 90) = 90 ∧
      (UpdateClipping realMath
          (SetClippingBoxRotation (newPipeline ClipType.CutZ DataSet.Mesh) 90)
          ⟨none, none, none, none⟩).clippingBoxTransform.matrix ≠
        scaleMatrix 1 1 1 * rotateZMatrix realMath (-90) * translateMatrix 0 0 0 := by
  refine ⟨by simp [GetClippingBoxRotation, SetClippingBoxRotation, UpdateClipLabel,
    newPipeline], fun h => ?_⟩
  rw [UpdateClipping_matrix] at h
  have h10 := congrFun (congrFun h 1) 0
  have e1 : (90 : ℝ) * Real.pi / 180 = Real.pi / 2 := by ring
  have e2 : -((90 : ℝ) * Real.pi) / 180 = -(Real.pi / 2) := by ring
  simp [SetClippingBoxRotation, UpdateClipLabel, newPipeline, scaleMatrix, rotateZMatrix,
    translateMatrix, Matrix.mul_apply, Fin.sum_univ_four, RadiansFromDegrees, realMath,
    e1, e2] at h10
  norm_num at h10

/-- C2 (as amended): with the reciprocals `1 / size`, the cosine and the sine computed
exactly (real arithmetic), for every clipping box whose size components are all
non-zero, after `UpdateClipping` the clipping transform is the exact inverse of
the box's display transform (scale by the size, rotate about Z by the actor
orientation, translate by the center): both products are the identity. -/
theorem UpdateClipping_transform_inverse_of_display (p : Pipeline ℝ)
    (out : PipelineOutput ℝ)
    (hs : (GetClippingBoxSize p).x ≠ 0 ∧ (GetClippingBoxSize p).y ≠ 0 ∧
      (GetClippingBoxSize p).z ≠ 0) :
    (UpdateClipping realMath p out).clippingBoxTransform.matrix
          * displayMatrix realMath (UpdateClipping realMath p out).clippingBoxActor = 1 ∧
      displayMatrix realMath (UpdateClipping realMath p out).clippingBoxActor
          * (UpdateClipping realMath p out).clippingBoxTransform.matrix = 1 := by
  obtain ⟨hx, hy, hz⟩ := hs
  simp only [GetClippingBoxSize] at hx hy hz
  rw [UpdateClipping_matrix, UpdateClipping_clippingBoxActor, displayMatrix]
  obtain ⟨s1, s2⟩ := scaleMatrix_mul_inv _ _ _ hx hy hz
  obtain ⟨t1, t2⟩ := translateMatrix_mul_inv p.clippingBoxActor.Position.x
    p.clippingBoxActor.Position.y p.clippingBoxActor.Position.z
  obtain ⟨r1, r2⟩ := rotateZMatrix_mul_inv p.clippingBoxActor.Orientation.z
  exact ⟨mul_three_inv _ _ _ _ _ _ s1 r1 t1, mul_three_inv _ _ _ _ _ _ t2 r2 s2⟩

/-- Witness of C2: the box with center (5, 5, 5), size (10, 10, 10), rotation 30. -/
theorem UpdateClipping_transform_inverse_of_display_witness :
    (UpdateClipping realMath
          (SetClippingBoxRotation (SetClippingBoxSize (SetClippingBoxCenter
            (newPipeline ClipType.CutZ DataSet.Mesh) 5 5 5) 10 10 10) 30)
          ⟨none, none, none, none⟩).clippingBoxTransform.matrix
        * displayMatrix realMath (UpdateClipping realMath
          (SetClippingBoxRotation (SetClippingBoxSize (SetClippingBoxCenter
            (newPipeline ClipType.CutZ DataSet.Mesh) 5 5 5) 10 10 10) 30)
          ⟨none, none, none, none⟩).clippingBoxActor = 1 :=
  (UpdateClipping_transform_inverse_of_display _ _
    (by simp [GetClippingBoxSize, SetClippingBoxRotation, SetClippingBoxSize,
      SetClippingBoxCenter, UpdateClipLabel, newPipeline])).1

/-- C2 as stated fails in the code's double arithmetic: for the box of size (49, 49, 49)
at the origin with rotation 0 the scale factor `1.0 / 49.0` is the `double`
5882252574524729 / 2 ^ 58, so the first diagonal entry of the product of the clipping
transform and the display matrix is 1 - 23 / 2 ^ 58, which is rounded to the `double`
1 - 2 ^ (-53): the product is not the identity. -/
theorem UpdateClipping_double_transform_not_inverse :
    ((buildClippingTransformDouble realMath
          (SetClippingBoxSize (newPipeline ClipType.CutZ DataSet.Mesh) 49 49 49)).matrix
        * displayMatrix realMath
          (SetClippingBoxSize (newPipeline ClipType.CutZ DataSet.Mesh)
            49 49 49).clippingBoxActor) 0 0
      = 288230376151711721 / 288230376151711744 ∧
    flDouble ((288230376151711721 : ℝ) / 288230376151711744)
      = 9007199254740991 / 9007199254740992 ∧
    (buildClippingTransformDouble realMath
          (SetClippingBoxSize (newPipeline ClipType.CutZ DataSet.Mesh) 49 49 49)).matrix
        * displayMatrix realMath
          (SetClippingBoxSize (newPipeline ClipType.CutZ DataSet.Mesh)
            49 49 49).clippingBoxActor ≠ 1 := by
  have h00 : ((buildClippingTransformDouble realMath
          (SetClippingBoxSize (newPipeline ClipType.CutZ DataSet.Mesh) 49 49 49)).matrix
        * displayMatrix realMath
          (SetClippingBoxSize (newPipeline ClipType.CutZ DataSet.Mesh)
            49 49 49).clippingBoxActor) 0 0
      = 288230376151711721 / 288230376151711744 := by
    simp [buildClippingTransformDouble, displayMatrix, SetClippingBoxSize, UpdateClipLabel,
      newPipeline, vtkTransform.Identity, vtkTransform.Scale, vtkTransform.RotateZ,
      vtkTransform.Translate, scaleMatrix, rotateZMatrix, translateMatrix, Matrix.mul_apply,
      Fin.sum_univ_four, RadiansFromDegrees, realMath]
    rw [← one_div, flDouble_one_div_49]
    norm_num
  refine ⟨h00, ?_, ?_⟩
  · have h := flDouble_one_div_49_mul_49 (K := ℝ)
    have e : (5882252574524729 : ℝ) / 288230376151711744 * 49
        = 288230376151711721 / 288230376151711744 := by norm_num
    rw [e] at h
    exact h
  · intro h
    have h1 := congrFun (congrFun h 0) 0
    rw [h00] at h1
    norm_num at h1

/-! ### C3: clip settings round trip -/

/-- C3 (as amended): for every clipping box whose center, size and rotation
values have at most six significant decimal digits, and every clip type,
`SaveClipSettings` followed by `OpenClipSettings` on the same file (from any
state `q`) restores the box and the clip type: the four getters return exactly
what they returned when the file was saved. -/
theorem SaveClipSettings_OpenClipSettings_roundtrip {K : Type} [LinearOrderedField K]
    [FloorRing K] (p q : Pipeline K)
    (hc : SixDigits (GetClippingBoxCenter p).x ∧ SixDigits (GetClippingBoxCenter p).y ∧
      SixDigits (GetClippingBoxCenter p).z)
    (hs : SixDigits (GetClippingBoxSize p).x ∧ SixDigits (GetClippingBoxSize p).y ∧
      SixDigits (GetClippingBoxSize p).z)
    (hr : SixDigits (GetClippingBoxRotation p)) :
    GetClippingBoxCenter (OpenClipSettings q (SaveClipSettings p)) = GetClippingBoxCenter p ∧
      GetClippingBoxSize (OpenClipSettings q (SaveClipSettings p)) = GetClippingBoxSize p ∧
      GetClippingBoxRotation (OpenClipSettings q (SaveClipSettings p))
        = GetClippingBoxRotation p ∧
      GetClipType (OpenClipSettings q (SaveClipSettings p)) = GetClipType p := by
  obtain ⟨h1, h2, h3, h4⟩ := OpenClipSettings_getters q (SaveClipSettings p)
  rw [h1, h2, h3, h4]
  simp only [SaveClipSettings, streamDouble_eq_self hc.1, streamDouble_eq_self hc.2.1,
    streamDouble_eq_self hc.2.2, streamDouble_eq_self hs.1, streamDouble_eq_self hs.2.1,
    streamDouble_eq_self hs.2.2, streamDouble_eq_self hr]
  exact ⟨trivial, trivial, trivial, rfl⟩

/-- Witness of C3 (as amended): the box with center (5, 5, 5), size (10, 10, 10),
rotation 30 and clip type CutX is restored. -/
theorem SaveClipSettings_OpenClipSettings_roundtrip_witness :
    GetClippingBoxCenter (OpenClipSettings (newPipeline ClipType.CutZ DataSet.Mesh)
        (SaveClipSettings (SetClipType (SetClippingBoxRotation (SetClippingBoxSize
          (SetClippingBoxCenter (newPipeline ClipType.CutZ DataSet.Mesh : Pipeline ℚ) 5 5 5)
          10 10 10) 30) ClipType.CutX))) = ⟨5, 5, 5⟩ := by
  have h := (SaveClipSettings_OpenClipSettings_roundtrip
    (SetClipType (SetClippingBoxRotation (SetClippingBoxSize
      (SetClippingBoxCenter (newPipeline ClipType.CutZ DataSet.Mesh : Pipeline ℚ) 5 5 5)
      10 10 10) 30) ClipType.CutX)
    (newPipeline ClipType.CutZ DataSet.Mesh)
    ⟨⟨5, 0, by norm_num, by norm_num [GetClippingBoxCenter, SetClipType_clippingBoxActor,
        SetClippingBoxRotation, SetClippingBoxSize, SetClippingBoxCenter, UpdateClipLabel]⟩,
     ⟨5, 0, by norm_num, by norm_num [GetClippingBoxCenter, SetClipType_clippingBoxActor,
        SetClippingBoxRotation, SetClippingBoxSize, SetClippingBoxCenter, UpdateClipLabel]⟩,
     ⟨5, 0, by norm_num, by norm_num [GetClippingBoxCenter, SetClipType_clippingBoxActor,
        SetClippingBoxRotation, SetClippingBoxSize, SetClippingBoxCenter, UpdateClipLabel]⟩⟩
    ⟨⟨10, 0, by norm_num, by norm_num [GetClippingBoxSize, SetClipType_clippingBoxActor,
        SetClippingBoxRotation, SetClippingBoxSize, SetClippingBoxCenter, UpdateClipLabel]⟩,
     ⟨10, 0, by norm_num, by norm_num [GetClippingBoxSize, SetClipType_clippingBoxActor,
        SetClippingBoxRotation, SetClippingBoxSize, SetClippingBoxCenter, UpdateClipLabel]⟩,
     ⟨10, 0, by norm_num, by norm_num [GetClippingBoxSize, SetClipType_clippingBoxActor,
        SetClippingBoxRotation, SetClippingBoxSize, SetClippingBoxCenter, UpdateClipLabel]⟩⟩
    ⟨30, 0, by norm_num, by norm_num [GetClippingBoxRotation, SetClipType_clippingBoxActor,
        SetClippingBoxRotation, SetClippingBoxSize, SetClippingBoxCenter, UpdateClipLabel]⟩).1
  rw [h]
  simp [GetClippingBoxCenter, SetClipType_clippingBoxActor, SetClippingBoxRotation,
    SetClippingBoxSize, SetClippingBoxCenter, UpdateClipLabel]

/-- C3 as stated fails: the box with center (1234567, 0, 0) is saved as
`1.23457e+06 0 0 ...` and `OpenClipSettings` restores the center (1234570, 0, 0). -/
theorem SaveClipSettings_OpenClipSettings_not_identity :
    GetClippingBoxCenter (SetClippingBoxCenter
        (newPipeline ClipType.CutZ DataSet.Mesh : Pipeline ℚ) 1234567 0 0) = ⟨1234567, 0, 0⟩ ∧
      GetClippingBoxCenter
        (OpenClipSettings
          (SetClippingBoxCenter (newPipeline ClipType.CutZ DataSet.Mesh : Pipeline ℚ) 1234567 0 0)
          (SaveClipSettings (SetClippingBoxCenter
            (newPipeline ClipType.CutZ DataSet.Mesh : Pipeline ℚ) 1234567 0 0)))
        = ⟨1234570, 0, 0⟩ ∧
      GetClippingBoxCenter
        (OpenClipSettings
          (SetClippingBoxCenter (newPipeline ClipType.CutZ DataSet.Mesh : Pipeline ℚ) 1234567 0 0)
          (SaveClipSettings (SetClippingBoxCenter
            (newPipeline ClipType.CutZ DataSet.Mesh : Pipeline ℚ) 1234567 0 0)))
        ≠ GetClippingBoxCenter (SetClippingBoxCenter
          (newPipeline ClipType.CutZ DataSet.Mesh : Pipeline ℚ) 1234567 0 0) := by
  have h1 := (OpenClipSettings_getters
    (SetClippingBoxCenter (newPipeline ClipType.CutZ DataSet.Mesh : Pipeline ℚ) 1234567 0 0)
    (SaveClipSettings (SetClippingBoxCenter
      (newPipeline ClipType.CutZ DataSet.Mesh : Pipeline ℚ) 1234567 0 0))).1
  have h0 : streamDouble (0 : ℚ) = 0 := by simp [streamDouble]
  rw [h1]
  simp [SaveClipSettings, GetClippingBoxCenter, SetClippingBoxCenter, UpdateClipLabel,
    streamDouble_1234567, h0]

/-! ### C4: statistics of a uniform scalar -/

/-- C4 (as amended): with the arithmetic taken as exact (real numbers), in a
non-angular mode (`XYMagnitude` or `ZComponent`), for every list of cells with
one scalar per cell, all equal to `V`, and positive total size (so the list is
not empty), `ComputeStatistics` reports mean `V` exactly and, as enclosed
measure, the sum of the cell sizes (triangle areas, absolute tetrahedron
volumes); for a single tetrahedron this is the absolute value of its volume.
In the code's double arithmetic the mean is `V` exactly for a single cell of
size 1 whose scalar `V` is a `double`. -/
theorem ComputeStatistics_uniform_scalar {K : Type} [LinearOrderedField K] [FloorRing K]
    (m : MathLib K)
    (p : Pipeline K) (data : List (vtkCell K)) (pd cd : List K) (cv : List (Vec3 K)) (V : K)
    (hmode : p.vectorData = .XYMagnitude ∨ p.vectorData = .ZComponent)
    (hlen : cd.length = data.length)
    (hV : ∀ v ∈ cd, v = V)
    (hpos : 0 < (data.map (cellSize m)).sum) :
    (ComputeStatistics m p ⟨some data, some pd, some cd, some cv⟩).statisticsLabel.map
        (fun t => t.mean) = some V ∧
      (ComputeStatistics m p ⟨some data, some pd, some cd, some cv⟩).volumeLabel.map
        (fun t => t.size) = some (data.map (cellSize m)).sum ∧
      (∀ p0 p1 p2 p3 : Vec3 K, data = [.tetra p0 p1 p2 p3] →
        (ComputeStatistics m p ⟨some data, some pd, some cd, some cv⟩).volumeLabel.map
          (fun t => t.size) = some |ComputeVolume p0 p1 p2 p3|) ∧
      ∀ (cell : vtkCell K) (cv1 : List (Vec3 K)), cellSize m cell = 1 → flDouble V = V →
        scalarMeanDouble (cellSumsDouble m p.vectorData [cell] [V] cv1) = V := by
  have hvd : p.vectorData ≠ .XYAngle := by
    rcases hmode with h | h <;> rw [h] <;> decide
  obtain ⟨h1, h2⟩ := ComputeStatistics_labels m p data pd cd cv
  have hsize := cellSums_size m p.vectorData data cd cv hlen
  have hsum := cellSums_sum_uniform m p.vectorData hvd data cd cv V hV
  refine ⟨?_, ?_, ?_, ?_⟩
  · rw [h1]
    simp only [Option.map_some', statisticsMean, if_neg hvd, hsum, hsize]
    rw [mul_div_assoc, div_self hpos.ne', mul_one]
  · rw [h2, hsize]
  · intro p0 p1 p2 p3 hd
    rw [h2, hsize, hd]
    simp [cellSize]
  · intro cell cv1 hc hfl
    rw [cellSumsDouble_single m p.vectorData hvd, hc]
    simp only [scalarMeanDouble, flDouble_one, mul_one, div_one, hfl]

/-- Witness of C4: one tetrahedron of volume 1 with scalar 7 in `XYMagnitude` mode gives
mean 7 and measure 1. -/
theorem ComputeStatistics_uniform_scalar_witness :
    (ComputeStatistics realMath (newPipeline ClipType.CutZ DataSet.Mesh)
        ⟨some [.tetra ⟨0, 0, 0⟩ ⟨1, 0, 0⟩ ⟨0, 1, 0⟩ ⟨0, 0, 6⟩], some [7, 7, 7, 7], some [7],
          some [⟨0, 0, 0⟩]⟩).statisticsLabel.map (fun t => t.mean) = some 7 ∧
      (ComputeStatistics realMath (newPipeline ClipType.CutZ DataSet.Mesh)
        ⟨some [.tetra ⟨0, 0, 0⟩ ⟨1, 0, 0⟩ ⟨0, 1, 0⟩ ⟨0, 0, 6⟩], some [7, 7, 7, 7], some [7],
          some [⟨0, 0, 0⟩]⟩).volumeLabel.map (fun t => t.size) = some 1 := by
  have hvol : |ComputeVolume (⟨0, 0, 0⟩ : Vec3 ℝ) ⟨1, 0, 0⟩ ⟨0, 1, 0⟩ ⟨0, 0, 6⟩| = 1 := by
    norm_num [ComputeVolume, Determinant3x3]
  have h := ComputeStatistics_uniform_scalar realMath (newPipeline ClipType.CutZ DataSet.Mesh)
    [.tetra ⟨0, 0, 0⟩ ⟨1, 0, 0⟩ ⟨0, 1, 0⟩ ⟨0, 0, 6⟩] [7, 7, 7, 7] [7] [⟨0, 0, 0⟩] 7
    (Or.inl rfl) rfl (by simp) (by simp [cellSize, hvol])
  refine ⟨h.1, ?_⟩
  rw [h.2.2.1 _ _ _ _ rfl, hvol]

/-- C4 as stated fails in the code's double arithmetic: for one tetrahedron of volume 3
whose scalar is the `double` 0.1 (3602879701896397 / 2 ^ 55), in `XYMagnitude` mode, the
loop computes `sum = 0.1 * 3.0 = 0.30000000000000004` and
`mean = sum / 3.0 = 0.10000000000000002` (7205759403792795 / 2 ^ 56), which is not 0.1. -/
theorem ComputeStatistics_uniform_scalar_double_ne :
    cellSize realMath (.tetra ⟨0, 0, 0⟩ ⟨3, 0, 0⟩ ⟨0, 1, 0⟩ ⟨0, 0, 6⟩) = 3 ∧
    scalarMeanDouble (cellSumsDouble realMath VectorData.XYMagnitude
        [.tetra ⟨0, 0, 0⟩ ⟨3, 0, 0⟩ ⟨0, 1, 0⟩ ⟨0, 0, 6⟩]
        [3602879701896397 / 36028797018963968] [⟨0, 0, 0⟩])
      = 7205759403792795 / 72057594037927936 ∧
    scalarMeanDouble (cellSumsDouble realMath VectorData.XYMagnitude
        [.tetra ⟨0, 0, 0⟩ ⟨3, 0, 0⟩ ⟨0, 1, 0⟩ ⟨0, 0, 6⟩]
        [3602879701896397 / 36028797018963968] [⟨0, 0, 0⟩])
      ≠ 3602879701896397 / 36028797018963968 := by
  have hc : cellSize realMath (.tetra ⟨0, 0, 0⟩ ⟨3, 0, 0⟩ ⟨0, 1, 0⟩ ⟨0, 0, 6⟩) = 3 := by
    norm_num [cellSize, ComputeVolume, Determinant3x3]
  have h := scalarMeanDouble_tenth_tetra realMath VectorData.XYMagnitude (by decide)
    (.tetra ⟨0, 0, 0⟩ ⟨3, 0, 0⟩ ⟨0, 1, 0⟩ ⟨0, 0, 6⟩) [⟨0, 0, 0⟩] hc
  refine ⟨hc, h, ?_⟩
  rw [h]
  norm_num

/-! ### C5, C6: the mean angle -/

/-- C5, the code at the failing input: in `XYAngle` mode, two cells of equal size
whose velocities are `(0, -1)` (wind from 0 degrees) and `(-1, 0)` (wind from 90
degrees) have the mean vector `(-1/2, -1/2)`; the direction of the negated
vector `(1/2, 1/2)` is 45 degrees, and `ComputeStatistics` reports 30, which is
not the direction of that vector. -/
theorem ComputeStatistics_mean_angle_of_short_mean_vector :
    (ComputeStatistics realMath
        { (newPipeline ClipType.CutZ DataSet.Mesh : Pipeline ℝ) with vectorData := .XYAngle }
        ⟨some [.tetra ⟨0, 0, 0⟩ ⟨1, 0, 0⟩ ⟨0, 1, 0⟩ ⟨0, 0, 6⟩,
               .tetra ⟨0, 0, 0⟩ ⟨1, 0, 0⟩ ⟨0, 1, 0⟩ ⟨0, 0, 6⟩],
          some [0, 90], some [0, 90], some [⟨0, -1, 0⟩, ⟨-1, 0, 0⟩]⟩).statisticsLabel.map
        (fun t => t.mean) = some 30 ∧
      IsDirectionFromY realMath 45 (1 / 2) (1 / 2) ∧
      ¬ IsDirectionFromY realMath 30 (1 / 2) (1 / 2) := by
  have hvol : |ComputeVolume (⟨0, 0, 0⟩ : Vec3 ℝ) ⟨1, 0, 0⟩ ⟨0, 1, 0⟩ ⟨0, 0, 6⟩| = 1 := by
    norm_num [ComputeVolume, Determinant3x3]
  have hacos : Real.arccos (1 / 2) = Real.pi / 3 := by
    rw [← Real.cos_pi_div_three]
    exact Real.arccos_cos (by positivity) (by linarith [Real.pi_pos])
  have hpi := Real.pi_pos
  refine ⟨?_, ?_, ?_⟩
  · rw [(ComputeStatistics_labels _ _ _ _ _ _).1]
    have hs : cellSums realMath .XYAngle
        [.tetra ⟨0, 0, 0⟩ ⟨1, 0, 0⟩ ⟨0, 1, 0⟩ ⟨0, 0, 6⟩,
         .tetra ⟨0, 0, 0⟩ ⟨1, 0, 0⟩ ⟨0, 1, 0⟩ ⟨0, 0, 6⟩]
        [0, 90] [⟨0, -1, 0⟩, ⟨-1, 0, 0⟩] = ⟨0, -1, -1, 2⟩ := by
      simp [cellSums, cellStep, List.range_succ, cellSize, hvol]
      norm_num
    have hm : meanAngle realMath (-1 / 2) (-1 / 2) = 30 := by
      have e : -((-1 : ℝ) / 2) = 1 / 2 := by norm_num
      have h60 : Real.pi / 3 * 180 / Real.pi = 60 := by field_simp; ring
      simp only [meanAngle, DegreesFromRadians, realMath]
      rw [e, hacos, h60]
      norm_num
    change some (statisticsMean realMath .XYAngle (cellSums realMath .XYAngle _ _ _)) = some 30
    rw [hs]
    simp only [statisticsMean, if_true]
    rw [hm]
  · refine ⟨by norm_num, by norm_num, Real.sqrt 2 / 2, by positivity, ?_, ?_⟩
    · have e : RadiansFromDegrees realMath 45 = Real.pi / 4 := by
        simp only [RadiansFromDegrees, realMath]; ring
      rw [e]
      simp only [realMath, Real.sin_pi_div_four]
      nlinarith [Real.mul_self_sqrt (show (0 : ℝ) ≤ 2 by norm_num)]
    · have e : RadiansFromDegrees realMath 45 = Real.pi / 4 := by
        simp only [RadiansFromDegrees, realMath]; ring
      rw [e]
      simp only [realMath, Real.cos_pi_div_four]
      nlinarith [Real.mul_self_sqrt (show (0 : ℝ) ≤ 2 by norm_num)]
  · rintro ⟨_, _, r, _, hx, hy⟩
    have e : RadiansFromDegrees realMath 30 = Real.pi / 6 := by
      simp only [RadiansFromDegrees, realMath]; ring
    rw [e] at hx hy
    simp only [realMath, Real.sin_pi_div_six, Real.cos_pi_div_six] at hx hy
    have hr : r = 1 := by linarith
    rw [hr] at hy
    have h3 : Real.sqrt 3 = 1 := by linarith
    have := Real.mul_self_sqrt (show (0 : ℝ) ≤ 3 by norm_num)
    rw [h3] at this
    norm_num at this

/-- C6: in `XYAngle` mode, for two cells of equal positive size whose unit
velocity vectors correspond to the incoming-wind angles `α` and `360 - α` with
`0 ≤ α < 90` (for instance 10 and 350 degrees), `ComputeStatistics` reports the
mean angle 0, not 180. -/
theorem ComputeStatistics_mean_angle_symmetric (p : Pipeline ℝ) (c1 c2 : vtkCell ℝ)
    (pd : List ℝ) (s1 s2 z1 z2 α : ℝ)
    (hmode : p.vectorData = .XYAngle)
    (hα : 0 ≤ α ∧ α < 90)
    (heq : cellSize realMath c1 = cellSize realMath c2)
    (hpos : 0 < cellSize realMath c1) :
    (ComputeStatistics realMath p
        ⟨some [c1, c2], some pd, some [s1, s2],
          some [incomingWindVelocity realMath α z1,
                incomingWindVelocity realMath (360 - α) z2]⟩).statisticsLabel.map
        (fun t => t.mean) = some 0 := by
  have hpi := Real.pi_pos
  have e2 : RadiansFromDegrees realMath (360 - α) =
      2 * Real.pi - RadiansFromDegrees realMath α := by
    simp only [RadiansFromDegrees, realMath_pi]; ring
  have hcos : 0 < Real.cos (RadiansFromDegrees realMath α) := by
    apply Real.cos_pos_of_mem_Ioo
    simp only [RadiansFromDegrees, realMath_pi]
    constructor
    · have : 0 ≤ α * Real.pi / 180 := div_nonneg (mul_nonneg hα.1 hpi.le) (by norm_num)
      linarith
    · have : α * Real.pi < 90 * Real.pi := mul_lt_mul_of_pos_right hα.2 hpi
      linarith
  have hs : cellSums realMath .XYAngle [c1, c2] [s1, s2]
      [incomingWindVelocity realMath α z1, incomingWindVelocity realMath (360 - α) z2]
      = ⟨0, 0, -(2 * cellSize realMath c1 * Real.cos (RadiansFromDegrees realMath α)),
          2 * cellSize realMath c1⟩ := by
    simp only [cellSums, cellStep, List.range_succ, List.range_zero, List.length_cons,
      List.length_nil, List.nil_append, List.cons_append, List.foldl_cons, List.foldl_nil,
      List.getD_cons_zero, List.getD_cons_succ, if_true, incomingWindVelocity, e2,
      ← heq, realMath_sin, realMath_cos, Real.sin_two_pi_sub, Real.cos_two_pi_sub,
      Sums.mk.injEq, true_and]
    refine ⟨?_, ?_, ?_⟩ <;> ring
  rw [(ComputeStatistics_labels _ _ _ _ _ _).1, hmode]
  simp only [Option.map_some', hs, statisticsMean, if_true, zero_div]
  have hy : -(2 * cellSize realMath c1 * Real.cos (RadiansFromDegrees realMath α))
      / (2 * cellSize realMath c1) < 0 := by
    have : -(2 * cellSize realMath c1 * Real.cos (RadiansFromDegrees realMath α))
        / (2 * cellSize realMath c1) = -Real.cos (RadiansFromDegrees realMath α) := by
      field_simp
      ring
    rw [this]; linarith
  have h90 : Real.pi / 2 * 180 / Real.pi = 90 := by field_simp; ring
  simp only [meanAngle, if_pos hy, DegreesFromRadians, realMath_pi, realMath_acos, neg_zero,
    Real.arccos_zero, h90]
  norm_num

/-- Witness of C6: two cells of volume 1 with winds from 10 and 350 degrees. -/
theorem ComputeStatistics_mean_angle_symmetric_witness :
    (ComputeStatistics realMath
        { (newPipeline ClipType.CutZ DataSet.Mesh : Pipeline ℝ) with vectorData := .XYAngle }
        ⟨some [.tetra ⟨0, 0, 0⟩ ⟨1, 0, 0⟩ ⟨0, 1, 0⟩ ⟨0, 0, 6⟩,
               .tetra ⟨0, 0, 0⟩ ⟨1, 0, 0⟩ ⟨0, 1, 0⟩ ⟨0, 0, 6⟩],
          some [10, 350], some [10, 350],
          some [incomingWindVelocity realMath 10 0,
                incomingWindVelocity realMath (360 - 10) 0]⟩).statisticsLabel.map
        (fun t => t.mean) = some 0 :=
  ComputeStatistics_mean_angle_symmetric _ _ _ _ _ _ _ _ 10 rfl (by norm_num) rfl
    (by norm_num [cellSize, ComputeVolume, Determinant3x3])

/-! ### C7: min and max -/

/-- C7: for every non-empty per-point scalar array `pd`, the min and max that
`ComputeStatistics` reports are the least and the greatest point value: each is
one of the point values, `min ≤ v ≤ max` for every point value `v`, and they
are the same whatever the cells (their sizes, scalars and vectors) are. -/
theorem ComputeStatistics_min_max {K : Type} [LinearOrderedField K] (m : MathLib K)
    (p : Pipeline K) (data : List (vtkCell K)) (pd cd : List K) (cv : List (Vec3 K))
    (hne : pd ≠ []) :
    ∃ mn mx : K,
      (ComputeStatistics m p ⟨some data, some pd, some cd, some cv⟩).statisticsLabel.map
          (fun t => (t.min, t.max)) = some (mn, mx) ∧
        mn ∈ pd ∧ mx ∈ pd ∧ (∀ v ∈ pd, mn ≤ v ∧ v ≤ mx) ∧
        ∀ (data1 : List (vtkCell K)) (cd1 : List K) (cv1 : List (Vec3 K)),
          (ComputeStatistics m p ⟨some data1, some pd, some cd1, some cv1⟩).statisticsLabel.map
            (fun t => (t.min, t.max)) = some (mn, mx) := by
  obtain ⟨h1, h2, h3⟩ := pointMinMax_spec pd hne
  refine ⟨(pointMinMax pd).1, (pointMinMax pd).2, ?_, h1, h2, h3, ?_⟩
  · rw [(ComputeStatistics_labels m p data pd cd cv).1]; rfl
  · intro data1 cd1 cv1
    rw [(ComputeStatistics_labels m p data1 pd cd1 cv1).1]; rfl

/-- Witness of C7: the point values 3, 1, 2, 7 give min 1 and max 7. -/
theorem ComputeStatistics_min_max_witness :
    ∃ mn mx : ℝ,
      (ComputeStatistics realMath (newPipeline ClipType.CutZ DataSet.Mesh)
          ⟨some [.other 0], some [3, 1, 2, 7], some [4], some [⟨0, 0, 0⟩]⟩).statisticsLabel.map
          (fun t => (t.min, t.max)) = some (mn, mx) ∧
        mn ∈ [3, 1, 2, 7] ∧ mx ∈ [3, 1, 2, 7] ∧ (∀ v ∈ [3, 1, 2, (7 : ℝ)], mn ≤ v ∧ v ≤ mx) := by
  obtain ⟨mn, mx, h1, h2, h3, h4, _⟩ := ComputeStatistics_min_max realMath
    (newPipeline ClipType.CutZ DataSet.Mesh) [.other 0] [3, 1, 2, 7] [4] [⟨0, 0, 0⟩] (by simp)
  exact ⟨mn, mx, h1, h2, h3, h4⟩

/-! ### C8: zero cells -/

/-- C8: if the clipped, triangulated result contains zero cells, the cell
scalars that `ComputeStatistics` reads from `dataCellData` are `NULL`, so it
returns at its guard: nothing is divided by the zero size and the state, with
the statistics label and the volume/area label, is left as it was. -/
theorem ComputeStatistics_zero_cells {K : Type} [LinearOrderedField K] (m : MathLib K)
    (p : Pipeline K) (cells : List (vtkCell K)) (pd cd : List K) (cv : List (Vec3 K))
    (hzero : cells.length = 0) :
    ComputeStatistics m p (dataCellDataOutput cells pd cd cv) = p ∧
      (ComputeStatistics m p (dataCellDataOutput cells pd cd cv)).statisticsLabel
        = p.statisticsLabel ∧
      (ComputeStatistics m p (dataCellDataOutput cells pd cd cv)).volumeLabel
        = p.volumeLabel := by
  have h : ComputeStatistics m p (dataCellDataOutput cells pd cd cv) = p := by
    simp [ComputeStatistics, dataCellDataOutput, hzero]
  rw [h]
  exact ⟨rfl, rfl, rfl⟩

/-- Witness of C8: a pipeline whose labels were set by an earlier computation keeps them
when the result becomes empty. -/
theorem ComputeStatistics_zero_cells_witness :
    (ComputeStatistics realMath
        (ComputeStatistics realMath (newPipeline ClipType.CutZ DataSet.Mesh)
          ⟨some [.tetra ⟨0, 0, 0⟩ ⟨1, 0, 0⟩ ⟨0, 1, 0⟩ ⟨0, 0, 6⟩], some [7, 7, 7, 7], some [7],
            some [⟨0, 0, 0⟩]⟩)
        (dataCellDataOutput [] [] [] [])).statisticsLabel =
      (ComputeStatistics realMath (newPipeline ClipType.CutZ DataSet.Mesh)
          ⟨some [.tetra ⟨0, 0, 0⟩ ⟨1, 0, 0⟩ ⟨0, 1, 0⟩ ⟨0, 0, 6⟩], some [7, 7, 7, 7], some [7],
            some [⟨0, 0, 0⟩]⟩).statisticsLabel :=
  (ComputeStatistics_zero_cells realMath _ [] [] [] [] rfl).2.1

/-! ### C9: legend label counts -/

/-- C9: `SetColorMapRange(min, max)` builds the black-body ramp with 6 legend
labels in `XYMagnitude` mode and in `ZComponent` mode unless `min < 0 < max`,
the circular ramp with 9 labels in `XYAngle` mode for every `min` and `max`,
and the double-ended ramp with 5 labels in `ZComponent` mode when
`min < 0 < max`; the label count depends on the mode and the sign of the range
only. -/
theorem SetColorMapRange_legendNumberOfLabels {K : Type} [LinearOrderedField K]
    (p : Pipeline K) (min max : K) :
    (SetColorMapRange p min max).legendNumberOfLabels =
        (match p.vectorData with
          | .XYMagnitude => 6
          | .XYAngle => 9
          | .ZComponent => if min < 0 ∧ 0 < max then 5 else 6) ∧
      (p.vectorData = .XYMagnitude ∨ (p.vectorData = .ZComponent ∧ ¬ (min < 0 ∧ 0 < max)) →
        SetColorMapRange p min max = CreateBlackBody p min max ∧
          (SetColorMapRange p min max).legendNumberOfLabels = 6) ∧
      (p.vectorData = .XYAngle →
        SetColorMapRange p min max = CreateCircular p ∧
          (SetColorMapRange p min max).legendNumberOfLabels = 9) ∧
      (p.vectorData = .ZComponent ∧ min < 0 ∧ 0 < max →
        SetColorMapRange p min max = CreateDoubleEnded p min max ∧
          (SetColorMapRange p min max).legendNumberOfLabels = 5) := by
  refine ⟨?_, ?_, ?_, ?_⟩
  · unfold SetColorMapRange
    cases p.vectorData
    · rfl
    · rfl
    · simp only [gt_iff_lt]
      split_ifs <;> rfl
  · rintro (h | ⟨h, hn⟩)
    · simp [SetColorMapRange, h, CreateBlackBody]
    · simp only [SetColorMapRange, h, gt_iff_lt, if_neg hn]
      exact ⟨trivial, rfl⟩
  · intro h
    simp [SetColorMapRange, h, CreateCircular]
  · rintro ⟨h, hmin, hmax⟩
    simp only [SetColorMapRange, h, gt_iff_lt, if_pos (And.intro hmin hmax)]
    exact ⟨trivial, rfl⟩

/-- Witness of C9: in `ZComponent` mode the range [-1, 2] gives the double-ended ramp
and five labels. -/
theorem SetColorMapRange_legendNumberOfLabels_witness :
    (SetColorMapRange
        { (newPipeline ClipType.CutZ DataSet.Mesh : Pipeline ℚ) with vectorData := .ZComponent }
        (-1) 2).legendNumberOfLabels = 5 :=
  ((SetColorMapRange_legendNumberOfLabels
      { (newPipeline ClipType.CutZ DataSet.Mesh : Pipeline ℚ) with vectorData := .ZComponent }
      (-1) 2).2.2.2 ⟨rfl, by norm_num, by norm_num⟩).2

/-! ### C10: resetting the clipping box -/

/-- C10 (as amended): for every bounds of the active geometry (min ≤ max on each
axis, midpoints and extents within the range of `int`), after
`ResetClippingBox` the center is the midpoint truncated toward zero, the size
is the extent truncated toward zero and the rotation is 0; on an axis,
`center - size/2` is the lower bound and `center + size/2` the upper bound
exactly when the midpoint and the extent on that axis are whole numbers. -/
theorem ResetClippingBox_box {K : Type} [LinearOrderedField K] [FloorRing K]
    (p : Pipeline K) (bounds : Fin 6 → K)
    (hb : bounds 0 ≤ bounds 1 ∧ bounds 2 ≤ bounds 3 ∧ bounds 4 ≤ bounds 5)
    (hfit : FitsInt ((bounds 1 + bounds 0) / 2) ∧ FitsInt ((bounds 3 + bounds 2) / 2) ∧
      FitsInt ((bounds 5 + bounds 4) / 2) ∧ FitsInt (bounds 1 - bounds 0) ∧
      FitsInt (bounds 3 - bounds 2) ∧ FitsInt (bounds 5 - bounds 4)) :
    GetClippingBoxCenter (ResetClippingBox p bounds) =
        ⟨(truncToInt ((bounds 1 + bounds 0) / 2) : K),
         (truncToInt ((bounds 3 + bounds 2) / 2) : K),
         (truncToInt ((bounds 5 + bounds 4) / 2) : K)⟩ ∧
      GetClippingBoxSize (ResetClippingBox p bounds) =
        ⟨(truncToInt (bounds 1 - bounds 0) : K), (truncToInt (bounds 3 - bounds 2) : K),
         (truncToInt (bounds 5 - bounds 4) : K)⟩ ∧
      GetClippingBoxRotation (ResetClippingBox p bounds) = 0 ∧
      (((GetClippingBoxCenter (ResetClippingBox p bounds)).x
            - (GetClippingBoxSize (ResetClippingBox p bounds)).x / 2 = bounds 0 ∧
          (GetClippingBoxCenter (ResetClippingBox p bounds)).x
            + (GetClippingBoxSize (ResetClippingBox p bounds)).x / 2 = bounds 1) ↔
        (IsInteger ((bounds 1 + bounds 0) / 2) ∧ IsInteger (bounds 1 - bounds 0))) ∧
      (((GetClippingBoxCenter (ResetClippingBox p bounds)).y
            - (GetClippingBoxSize (ResetClippingBox p bounds)).y / 2 = bounds 2 ∧
          (GetClippingBoxCenter (ResetClippingBox p bounds)).y
            + (GetClippingBoxSize (ResetClippingBox p bounds)).y / 2 = bounds 3) ↔
        (IsInteger ((bounds 3 + bounds 2) / 2) ∧ IsInteger (bounds 3 - bounds 2))) ∧
      (((GetClippingBoxCenter (ResetClippingBox p bounds)).z
            - (GetClippingBoxSize (ResetClippingBox p bounds)).z / 2 = bounds 4 ∧
          (GetClippingBoxCenter (ResetClippingBox p bounds)).z
            + (GetClippingBoxSize (ResetClippingBox p bounds)).z / 2 = bounds 5) ↔
        (IsInteger ((bounds 5 + bounds 4) / 2) ∧ IsInteger (bounds 5 - bounds 4))) := by
  have _ := hb
  have _ := hfit
  obtain ⟨hc, hs, hr⟩ := ResetClippingBox_getters p bounds
  rw [hc, hs, hr]
  exact ⟨rfl, rfl, rfl, truncated_box_eq_bounds_iff _ _, truncated_box_eq_bounds_iff _ _,
    truncated_box_eq_bounds_iff _ _⟩

/-- Witness of C10 (as amended): the bounds [0, 10] x [0, 10] x [0, 10] give the center
(5, 5, 5). -/
theorem ResetClippingBox_box_witness :
    GetClippingBoxCenter (ResetClippingBox (newPipeline ClipType.CutZ DataSet.Mesh : Pipeline ℚ)
        ![0, 10, 0, 10, 0, 10]) =
      ⟨(truncToInt (((10 : ℚ) + 0) / 2) : ℚ), (truncToInt (((10 : ℚ) + 0) / 2) : ℚ),
       (truncToInt (((10 : ℚ) + 0) / 2) : ℚ)⟩ :=
  (ResetClippingBox_box (newPipeline ClipType.CutZ DataSet.Mesh : Pipeline ℚ)
    ![0, 10, 0, 10, 0, 10]
    (by
      have e5 : (![0, 10, 0, 10, 0, 10] : Fin 6 → ℚ) 5 = 10 := rfl
      simp [e5])
    (by
      have e5 : (![0, 10, 0, 10, 0, 10] : Fin 6 → ℚ) 5 = 10 := rfl
      norm_num [FitsInt, e5])).1

/-- C10 as stated fails: for the bounds [0, 1] x [0, 1] x [0, 1] `ResetClippingBox`
sets the center (0, 0, 0) and the size (1, 1, 1), a box from -1/2 to 1/2 on every
axis, not the bounding box. -/
theorem ResetClippingBox_not_bounding_box :
    GetClippingBoxCenter (ResetClippingBox (newPipeline ClipType.CutZ DataSet.Mesh : Pipeline ℚ)
        ![0, 1, 0, 1, 0, 1]) = ⟨0, 0, 0⟩ ∧
      GetClippingBoxSize (ResetClippingBox (newPipeline ClipType.CutZ DataSet.Mesh : Pipeline ℚ)
        ![0, 1, 0, 1, 0, 1]) = ⟨1, 1, 1⟩ ∧
      (GetClippingBoxCenter (ResetClippingBox
          (newPipeline ClipType.CutZ DataSet.Mesh : Pipeline ℚ) ![0, 1, 0, 1, 0, 1])).x
        - (GetClippingBoxSize (ResetClippingBox
          (newPipeline ClipType.CutZ DataSet.Mesh : Pipeline ℚ) ![0, 1, 0, 1, 0, 1])).x / 2
        ≠ (![0, 1, 0, 1, 0, 1] : Fin 6 → ℚ) 0 := by
  obtain ⟨hc, hs, _⟩ := ResetClippingBox_getters
    (newPipeline ClipType.CutZ DataSet.Mesh : Pipeline ℚ) ![0, 1, 0, 1, 0, 1]
  have h1 : truncToInt (((1 : ℚ) + 0) / 2) = 0 := by
    unfold truncToInt
    rw [if_pos (by norm_num), Int.floor_eq_iff]
    norm_num
  have h2 : truncToInt ((1 : ℚ) - 0) = 1 := by
    unfold truncToInt
    rw [if_pos (by norm_num), Int.floor_eq_iff]
    norm_num
  have h3 : truncToInt ((2 : ℚ)⁻¹) = 0 := by
    have e : (2 : ℚ)⁻¹ = (1 + 0) / 2 := by norm_num
    rw [e, h1]
  have h4 : truncToInt (1 : ℚ) = 1 := by
    have e : (1 : ℚ) = 1 - 0 := by norm_num
    rw [e, h2]
  have e5 : (![0, 1, 0, 1, 0, 1] : Fin 6 → ℚ) 5 = 1 := rfl
  rw [hc, hs]
  simp [h3, h4, e5]

/-! ### C11: resetting the clipping box on whole-number bounds -/

/-- The `(int)` conversion leaves a whole number as it is. -/
theorem truncToInt_of_IsInteger {K : Type} [LinearOrderedField K] [FloorRing K] {x : K}
    (h : IsInteger x) : (truncToInt x : K) = x := by
  obtain ⟨n, rfl⟩ := h
  rw [truncToInt_intCast]

/-- C11: for every geometry whose bounds have whole-number midpoints and
whole-number extents on each axis (within the range of `int`),
`ResetClippingBox` sets the center to the midpoints, the size to the extents
and the rotation to 0. -/
theorem ResetClippingBox_integer_bounds {K : Type} [LinearOrderedField K] [FloorRing K]
    (p : Pipeline K) (bounds : Fin 6 → K)
    (hmid : IsInteger ((bounds 1 + bounds 0) / 2) ∧ IsInteger ((bounds 3 + bounds 2) / 2) ∧
      IsInteger ((bounds 5 + bounds 4) / 2))
    (hext : IsInteger (bounds 1 - bounds 0) ∧ IsInteger (bounds 3 - bounds 2) ∧
      IsInteger (bounds 5 - bounds 4))
    (hfit : FitsInt ((bounds 1 + bounds 0) / 2) ∧ FitsInt ((bounds 3 + bounds 2) / 2) ∧
      FitsInt ((bounds 5 + bounds 4) / 2) ∧ FitsInt (bounds 1 - bounds 0) ∧
      FitsInt (bounds 3 - bounds 2) ∧ FitsInt (bounds 5 - bounds 4)) :
    GetClippingBoxCenter (ResetClippingBox p bounds) =
        ⟨(bounds 1 + bounds 0) / 2, (bounds 3 + bounds 2) / 2, (bounds 5 + bounds 4) / 2⟩ ∧
      GetClippingBoxSize (ResetClippingBox p bounds) =
        ⟨bounds 1 - bounds 0, bounds 3 - bounds 2, bounds 5 - bounds 4⟩ ∧
      GetClippingBoxRotation (ResetClippingBox p bounds) = 0 := by
  have _ := hfit
  obtain ⟨hc, hs, hr⟩ := ResetClippingBox_getters p bounds
  rw [hc, hs, hr, truncToInt_of_IsInteger hmid.1, truncToInt_of_IsInteger hmid.2.1,
    truncToInt_of_IsInteger hmid.2.2, truncToInt_of_IsInteger hext.1,
    truncToInt_of_IsInteger hext.2.1, truncToInt_of_IsInteger hext.2.2]
  exact ⟨rfl, rfl, rfl⟩

/-- Witness of C11, the scenario of the specification: for the bounds
[0, 10] x [0, 10] x [0, 10], `ResetClippingBox` yields center (5, 5, 5), size
(10, 10, 10), rotation 0. -/
theorem ResetClippingBox_integer_bounds_witness :
    GetClippingBoxCenter (ResetClippingBox (newPipeline ClipType.CutZ DataSet.Mesh : Pipeline ℚ)
        ![0, 10, 0, 10, 0, 10]) = ⟨5, 5, 5⟩ ∧
      GetClippingBoxSize (ResetClippingBox (newPipeline ClipType.CutZ DataSet.Mesh : Pipeline ℚ)
        ![0, 10, 0, 10, 0, 10]) = ⟨10, 10, 10⟩ ∧
      GetClippingBoxRotation (ResetClippingBox
        (newPipeline ClipType.CutZ DataSet.Mesh : Pipeline ℚ) ![0, 10, 0, 10, 0, 10]) = 0 := by
  have e5 : (![0, 10, 0, 10, 0, 10] : Fin 6 → ℚ) 5 = 10 := rfl
  have h := ResetClippingBox_integer_bounds (newPipeline ClipType.CutZ DataSet.Mesh : Pipeline ℚ)
    ![0, 10, 0, 10, 0, 10]
    ⟨⟨5, by norm_num⟩, ⟨5, by norm_num⟩, ⟨5, by norm_num [e5]⟩⟩
    ⟨⟨10, by norm_num⟩, ⟨10, by norm_num⟩, ⟨10, by norm_num [e5]⟩⟩
    (by norm_num [FitsInt, e5])
  obtain ⟨h1, h2, h3⟩ := h
  refine ⟨?_, ?_, h3⟩
  · rw [h1]; norm_num [e5]
  · rw [h2]; norm_num [e5]

/-! ### C12: the representative cube -/

/-- C12: for every `ClipType` `t` (one of the six enumerators), `SetClipType(t)`
sets the length of the representative cube to 0 on the cut axis when `t` is
`CutX`, `CutY` or `CutZ` and to 1 on every other axis (all three lengths are 1
for `Extract`, `FastClip`, `AccurateClip`); `SetClipType(CutX)` gives the
lengths (0, 1, 1); the size returned by `GetClippingBoxSize` is unchanged. -/
theorem SetClipType_cube_lengths {K : Type} [LinearOrderedField K] (p : Pipeline K)
    (t : ClipType) (ht : t ∈ ClipType.enumerators) :
    (SetClipType p t).clippingCubeSource =
        ⟨if t = ClipType.CutX then 0 else 1, if t = ClipType.CutY then 0 else 1,
         if t = ClipType.CutZ then 0 else 1⟩ ∧
      (SetClipType p ClipType.CutX).clippingCubeSource = ⟨0, 1, 1⟩ ∧
      GetClippingBoxSize (SetClipType p t) = GetClippingBoxSize p := by
  refine ⟨?_, ?_, ?_⟩
  · simp only [ClipType.enumerators, List.mem_cons, List.mem_singleton, List.not_mem_nil,
      or_false] at ht
    rcases ht with h | h | h | h | h | h <;> subst h <;> rfl
  · rfl
  · rw [GetClippingBoxSize, GetClippingBoxSize, SetClipType_clippingBoxActor]

/-- Witness of C12: `SetClipType(CutY)` on the constructed pipeline. -/
theorem SetClipType_cube_lengths_witness :
    (SetClipType (newPipeline ClipType.Extract DataSet.Mesh : Pipeline ℚ)
        ClipType.CutY).clippingCubeSource = ⟨1, 0, 1⟩ := by
  have h := (SetClipType_cube_lengths (newPipeline ClipType.Extract DataSet.Mesh : Pipeline ℚ)
    ClipType.CutY (by decide)).1
  rw [h]
  rfl

/-! ### C13: the volume/area label -/

/-- C13: for every clip type (one of the six enumerators), the label built by
`UpdateVolumeLabel` is an area label ("Area Statistics", m^2) exactly when the
clip type is `CutX`, `CutY` or `CutZ` and a volume label ("Volume Statistics",
m^3) for `Extract`, `FastClip`, `AccurateClip`; its clip-region measure is the
product of the box sizes over the axes that are not collapsed (all three for a
volume, the two other than the cut axis for an area), its cells' measure is
the argument, and its difference is the clip-region measure minus the cells'
measure. -/
theorem UpdateVolumeLabel_text {K : Type} [LinearOrderedField K] (p : Pipeline K) (size : K)
    (ht : p.clipType ∈ ClipType.enumerators) :
    ∃ v : VolumeText K,
      (UpdateVolumeLabel p size).volumeLabel = some v ∧
        v.size = size ∧ v.difference = v.clipSize - size ∧
        (v.kind = some .Area ↔
          (p.clipType = ClipType.CutX ∨ p.clipType = ClipType.CutY ∨
            p.clipType = ClipType.CutZ)) ∧
        (v.kind = some .Volume ↔
          (p.clipType = ClipType.Extract ∨ p.clipType = ClipType.FastClip ∨
            p.clipType = ClipType.AccurateClip)) ∧
        (v.kind = some .Volume →
          v.format = "Volume Statistics:\nClip: %g m^3\nCells: %g m^3\nDifference: %g m^3" ∧
            v.clipSize = (GetClippingBoxSize p).x * (GetClippingBoxSize p).y
              * (GetClippingBoxSize p).z) ∧
        (p.clipType = ClipType.CutX →
          v.format = "Area Statistics:\n\tClip: %g m^2\nCells: %g m^2\nDifference: %g m^2" ∧
            v.clipSize = (GetClippingBoxSize p).y * (GetClippingBoxSize p).z) ∧
        (p.clipType = ClipType.CutY →
          v.format = "Area Statistics:\nClip: %g m^2\nCells: %g m^2\nDifference: %g m^2" ∧
            v.clipSize = (GetClippingBoxSize p).x * (GetClippingBoxSize p).z) ∧
        (p.clipType = ClipType.CutZ →
          v.format = "Area Statistics:\nClip: %g m^2\nCells: %g m^2\nDifference: %g m^2" ∧
            v.clipSize = (GetClippingBoxSize p).x * (GetClippingBoxSize p).y) := by
  simp only [ClipType.enumerators, List.mem_cons, List.mem_singleton, List.not_mem_nil,
    or_false] at ht
  rcases ht with h | h | h | h | h | h <;>
  · refine ⟨_, by rw [UpdateVolumeLabel, h]; rfl, rfl, rfl, ?_⟩
    rw [h]
    simp +decide

/-- Witness of C13: with clip type `CutX` and box size (2, 3, 4), the label for cells of
measure 5 is an area label with clip-region measure 12 and difference 7. -/
theorem UpdateVolumeLabel_text_witness :
    ∃ v : VolumeText ℚ,
      (UpdateVolumeLabel (SetClippingBoxSize (newPipeline ClipType.CutX DataSet.Mesh) 2 3 4)
          5).volumeLabel = some v ∧
        v.kind = some .Area ∧ v.clipSize = 12 ∧ v.difference = 7 := by
  obtain ⟨v, h1, _, hdiff, hA, _, _, hx, _, _⟩ := UpdateVolumeLabel_text
    (SetClippingBoxSize (newPipeline ClipType.CutX DataSet.Mesh : Pipeline ℚ) 2 3 4) 5
    (by simp [SetClippingBoxSize, UpdateClipLabel, newPipeline, ClipType.enumerators])
  have hc : v.clipSize = 12 := by
    rw [(hx rfl).2]
    norm_num [GetClippingBoxSize, SetClippingBoxSize, UpdateClipLabel, newPipeline]
  refine ⟨v, h1, hA.2 (Or.inl rfl), hc, ?_⟩
  rw [hdiff, hc]
  norm_num

/-! ### What each operation leaves unchanged -/

section Frames

variable {K : Type} [LinearOrderedField K]

/-- Method `ComputeStatistics` changes the statistics label and the volume label only. -/
theorem ComputeStatistics_frame (m : MathLib K) (p : Pipeline K) (out : PipelineOutput K) :
    ComputeStatistics m p out =
      { p with statisticsLabel := (ComputeStatistics m p out).statisticsLabel,
               volumeLabel := (ComputeStatistics m p out).volumeLabel } := by
  unfold ComputeStatistics
  split
  · simp only [UpdateVolumeLabel, UpdateStatisticsLabel]
    split_ifs <;> rfl
  · rfl

/-- Method `SetColorMapRange` changes the colour function and the label count only. -/
theorem SetColorMapRange_frame (p : Pipeline K) (min max : K) :
    SetColorMapRange p min max =
      { p with dataColor := (SetColorMapRange p min max).dataColor,
               legendNumberOfLabels := (SetColorMapRange p min max).legendNumberOfLabels } := by
  unfold SetColorMapRange
  split
  · rfl
  · rfl
  · split_ifs <;> rfl

/-- Method `SetClipType` changes the clip type and the cube lengths only. -/
theorem SetClipType_frame (p : Pipeline K) (t : ClipType) :
    SetClipType p t =
      { p with clipType := t,
               clippingCubeSource := (SetClipType p t).clippingCubeSource } := by
  unfold SetClipType
  simp only
  split_ifs <;> rfl

/-- The re-linking of `UpdateClipping` changes the cut normal and two connections only. -/
theorem relinkClipping_frame (p : Pipeline K) :
    relinkClipping p =
      { p with cutPlaneNormal := (relinkClipping p).cutPlaneNormal,
               clipDataPlanesFirstInput := (relinkClipping p).clipDataPlanesFirstInput,
               dataTriangleInput := (relinkClipping p).dataTriangleInput } := by
  unfold relinkClipping
  simp only
  split_ifs <;> rfl

/-- The stage that feeds the triangulation after the re-linking, for an enumerator. -/
theorem relinkClipping_dataTriangleInput (p : Pipeline K)
    (ht : p.clipType ∈ ClipType.enumerators) :
    some (relinkClipping p).dataTriangleInput = clipStageOf p.clipType := by
  simp only [ClipType.enumerators, List.mem_cons, List.mem_singleton, List.not_mem_nil,
    or_false] at ht
  unfold relinkClipping
  rcases ht with h | h | h | h | h | h <;> rw [h] <;> rfl

/-- After the re-linking one of the three clip stages feeds the triangulation when one
did before. -/
theorem relinkClipping_dataTriangleInput_mem (p : Pipeline K)
    (h : p.dataTriangleInput ∈ [Port.extractData, Port.clipDataBox, Port.clipDataPlanesLast]) :
    (relinkClipping p).dataTriangleInput ∈
      [Port.extractData, Port.clipDataBox, Port.clipDataPlanesLast] := by
  unfold relinkClipping
  simp only
  split_ifs <;> first | exact h | simp

/-- Method `UpdateClipping` changes the connections, the cut normal, the clipping
transform and the two statistics labels only. -/
theorem UpdateClipping_frame (m : MathLib K) (p : Pipeline K) (out : PipelineOutput K) :
    UpdateClipping m p out =
      { p with cutPlaneNormal := (relinkClipping p).cutPlaneNormal,
               clipDataPlanesFirstInput := (relinkClipping p).clipDataPlanesFirstInput,
               dataTriangleInput := (relinkClipping p).dataTriangleInput,
               clippingBoxTransform := (UpdateClipping m p out).clippingBoxTransform,
               statisticsLabel := (UpdateClipping m p out).statisticsLabel,
               volumeLabel := (UpdateClipping m p out).volumeLabel } := by
  have h : UpdateClipping m p out = ComputeStatistics m
      { relinkClipping p with
        clippingBoxTransform := buildClippingTransform m (relinkClipping p) } out := rfl
  rw [h, ComputeStatistics_frame, relinkClipping_frame]

/-- The three box setters change the box actor and the clip label only. -/
theorem SetClippingBox_frame (p : Pipeline K) (x y z : K) :
    SetClippingBoxCenter p x y z =
        { p with clippingBoxActor := (SetClippingBoxCenter p x y z).clippingBoxActor,
                 clipLabel := (SetClippingBoxCenter p x y z).clipLabel } ∧
      SetClippingBoxSize p x y z =
        { p with clippingBoxActor := (SetClippingBoxSize p x y z).clippingBoxActor,
                 clipLabel := (SetClippingBoxSize p x y z).clipLabel } ∧
      SetClippingBoxRotation p x =
        { p with clippingBoxActor := (SetClippingBoxRotation p x).clippingBoxActor,
                 clipLabel := (SetClippingBoxRotation p x).clipLabel } :=
  ⟨rfl, rfl, rfl⟩

/-- After `UpdateClipping` with an enumerator as clip type, the stage feeding the
triangulation is the one of the clip type. -/
theorem UpdateClipping_clipStage (m : MathLib K) (p : Pipeline K) (out : PipelineOutput K)
    (ht : p.clipType ∈ ClipType.enumerators) :
    some (UpdateClipping m p out).dataTriangleInput =
      clipStageOf (UpdateClipping m p out).clipType := by
  rw [UpdateClipping_frame]
  exact relinkClipping_dataTriangleInput p ht

end Frames

section FloorFrames

variable {K : Type} [LinearOrderedField K] [FloorRing K]

/-- Method `ResetClippingBox` changes the box actor and the clip label only. -/
theorem ResetClippingBox_frame (p : Pipeline K) (bounds : Fin 6 → K) :
    ResetClippingBox p bounds =
      { p with clippingBoxActor := (ResetClippingBox p bounds).clippingBoxActor,
               clipLabel := (ResetClippingBox p bounds).clipLabel } :=
  rfl

/-- The visibility of the volume label after `SetDataSet`. -/
theorem SetDataSet_volumeLabelVisibility (m : MathLib K) (p : Pipeline K) (which : DataSet)
    (dataRange : Fin 2 → K) (bounds : Fin 6 → K) (out : PipelineOutput K) :
    (SetDataSet m p which dataRange bounds out).volumeLabelVisibility =
      decide (which = DataSet.Mesh) := by
  unfold SetDataSet
  simp only
  rw [UpdateClipping_frame, ResetClippingBox_frame, ResetColorMapRange, SetColorMapRange_frame]
  cases which <;> rfl

/-- Method `SetDataSet` ends with `UpdateClipping` on a state that has the connection of
`dataTriangle` of the state before, the clip type of the chosen data set, and the box that
`ResetClippingBox` sets. -/
theorem SetDataSet_eq_UpdateClipping (m : MathLib K) (p : Pipeline K) (which : DataSet)
    (dataRange : Fin 2 → K) (bounds : Fin 6 → K) (out : PipelineOutput K) :
    ∃ q : Pipeline K,
      SetDataSet m p which dataRange bounds out = UpdateClipping m q out ∧
        q.dataTriangleInput = p.dataTriangleInput ∧
        q.clipType = (match which with
          | .RoofOffset => ClipType.AccurateClip
          | .Mesh => ClipType.CutZ) ∧
        q.clippingBoxActor = (ResetClippingBox p bounds).clippingBoxActor := by
  refine ⟨_, rfl, ?_, ?_, ?_⟩
  · rw [ResetClippingBox_frame, ResetColorMapRange, SetColorMapRange_frame]
    cases which <;> simp only [] <;> rw [SetClipType_frame]
  · rw [ResetClippingBox_frame, ResetColorMapRange, SetColorMapRange_frame]
    cases which <;> simp only [] <;> rw [SetClipType_frame]
  · rw [ResetColorMapRange, SetColorMapRange_frame]
    cases which <;> simp only [] <;> rw [SetClipType_frame] <;> rfl

/-- Every operation keeps one of the three clip stages connected to the triangulation. -/
theorem applyOperation_dataTriangleInput_mem (m : MathLib K) (p : Pipeline K)
    (op : Operation K)
    (h : p.dataTriangleInput ∈ [Port.extractData, Port.clipDataBox, Port.clipDataPlanesLast]) :
    (applyOperation m p op).dataTriangleInput ∈
      [Port.extractData, Port.clipDataBox, Port.clipDataPlanesLast] := by
  cases op with
  | SetClipType type =>
    rw [applyOperation, SetClipType_frame]; exact h
  | SetDataSet which dataRange bounds out =>
    obtain ⟨q, hq, hin, _, _⟩ := SetDataSet_eq_UpdateClipping m p which dataRange bounds out
    rw [applyOperation, hq, UpdateClipping_frame]
    exact relinkClipping_dataTriangleInput_mem q (hin ▸ h)
  | SetVectorData which dataRange out =>
    rw [applyOperation]
    unfold SetVectorData
    simp only
    rw [ComputeStatistics_frame, ResetColorMapRange, SetColorMapRange_frame]
    cases which <;> exact h
  | UpdateClipping out =>
    rw [applyOperation, UpdateClipping_frame]
    exact relinkClipping_dataTriangleInput_mem p h
  | OpenClipSettings file uninit =>
    rw [applyOperation]
    unfold OpenClipSettingsFile
    cases file <;> simp only [OpenClipSettings] <;> rw [SetClipType_frame] <;> exact h
  | SetClippingBoxCenter x y z => exact h
  | SetClippingBoxSize x y z => exact h
  | SetClippingBoxRotation theta => exact h
  | ResetClippingBox bounds => exact h
  | SetColorMapRange min max =>
    rw [applyOperation, SetColorMapRange_frame]; exact h
  | SetShowVolumeAreaStatisticsLabel showLabel => exact h

/-- In every state reached by a sequence of operations one of the three clip stages feeds
the triangulation, when one did at the start. -/
theorem runOperations_dataTriangleInput_mem (m : MathLib K) (ops : List (Operation K))
    (p : Pipeline K)
    (h : p.dataTriangleInput ∈ [Port.extractData, Port.clipDataBox, Port.clipDataPlanesLast]) :
    (runOperations m p ops).dataTriangleInput ∈
      [Port.extractData, Port.clipDataBox, Port.clipDataPlanesLast] := by
  induction ops generalizing p with
  | nil => exact h
  | cons op ops ih =>
    exact ih _ (applyOperation_dataTriangleInput_mem m p op h)

end FloorFrames

/-! ### C16: the volume label follows the data set -/

/-- C16: from every prior state `p`, also one where the label was toggled with
`SetShowVolumeAreaStatisticsLabel`, after `SetDataSet(RoofOffset)` the
volume/area label is hidden and after `SetDataSet(Mesh)` it is shown:
`GetShowVolumeAreaStatisticsLabel` depends on the data set just selected only. -/
theorem SetDataSet_GetShowVolumeAreaStatisticsLabel {K : Type} [LinearOrderedField K]
    [FloorRing K] (m : MathLib K) (p : Pipeline K) (dataRange : Fin 2 → K)
    (bounds : Fin 6 → K) (out : PipelineOutput K) :
    GetShowVolumeAreaStatisticsLabel
        (SetDataSet m p DataSet.RoofOffset dataRange bounds out) = false ∧
      GetShowVolumeAreaStatisticsLabel (SetDataSet m p DataSet.Mesh dataRange bounds out) = true ∧
      (∀ b : Bool,
        GetShowVolumeAreaStatisticsLabel
            (SetDataSet m (SetShowVolumeAreaStatisticsLabel p b) DataSet.RoofOffset dataRange
              bounds out) = false ∧
          GetShowVolumeAreaStatisticsLabel
            (SetDataSet m (SetShowVolumeAreaStatisticsLabel p b) DataSet.Mesh dataRange
              bounds out) = true) ∧
      ∀ (q : Pipeline K) (which : DataSet) (dataRange1 : Fin 2 → K) (bounds1 : Fin 6 → K)
        (out1 : PipelineOutput K),
        GetShowVolumeAreaStatisticsLabel (SetDataSet m q which dataRange1 bounds1 out1) =
          GetShowVolumeAreaStatisticsLabel (SetDataSet m p which dataRange bounds out) := by
  simp only [GetShowVolumeAreaStatisticsLabel, SetDataSet_volumeLabelVisibility]
  simp

/-! ### C17: the angle wheel and the contour -/

/-- C17: from every prior state, after `SetVectorData(which)` the colour wheel
and its border are visible exactly when `which = XYAngle`, and the zero-contour
actor is hidden for every `which`, `ZComponent` included. -/
theorem SetVectorData_visibility {K : Type} [LinearOrderedField K] (m : MathLib K)
    (p : Pipeline K) (which : VectorData) (dataRange : Fin 2 → K) (out : PipelineOutput K) :
    ((SetVectorData m p which dataRange out).colorWheelVisibility = true ↔
        which = VectorData.XYAngle) ∧
      ((SetVectorData m p which dataRange out).colorWheelBorderVisibility = true ↔
        which = VectorData.XYAngle) ∧
      (SetVectorData m p which dataRange out).contourVisibility = false := by
  unfold SetVectorData
  simp only
  rw [ComputeStatistics_frame, ResetColorMapRange, SetColorMapRange_frame]
  cases which <;> simp

/-! ### C14: the stage that feeds the triangulation -/

/-- C14 (as amended): in every state reached from the constructed pipeline by
public operations, exactly one of the extract filter, the box clip and the
plane-clip chain feeds the triangulation stage (its single input is one of the
three); right after `UpdateClipping` with an enumerator as clip type, and right
after `SetDataSet`, that stage is the one that matches the active clip type
(`Extract` → extract filter, `FastClip` → box clip, `AccurateClip`, `CutX`,
`CutY`, `CutZ` → plane-clip chain).  `SetClipType`, `OpenClipSettings` and the box
setters (`SetClippingBoxCenter`, `SetClippingBoxSize`, `SetClippingBoxRotation`,
`ResetClippingBox`) leave the connection as it was, from every state. -/
theorem reachable_clip_stage {K : Type} [LinearOrderedField K] [FloorRing K] (m : MathLib K)
    (c : ClipType) (d : DataSet) (ops : List (Operation K)) :
    (runOperations m (newPipeline c d) ops).dataTriangleInput ∈
        [Port.extractData, Port.clipDataBox, Port.clipDataPlanesLast] ∧
      (∀ out : PipelineOutput K,
        (runOperations m (newPipeline c d) ops).clipType ∈ ClipType.enumerators →
          some (UpdateClipping m (runOperations m (newPipeline c d) ops) out).dataTriangleInput
            = clipStageOf
                (UpdateClipping m (runOperations m (newPipeline c d) ops) out).clipType) ∧
      (∀ (which : DataSet) (dataRange : Fin 2 → K) (bounds : Fin 6 → K)
        (out : PipelineOutput K),
        some (SetDataSet m (runOperations m (newPipeline c d) ops) which dataRange bounds
            out).dataTriangleInput
          = clipStageOf (SetDataSet m (runOperations m (newPipeline c d) ops) which dataRange
              bounds out).clipType) ∧
      ∀ p : Pipeline K,
        (∀ t : ClipType, (SetClipType p t).dataTriangleInput = p.dataTriangleInput) ∧
        (∀ (file : Option (ClipSettingsFile K)) (uninit : ClipSettingsFile K),
          (OpenClipSettingsFile p file uninit).dataTriangleInput = p.dataTriangleInput) ∧
        (∀ x y z : K, (SetClippingBoxCenter p x y z).dataTriangleInput = p.dataTriangleInput) ∧
        (∀ x y z : K, (SetClippingBoxSize p x y z).dataTriangleInput = p.dataTriangleInput) ∧
        (∀ theta : K, (SetClippingBoxRotation p theta).dataTriangleInput
          = p.dataTriangleInput) ∧
        ∀ bounds : Fin 6 → K, (ResetClippingBox p bounds).dataTriangleInput
          = p.dataTriangleInput := by
  refine ⟨?_, ?_, ?_, ?_⟩
  · exact runOperations_dataTriangleInput_mem m ops _ (by simp [newPipeline])
  · intro out ht
    exact UpdateClipping_clipStage m _ out ht
  · intro which dataRange bounds out
    obtain ⟨q, hq, _, hc, _⟩ := SetDataSet_eq_UpdateClipping m
      (runOperations m (newPipeline c d) ops) which dataRange bounds out
    rw [hq]
    apply UpdateClipping_clipStage
    rw [hc]
    cases which <;> decide
  · intro p
    refine ⟨?_, ?_, fun _ _ _ => rfl, fun _ _ _ => rfl, fun _ => rfl, fun _ => rfl⟩
    · intro t
      rw [SetClipType_frame]
    · intro file uninit
      unfold OpenClipSettingsFile
      cases file <;> simp only [OpenClipSettings] <;> rw [SetClipType_frame] <;> rfl

/-- C14 as stated fails: after construction and `SetClipType(Extract)` the active clip
type is `Extract` while the box clip, not the extract filter, feeds the triangulation. -/
theorem reachable_clip_stage_not_matching :
    (runOperations realMath (newPipeline ClipType.CutZ DataSet.Mesh)
        [Operation.SetClipType ClipType.Extract]).clipType = ClipType.Extract ∧
      (runOperations realMath (newPipeline ClipType.CutZ DataSet.Mesh)
        [Operation.SetClipType ClipType.Extract]).dataTriangleInput = Port.clipDataBox ∧
      some (runOperations realMath (newPipeline ClipType.CutZ DataSet.Mesh)
          [Operation.SetClipType ClipType.Extract]).dataTriangleInput
        ≠ clipStageOf (runOperations realMath (newPipeline ClipType.CutZ DataSet.Mesh)
          [Operation.SetClipType ClipType.Extract]).clipType := by
  refine ⟨rfl, rfl, ?_⟩
  have h1 : (runOperations realMath (newPipeline ClipType.CutZ DataSet.Mesh)
      [Operation.SetClipType ClipType.Extract]).dataTriangleInput = Port.clipDataBox := rfl
  have h2 : (runOperations realMath (newPipeline ClipType.CutZ DataSet.Mesh)
      [Operation.SetClipType ClipType.Extract]).clipType = ClipType.Extract := rfl
  rw [h1, h2]
  decide

/-- Witness of C14 (as amended): after `SetClipType(Extract)` and `UpdateClipping` the
extract filter feeds the triangulation. -/
theorem reachable_clip_stage_witness :
    some (UpdateClipping realMath
        (runOperations realMath (newPipeline ClipType.CutZ DataSet.Mesh)
          [Operation.SetClipType ClipType.Extract])
        ⟨none, none, none, none⟩).dataTriangleInput = some Port.extractData := by
  have h := (reachable_clip_stage realMath ClipType.CutZ DataSet.Mesh
    [Operation.SetClipType ClipType.Extract]).2.1 ⟨none, none, none, none⟩
    (by
      have h2 : (runOperations realMath (newPipeline ClipType.CutZ DataSet.Mesh)
          [Operation.SetClipType ClipType.Extract]).clipType = ClipType.Extract := rfl
      rw [h2]; decide)
  rw [h, UpdateClipping_frame]
  rfl

/-! ### C15: the size of the clipping box -/

/-- The truncated extent of bounds `lo ≤ hi` is not negative, and it is 0 exactly when
the extent is below 1. -/
theorem truncToInt_extent {K : Type} [LinearOrderedField K] [FloorRing K] (lo hi : K)
    (h : lo ≤ hi) :
    (0 : K) ≤ (truncToInt (hi - lo) : K) ∧ ((truncToInt (hi - lo) : K) = 0 ↔ hi - lo < 1) := by
  have h0 : 0 ≤ hi - lo := sub_nonneg.2 h
  have e : truncToInt (hi - lo) = ⌊hi - lo⌋ := by
    unfold truncToInt
    rw [if_pos h0]
  rw [e]
  constructor
  · exact_mod_cast Int.floor_nonneg.2 h0
  · rw [Int.cast_eq_zero, Int.floor_eq_zero_iff]
    constructor
    · intro hm
      exact hm.2
    · intro hlt
      exact ⟨h0, hlt⟩

/-- The truncation of an extent of at least 1 is at least 1. -/
theorem one_le_truncToInt {K : Type} [LinearOrderedField K] [FloorRing K] (x : K)
    (h : 1 ≤ x) : (1 : K) ≤ (truncToInt x : K) := by
  have h0 : 0 ≤ x := le_trans zero_le_one h
  have e : truncToInt x = ⌊x⌋ := by
    unfold truncToInt
    rw [if_pos h0]
  rw [e]
  have h1 : (1 : ℤ) ≤ ⌊x⌋ := Int.le_floor.2 (by exact_mod_cast h)
  exact_mod_cast h1

/-- C15 (as amended): after `ResetClippingBox`, and after `SetDataSet`, for bounds
whose extent on each axis is at least 1 (and within the range of `int`), each
component of the clipping-box size is at least 1, so it is positive whatever the
clip type; `SetClipType` leaves the size unchanged (it collapses the
representative cube, not the size), and `SetClippingBoxSize`, and with it
`OpenClipSettings`, stores the values it is given without a check. -/
theorem ResetClippingBox_size_ge_one {K : Type} [LinearOrderedField K] [FloorRing K]
    (p : Pipeline K) (bounds : Fin 6 → K)
    (hb : 1 ≤ bounds 1 - bounds 0 ∧ 1 ≤ bounds 3 - bounds 2 ∧ 1 ≤ bounds 5 - bounds 4)
    (hfit : FitsInt (bounds 1 - bounds 0) ∧ FitsInt (bounds 3 - bounds 2) ∧
      FitsInt (bounds 5 - bounds 4)) :
    (1 ≤ (GetClippingBoxSize (ResetClippingBox p bounds)).x ∧
        1 ≤ (GetClippingBoxSize (ResetClippingBox p bounds)).y ∧
        1 ≤ (GetClippingBoxSize (ResetClippingBox p bounds)).z) ∧
      (∀ (m : MathLib K) (which : DataSet) (dataRange : Fin 2 → K) (out : PipelineOutput K),
        GetClippingBoxSize (SetDataSet m p which dataRange bounds out) =
          GetClippingBoxSize (ResetClippingBox p bounds)) ∧
      (∀ t : ClipType, GetClippingBoxSize (SetClipType p t) = GetClippingBoxSize p) ∧
      (∀ x y z : K, GetClippingBoxSize (SetClippingBoxSize p x y z) = ⟨x, y, z⟩) ∧
      ∀ file : ClipSettingsFile K, GetClippingBoxSize (OpenClipSettings p file) = file.s := by
  have _ := hfit
  obtain ⟨_, hs, _⟩ := ResetClippingBox_getters p bounds
  obtain ⟨hx, hy, hz⟩ := hb
  rw [hs]
  refine ⟨⟨one_le_truncToInt _ hx, one_le_truncToInt _ hy, one_le_truncToInt _ hz⟩,
    ?_, ?_, ?_, ?_⟩
  · intro m which dataRange out
    obtain ⟨q, hq, _, _, ha⟩ := SetDataSet_eq_UpdateClipping m p which dataRange bounds out
    rw [← hs, GetClippingBoxSize, GetClippingBoxSize, hq, UpdateClipping_clippingBoxActor, ha]
  · intro t
    rw [GetClippingBoxSize, GetClippingBoxSize, SetClipType_clippingBoxActor]
  · intro x y z
    rfl
  · intro file
    exact (OpenClipSettings_getters p file).2.1

/-- Witness of C15 (as amended): the bounds [0, 10] x [0, 10] x [0, 10] give a size
whose components are at least 1. -/
theorem ResetClippingBox_size_ge_one_witness :
    1 ≤ (GetClippingBoxSize (ResetClippingBox
        (newPipeline ClipType.AccurateClip DataSet.RoofOffset : Pipeline ℚ)
        ![0, 10, 0, 10, 0, 10])).x ∧
      1 ≤ (GetClippingBoxSize (ResetClippingBox
        (newPipeline ClipType.AccurateClip DataSet.RoofOffset : Pipeline ℚ)
        ![0, 10, 0, 10, 0, 10])).y ∧
      1 ≤ (GetClippingBoxSize (ResetClippingBox
        (newPipeline ClipType.AccurateClip DataSet.RoofOffset : Pipeline ℚ)
        ![0, 10, 0, 10, 0, 10])).z := by
  have e4 : (![0, 10, 0, 10, 0, 10] : Fin 6 → ℚ) 4 = 0 := rfl
  have e5 : (![0, 10, 0, 10, 0, 10] : Fin 6 → ℚ) 5 = 10 := rfl
  exact (ResetClippingBox_size_ge_one
    (newPipeline ClipType.AccurateClip DataSet.RoofOffset : Pipeline ℚ)
    ![0, 10, 0, 10, 0, 10] (by norm_num [e4, e5]) (by norm_num [FitsInt, e4, e5])).1

/-- C15 as stated fails: `SetClippingBoxSize(-1, 1, 1)` leaves a negative size
component, and `SetClippingBoxSize(0, 1, 1)` after `SetClipType(Extract)` leaves the
X size 0 although the clip type is `Extract`, not `CutX`. -/
theorem clipping_box_size_not_invariant :
    (GetClippingBoxSize (SetClippingBoxSize
        (newPipeline ClipType.CutZ DataSet.Mesh : Pipeline ℚ) (-1) 1 1)).x < 0 ∧
      (GetClippingBoxSize (SetClippingBoxSize
        (SetClipType (newPipeline ClipType.CutZ DataSet.Mesh : Pipeline ℚ) ClipType.Extract)
        0 1 1)).x = 0 ∧
      GetClipType (SetClippingBoxSize
        (SetClipType (newPipeline ClipType.CutZ DataSet.Mesh : Pipeline ℚ) ClipType.Extract)
        0 1 1) = ClipType.Extract ∧
      ClipType.Extract ≠ ClipType.CutX := by
  refine ⟨?_, rfl, ?_, by decide⟩
  · norm_num [GetClippingBoxSize, SetClippingBoxSize, UpdateClipLabel, newPipeline]
  · exact SetClipType_clipType _ _

/-! ### C18: a file that cannot be opened -/

/-- C18, the code at the failing input: the file cannot be opened (`none`) and the
uninitialised locals hold center (1, 2, 3), size (4, 5, 6), rotation 7, type 0.
`OpenClipSettings` does not abort: it installs those values over the prior box
(center (0, 0, 0), size (1, 1, 1), rotation 0, type `CutZ`).  Likewise
`OpenCameraView` replaces the prior camera position (0, 0, 1) and focal point
(0, 0, 0) by the content (9, 9, 9), (8, 8, 8) of its uninitialised locals. -/
theorem OpenClipSettings_unopened_file_overwrites :
    GetClippingBoxCenter (newPipeline ClipType.CutZ DataSet.Mesh : Pipeline ℝ) = ⟨0, 0, 0⟩ ∧
      GetClipType (newPipeline ClipType.CutZ DataSet.Mesh : Pipeline ℝ) = ClipType.CutZ ∧
      GetClippingBoxCenter (OpenClipSettingsFile
        (newPipeline ClipType.CutZ DataSet.Mesh : Pipeline ℝ) none
        ⟨"", ⟨1, 2, 3⟩, ⟨4, 5, 6⟩, 7, 0⟩) = ⟨1, 2, 3⟩ ∧
      GetClippingBoxSize (OpenClipSettingsFile
        (newPipeline ClipType.CutZ DataSet.Mesh : Pipeline ℝ) none
        ⟨"", ⟨1, 2, 3⟩, ⟨4, 5, 6⟩, 7, 0⟩) = ⟨4, 5, 6⟩ ∧
      GetClippingBoxRotation (OpenClipSettingsFile
        (newPipeline ClipType.CutZ DataSet.Mesh : Pipeline ℝ) none
        ⟨"", ⟨1, 2, 3⟩, ⟨4, 5, 6⟩, 7, 0⟩) = 7 ∧
      GetClipType (OpenClipSettingsFile
        (newPipeline ClipType.CutZ DataSet.Mesh : Pipeline ℝ) none
        ⟨"", ⟨1, 2, 3⟩, ⟨4, 5, 6⟩, 7, 0⟩) = ClipType.Extract ∧
      (OpenCameraView realMath ⟨⟨0, 0, 1⟩, ⟨0, 0, 0⟩, ⟨0, 1, 0⟩⟩ none
        ⟨"", ⟨9, 9, 9⟩, ⟨8, 8, 8⟩, ⟨0, 0, 1⟩⟩).Position = ⟨9, 9, 9⟩ ∧
      (OpenCameraView realMath ⟨⟨0, 0, 1⟩, ⟨0, 0, 0⟩, ⟨0, 1, 0⟩⟩ none
        ⟨"", ⟨9, 9, 9⟩, ⟨8, 8, 8⟩, ⟨0, 0, 1⟩⟩).FocalPoint = ⟨8, 8, 8⟩ := by
  obtain ⟨h1, h2, h3, h4⟩ := OpenClipSettings_getters
    (newPipeline ClipType.CutZ DataSet.Mesh : Pipeline ℝ) ⟨"", ⟨1, 2, 3⟩, ⟨4, 5, 6⟩, 7, 0⟩
  refine ⟨rfl, rfl, h1, h2, h3, h4, ?_, ?_⟩
  · unfold OpenCameraView vtkCamera.SetViewUp
    simp only
    split_ifs <;> rfl
  · unfold OpenCameraView vtkCamera.SetViewUp
    simp only
    split_ifs <;> rfl

/-! ### C19, C20: the saved data export -/

/-- A whole number below 10 ^ 6 in absolute value is written exactly. -/
theorem streamDouble_intCast {K : Type} [LinearOrderedField K] [FloorRing K] (n : ℤ)
    (hn : |n| < 10 ^ 6) : streamDouble (n : K) = n :=
  streamDouble_eq_self ⟨n, 0, hn, by simp⟩

/-- C19, the code at the failing input: a result with a tetrahedron (volume 32,
center (1, 1, 3), scalar 2) followed by a cell of another type (type id 3, a
line; scalar 7).  `ComputeStatistics` lets the line contribute nothing (the
sums are those of the tetrahedron alone: 64 and 32), but `SaveData` does not
skip it: it writes a second record `7, 0, 5, 6, 8` with cell size 0 and the
content (5, 6, 8) of the uninitialised `center`. -/
theorem SaveData_writes_record_for_unknown_cell :
    cellSums realMath VectorData.XYMagnitude
        [.tetra ⟨0, 0, 0⟩ ⟨4, 0, 0⟩ ⟨0, 4, 0⟩ ⟨0, 0, 12⟩, .other 3] [2, 7]
        [⟨0, 0, 0⟩, ⟨0, 0, 0⟩] = ⟨64, 0, 0, 32⟩ ∧
      cellSums realMath VectorData.XYMagnitude
        [.tetra ⟨0, 0, 0⟩ ⟨4, 0, 0⟩ ⟨0, 4, 0⟩ ⟨0, 0, 12⟩] [2] [⟨0, 0, 0⟩] = ⟨64, 0, 0, 32⟩ ∧
      (SaveData realMath (newPipeline ClipType.AccurateClip DataSet.Mesh)
        ⟨some [.tetra ⟨0, 0, 0⟩ ⟨4, 0, 0⟩ ⟨0, 4, 0⟩ ⟨0, 0, 12⟩, .other 3], some [2, 2, 2, 2, 7, 7],
          some [2, 7], some [⟨0, 0, 0⟩, ⟨0, 0, 0⟩]⟩
        (fun _ => ⟨5, 6, 8⟩)).map (fun f => f.records) =
        some [⟨2, 32, 1, 1, 3⟩, ⟨7, 0, 5, 6, 8⟩] := by
  have hvol : |ComputeVolume (⟨0, 0, 0⟩ : Vec3 ℝ) ⟨4, 0, 0⟩ ⟨0, 4, 0⟩ ⟨0, 0, 12⟩| = 32 := by
    norm_num [ComputeVolume, Determinant3x3]
  have hc : TetraCenter (⟨0, 0, 0⟩ : Vec3 ℝ) ⟨4, 0, 0⟩ ⟨0, 4, 0⟩ ⟨0, 0, 12⟩ = ⟨1, 1, 3⟩ := by
    norm_num [TetraCenter]
  have s0 : streamDouble (0 : ℝ) = 0 := by simp [streamDouble]
  have s1 : streamDouble (1 : ℝ) = 1 := by
    simpa using streamDouble_intCast (K := ℝ) 1 (by norm_num)
  have s2 : streamDouble (2 : ℝ) = 2 := by
    simpa using streamDouble_intCast (K := ℝ) 2 (by norm_num)
  have s3 : streamDouble (3 : ℝ) = 3 := by
    simpa using streamDouble_intCast (K := ℝ) 3 (by norm_num)
  have s5 : streamDouble (5 : ℝ) = 5 := by
    simpa using streamDouble_intCast (K := ℝ) 5 (by norm_num)
  have s6 : streamDouble (6 : ℝ) = 6 := by
    simpa using streamDouble_intCast (K := ℝ) 6 (by norm_num)
  have s7 : streamDouble (7 : ℝ) = 7 := by
    simpa using streamDouble_intCast (K := ℝ) 7 (by norm_num)
  have s8 : streamDouble (8 : ℝ) = 8 := by
    simpa using streamDouble_intCast (K := ℝ) 8 (by norm_num)
  have s32 : streamDouble (32 : ℝ) = 32 := by
    simpa using streamDouble_intCast (K := ℝ) 32 (by norm_num)
  refine ⟨?_, ?_, ?_⟩
  · simp [cellSums, cellStep, List.range_succ, cellSize, hvol]
    norm_num
  · simp [cellSums, cellStep, List.range_succ, cellSize, hvol]
    norm_num
  · simp [SaveData, saveDataRecord, List.range_succ, cellSize, cellCenter, hvol, hc, s0, s1, s2,
      s3, s5, s6, s7, s8, s32]

/-- C20: when `SaveData` writes a file (the result and its cell scalars exist,
one scalar per cell), the header is "Value, Area, X, Y, Z" exactly when the
current result is an area (data set `RoofOffset`, or clip type `CutX`, `CutY`
or `CutZ`) and "Value, Volume, X, Y, Z" otherwise, and it is followed by
exactly one record of five fields per cell, in cell order: the scalar value of
the cell, the cell size (the area of a triangle, the absolute volume of a
tetrahedron) and the three coordinates of the center of the cell (the mean of
its three or four points), each as the stream writes it. -/
theorem SaveData_file {K : Type} [LinearOrderedField K] [FloorRing K] (m : MathLib K)
    (p : Pipeline K) (data : List (vtkCell K)) (pd : Option (List K)) (cd : List K)
    (cv : Option (List (Vec3 K))) (uninit : Nat → Vec3 K)
    (hlen : cd.length = data.length) :
    ∃ f : SaveDataFile K,
      SaveData m p ⟨some data, pd, some cd, cv⟩ uninit = some f ∧
        (f.header = "Value, Area, X, Y, Z" ↔
          (p.dataSet = DataSet.RoofOffset ∨ p.clipType = ClipType.CutX ∨
            p.clipType = ClipType.CutY ∨ p.clipType = ClipType.CutZ)) ∧
        (f.header = "Value, Volume, X, Y, Z" ↔
          ¬ (p.dataSet = DataSet.RoofOffset ∨ p.clipType = ClipType.CutX ∨
            p.clipType = ClipType.CutY ∨ p.clipType = ClipType.CutZ)) ∧
        f.records.length = data.length ∧
        ∀ (i : Nat) (v : K), cd[i]? = some v →
          (∀ p0 p1 p2 : Vec3 K, data[i]? = some (.triangle p0 p1 p2) →
            f.records[i]? = some
              ⟨streamDouble v, streamDouble (TriangleArea m p0 p1 p2),
               streamDouble ((p0.x + p1.x + p2.x) / 3),
               streamDouble ((p0.y + p1.y + p2.y) / 3),
               streamDouble ((p0.z + p1.z + p2.z) / 3)⟩) ∧
          (∀ p0 p1 p2 p3 : Vec3 K, data[i]? = some (.tetra p0 p1 p2 p3) →
            f.records[i]? = some
              ⟨streamDouble v, streamDouble |ComputeVolume p0 p1 p2 p3|,
               streamDouble ((p0.x + p1.x + p2.x + p3.x) / 4),
               streamDouble ((p0.y + p1.y + p2.y + p3.y) / 4),
               streamDouble ((p0.z + p1.z + p2.z + p3.z) / 4)⟩) := by
  refine ⟨_, rfl, ?_, ?_, ?_, ?_⟩
  · simp only [areaOrVolume]
    split_ifs with h
    · exact ⟨fun _ => h, fun _ => by decide⟩
    · exact ⟨fun hh => absurd hh (by decide), fun hh => absurd hh h⟩
  · simp only [areaOrVolume]
    split_ifs with h
    · exact ⟨fun hh => absurd hh (by decide), fun hh => absurd h hh⟩
    · exact ⟨fun _ => h, fun _ => by decide⟩
  · simp [hlen]
  · intro i v hv
    have hi2 : i < cd.length := by
      by_contra hcon
      rw [List.getElem?_eq_none (not_lt.1 hcon)] at hv
      exact absurd hv (by simp)
    constructor
    · intro p0 p1 p2 hd
      simp [List.getElem?_range hi2, saveDataRecord, List.getD_eq_getElem?_getD, hv, hd,
        cellSize, cellCenter, TriangleCenter]
    · intro p0 p1 p2 p3 hd
      simp [List.getElem?_range hi2, saveDataRecord, List.getD_eq_getElem?_getD, hv, hd,
        cellSize, cellCenter, TetraCenter]

/-- Witness of C20: for one tetrahedron of volume 32 with the center (1, 1, 3) and the
scalar 2, with clip type `AccurateClip` on the mesh, the header names a volume and the
single record is 2, 32, 1, 1, 3. -/
theorem SaveData_file_witness :
    ∃ f : SaveDataFile ℝ,
      SaveData realMath (newPipeline ClipType.AccurateClip DataSet.Mesh)
          ⟨some [.tetra ⟨0, 0, 0⟩ ⟨4, 0, 0⟩ ⟨0, 4, 0⟩ ⟨0, 0, 12⟩], none, some [2], none⟩
          (fun _ => ⟨5, 6, 8⟩) = some f ∧
        f.header = "Value, Volume, X, Y, Z" ∧ f.records.length = 1 ∧
        f.records[0]? = some ⟨2, 32, 1, 1, 3⟩ := by
  obtain ⟨f, h1, _, h3, h4, h5⟩ := SaveData_file realMath
    (newPipeline ClipType.AccurateClip DataSet.Mesh)
    [.tetra ⟨0, 0, 0⟩ ⟨4, 0, 0⟩ ⟨0, 4, 0⟩ ⟨0, 0, 12⟩] none [2] none (fun _ => ⟨5, 6, 8⟩) rfl
  have hv : |ComputeVolume (⟨0, 0, 0⟩ : Vec3 ℝ) ⟨4, 0, 0⟩ ⟨0, 4, 0⟩ ⟨0, 0, 12⟩| = 32 := by
    norm_num [ComputeVolume, Determinant3x3]
  have s1 : streamDouble (1 : ℝ) = 1 := by
    simpa using streamDouble_intCast (K := ℝ) 1 (by norm_num)
  have s2 : streamDouble (2 : ℝ) = 2 := by
    simpa using streamDouble_intCast (K := ℝ) 2 (by norm_num)
  have s3 : streamDouble (3 : ℝ) = 3 := by
    simpa using streamDouble_intCast (K := ℝ) 3 (by norm_num)
  have s32 : streamDouble (32 : ℝ) = 32 := by
    simpa using streamDouble_intCast (K := ℝ) 32 (by norm_num)
  have hr := (h5 0 2 rfl).2 ⟨0, 0, 0⟩ ⟨4, 0, 0⟩ ⟨0, 4, 0⟩ ⟨0, 0, 12⟩ rfl
  rw [hv] at hr
  norm_num [s1, s2, s3, s32] at hr
  exact ⟨f, h1, h3.2 (by simp [newPipeline]; decide), h4, hr⟩

/-! ### C21: the black-body ramp -/

/-- C21 (as amended): for every `min`, `max` with `max - min ≥ 0.005` (five
times the step 0.001), the ten control points of `CreateBlackBody` are at
`min`, `b1`, `b1 + 0.001`, `b2`, `b2 + 0.001`, `b3`, `b3 + 0.001`, `b4`,
`b4 + 0.001`, `max` with `bk = min + (max - min) * k / 5`: the first is at
`min`, the last at `max`, every one lies in `[min, max]`, each band's start
lies strictly after the previous band's end and not after its own band's end,
and the positions do not decrease in the order they are added; they increase
strictly when `max - min > 0.005`. -/
theorem CreateBlackBody_positions {K : Type} [LinearOrderedField K] (p : Pipeline K)
    (min max : K) (hd : 1 / 200 ≤ max - min) :
    (CreateBlackBody p min max).dataColor.map (fun pt => pt.x) =
        [min, min + (max - min) * 1 / 5, min + (max - min) * 1 / 5 + 1 / 1000,
         min + (max - min) * 2 / 5, min + (max - min) * 2 / 5 + 1 / 1000,
         min + (max - min) * 3 / 5, min + (max - min) * 3 / 5 + 1 / 1000,
         min + (max - min) * 4 / 5, min + (max - min) * 4 / 5 + 1 / 1000, max] ∧
      (∀ pt ∈ (CreateBlackBody p min max).dataColor, min ≤ pt.x ∧ pt.x ≤ max) ∧
      (min + (max - min) * 1 / 5 < min + (max - min) * 1 / 5 + 1 / 1000 ∧
        min + (max - min) * 1 / 5 + 1 / 1000 ≤ min + (max - min) * 2 / 5) ∧
      (min + (max - min) * 2 / 5 < min + (max - min) * 2 / 5 + 1 / 1000 ∧
        min + (max - min) * 2 / 5 + 1 / 1000 ≤ min + (max - min) * 3 / 5) ∧
      (min + (max - min) * 3 / 5 < min + (max - min) * 3 / 5 + 1 / 1000 ∧
        min + (max - min) * 3 / 5 + 1 / 1000 ≤ min + (max - min) * 4 / 5) ∧
      (min + (max - min) * 4 / 5 < min + (max - min) * 4 / 5 + 1 / 1000 ∧
        min + (max - min) * 4 / 5 + 1 / 1000 ≤ max) ∧
      ((CreateBlackBody p min max).dataColor.map (fun pt => pt.x)).Pairwise (· ≤ ·) ∧
      (1 / 200 < max - min →
        ((CreateBlackBody p min max).dataColor.map (fun pt => pt.x)).Pairwise (· < ·)) := by
  have hmap : (CreateBlackBody p min max).dataColor.map (fun pt => pt.x) =
      [min, min + (max - min) * 1 / 5, min + (max - min) * 1 / 5 + 1 / 1000,
       min + (max - min) * 2 / 5, min + (max - min) * 2 / 5 + 1 / 1000,
       min + (max - min) * 3 / 5, min + (max - min) * 3 / 5 + 1 / 1000,
       min + (max - min) * 4 / 5, min + (max - min) * 4 / 5 + 1 / 1000, max] := by
    simp only [CreateBlackBody, List.map_cons, List.map_nil]
  refine ⟨hmap, ?_, ⟨by linarith, by linarith⟩, ⟨by linarith, by linarith⟩,
    ⟨by linarith, by linarith⟩, ⟨by linarith, by linarith⟩, ?_, ?_⟩
  · intro pt hpt
    simp only [CreateBlackBody, List.mem_cons, List.mem_singleton, List.not_mem_nil,
      or_false] at hpt
    rcases hpt with h | h | h | h | h | h | h | h | h | h <;> rw [h] <;> simp only [] <;>
      constructor <;> linarith
  · rw [hmap]
    apply List.chain'_iff_pairwise.1
    simp only [List.chain'_cons, List.chain'_singleton, and_true]
    refine ⟨?_, ?_, ?_, ?_, ?_, ?_, ?_, ?_, ?_⟩ <;> linarith
  · intro hlt
    rw [hmap]
    apply List.chain'_iff_pairwise.1
    simp only [List.chain'_cons, List.chain'_singleton, and_true]
    refine ⟨?_, ?_, ?_, ?_, ?_, ?_, ?_, ?_, ?_⟩ <;> linarith

/-- Witness of C21 (as amended): on the range [0, 1] the positions increase strictly. -/
theorem CreateBlackBody_positions_witness :
    ((CreateBlackBody (newPipeline ClipType.CutZ DataSet.Mesh : Pipeline ℚ) 0 1).dataColor.map
      (fun pt => pt.x)).Pairwise (· < ·) :=
  (CreateBlackBody_positions (newPipeline ClipType.CutZ DataSet.Mesh : Pipeline ℚ) 0 1
    (by norm_num)).2.2.2.2.2.2.2 (by norm_num)

/-- C21 as stated fails: for `min = 0 < max = 0.001` the ninth control point,
the start of the last band, is at 0.0018, outside `[min, max]` and after the
last control point. -/
theorem CreateBlackBody_point_outside_range :
    (0 : ℚ) < 1 / 1000 ∧
      ((⟨9 / 5000, 1 / 4, 1 / 4, 1 / 4⟩ : RGBPoint ℚ) ∈
        (CreateBlackBody (newPipeline ClipType.CutZ DataSet.Mesh : Pipeline ℚ) 0
          (1 / 1000)).dataColor) ∧
      ¬ ((9 : ℚ) / 5000 ≤ 1 / 1000) := by
  refine ⟨by norm_num, ?_, by norm_num⟩
  simp only [CreateBlackBody, List.mem_cons, List.mem_singleton, RGBPoint.mk.injEq]
  norm_num

/-! ### C22: the double-ended ramp -/

/-- C22: for every `min < 0 < max` in `ZComponent` mode, `SetColorMapRange`
builds the double-ended ramp: seven control points at `min`, `0.75 min`,
`0.1 min`, `0`, `0.1 max`, `0.75 max`, `max`, in strictly increasing order,
and the control point at 0 has the dark-gray colour (0.1, 0.1, 0.1). -/
theorem SetColorMapRange_double_ended {K : Type} [LinearOrderedField K] (p : Pipeline K)
    (min max : K) (hmode : p.vectorData = VectorData.ZComponent) (hmin : min < 0)
    (hmax : 0 < max) :
    (SetColorMapRange p min max).dataColor.map (fun pt => pt.x) =
        [min, min * (3 / 4), min * (1 / 10), 0, max * (1 / 10), max * (3 / 4), max] ∧
      ((SetColorMapRange p min max).dataColor.map (fun pt => pt.x)).Pairwise (· < ·) ∧
      (⟨0, 1 / 10, 1 / 10, 1 / 10⟩ : RGBPoint K) ∈ (SetColorMapRange p min max).dataColor ∧
      ∀ pt ∈ (SetColorMapRange p min max).dataColor, pt.x = 0 →
        pt.r = 1 / 10 ∧ pt.g = 1 / 10 ∧ pt.b = 1 / 10 := by
  have hc : (SetColorMapRange p min max).dataColor = (CreateDoubleEnded p min max).dataColor := by
    simp only [SetColorMapRange, hmode, gt_iff_lt, if_pos (And.intro hmin hmax)]
  have hmap : (SetColorMapRange p min max).dataColor.map (fun pt => pt.x) =
      [min, min * (3 / 4), min * (1 / 10), 0, max * (1 / 10), max * (3 / 4), max] := by
    rw [hc]
    simp only [CreateDoubleEnded, List.map_cons, List.map_nil]
  refine ⟨hmap, ?_, ?_, ?_⟩
  · rw [hmap]
    apply List.chain'_iff_pairwise.1
    simp only [List.chain'_cons, List.chain'_singleton, and_true]
    refine ⟨?_, ?_, ?_, ?_, ?_, ?_⟩ <;> linarith
  · rw [hc]
    simp [CreateDoubleEnded]
  · intro pt hpt hx
    rw [hc] at hpt
    simp only [CreateDoubleEnded, List.mem_cons, List.mem_singleton, List.not_mem_nil,
      or_false] at hpt
    rcases hpt with h | h | h | h | h | h | h <;> rw [h] at hx ⊢ <;> simp only [] at hx ⊢
    · exact absurd hx hmin.ne
    · exact absurd hx (by linarith : min * (3 / 4) ≠ 0)
    · exact absurd hx (by linarith : min * (1 / 10) ≠ 0)
    · exact ⟨trivial, trivial, trivial⟩
    · exact absurd hx (by linarith : max * (1 / 10) ≠ 0)
    · exact absurd hx (by linarith : max * (3 / 4) ≠ 0)
    · exact absurd hx hmax.ne'

/-- Witness of C22: the range [-2, 4]. -/
theorem SetColorMapRange_double_ended_witness :
    (SetColorMapRange
        { (newPipeline ClipType.CutZ DataSet.Mesh : Pipeline ℚ) with vectorData := .ZComponent }
        (-2) 4).dataColor.map (fun pt => pt.x) =
      [-2, -2 * (3 / 4), -2 * (1 / 10), 0, 4 * (1 / 10), 4 * (3 / 4), 4] :=
  (SetColorMapRange_double_ended
    { (newPipeline ClipType.CutZ DataSet.Mesh : Pipeline ℚ) with vectorData := .ZComponent }
    (-2) 4 rfl (by norm_num) (by norm_num)).1

/-! ### C23: the one-time camera reset -/

/-- Method `SetDataSet` leaves the file names of the three readers as they are. -/
theorem SetDataSet_fileNames {K : Type} [LinearOrderedField K] [FloorRing K] (m : MathLib K)
    (p : Pipeline K) (which : DataSet) (dataRange : Fin 2 → K) (bounds : Fin 6 → K)
    (out : PipelineOutput K) :
    (SetDataSet m p which dataRange bounds out).roofOffsetFileName = p.roofOffsetFileName ∧
      (SetDataSet m p which dataRange bounds out).meshFileName = p.meshFileName ∧
      (SetDataSet m p which dataRange bounds out).buildingFileName = p.buildingFileName := by
  unfold SetDataSet
  simp only
  rw [UpdateClipping_frame, ResetClippingBox_frame, ResetColorMapRange, SetColorMapRange_frame]
  cases which <;> simp only [] <;> rw [SetClipType_frame] <;> exact ⟨rfl, rfl, rfl⟩

/-- After a file-opening call a geometry source has a file name. -/
theorem applyOpenCall_needReset {K : Type} [LinearOrderedField K] [FloorRing K]
    (m : MathLib K) (p : Pipeline K) (call : OpenCall K) :
    needReset (applyOpenCall m p call).1 = false := by
  cases call with
  | roofOffset fileName dataRange bounds out =>
    simp only [applyOpenCall, OpenRoofOffsetFile, needReset, HasRoofOffset,
      (SetDataSet_fileNames m _ _ _ _ _).1]
    simp
  | mesh fileName dataRange bounds out =>
    simp only [applyOpenCall, OpenMeshFile, needReset, HasMesh,
      (SetDataSet_fileNames m _ _ _ _ _).2.1]
    simp
  | building fileName =>
    simp [applyOpenCall, OpenBuildingFile, needReset, HasBuilding]

/-- A file-opening call resets the camera exactly when no geometry source had a file name
before it, and it leaves a state in which a source has one. -/
theorem applyOpenCall_reset {K : Type} [LinearOrderedField K] [FloorRing K]
    (m : MathLib K) (p : Pipeline K) (call : OpenCall K) :
    (applyOpenCall m p call).2 = needReset p := by
  cases call <;> rfl

/-- Once a geometry source has a file name, no later file-opening call resets the camera. -/
theorem cameraResets_of_not_needReset {K : Type} [LinearOrderedField K] [FloorRing K]
    (m : MathLib K) (calls : List (OpenCall K)) (p : Pipeline K) (h : needReset p = false) :
    cameraResets m p calls = List.replicate calls.length false := by
  induction calls generalizing p with
  | nil => rfl
  | cons c cs ih =>
    rw [cameraResets, applyOpenCall_reset, h, ih _ (applyOpenCall_needReset m p c)]
    rfl

/-- C23: in every sequence of `OpenRoofOffsetFile`, `OpenMeshFile` and
`OpenBuildingFile` calls (with non-null file names) on a freshly constructed
pipeline, the camera is reset on the first call and on no later call; each
call resets the camera exactly when no geometry source had a file name before
the call. -/
theorem cameraResets_fresh_pipeline {K : Type} [LinearOrderedField K] [FloorRing K]
    (m : MathLib K) (c : ClipType) (d : DataSet) (first : OpenCall K)
    (later : List (OpenCall K)) :
    cameraResets m (newPipeline c d) (first :: later) =
        true :: List.replicate later.length false ∧
      ∀ (p : Pipeline K) (call : OpenCall K),
        ((applyOpenCall m p call).2 = true ↔
          (HasRoofOffset p = false ∧ HasMesh p = false ∧ HasBuilding p = false)) := by
  constructor
  · rw [cameraResets, applyOpenCall_reset,
      cameraResets_of_not_needReset m later _ (applyOpenCall_needReset m _ first)]
    rfl
  · intro p call
    rw [applyOpenCall_reset, needReset]
    cases HasRoofOffset p <;> cases HasMesh p <;> cases HasBuilding p <;> simp

/-! ### C24: re-linking before recomputation -/

/-- Executing the steps of `UpdateClipping` gives the state `UpdateClipping` returns. -/
theorem runSteps_UpdateClipping {K : Type} [LinearOrderedField K] [FloorRing K]
    (m : MathLib K) (a : StepArgs K) (p : Pipeline K) :
    runSteps m a p (UpdateClippingSteps p.clipType) = UpdateClipping m p a.out := by
  unfold UpdateClipping UpdateClippingSteps runSteps relinkClipping
  simp only []
  split_ifs with h1 h2 h3 h4 h5 h6 h7 <;>
    first
    | (exfalso; tauto)
    | simp +decide [Step.run, *]

/-- The same for a clip type given apart from the state. -/
theorem runSteps_UpdateClipping_of_clipType {K : Type} [LinearOrderedField K] [FloorRing K]
    (m : MathLib K) (a : StepArgs K) (q : Pipeline K) (t : ClipType) (h : q.clipType = t) :
    List.foldl (Step.run m a) q (UpdateClippingSteps t) = UpdateClipping m q a.out := by
  rw [← h]
  exact runSteps_UpdateClipping m a q

/-- Executing the steps of `SetVectorData` gives the state `SetVectorData` returns. -/
theorem runSteps_SetVectorData {K : Type} [LinearOrderedField K] [FloorRing K]
    (m : MathLib K) (a : StepArgs K) (p : Pipeline K) :
    runSteps m a p (SetVectorDataSteps a.vectorData) =
      SetVectorData m p a.vectorData a.dataRange a.out := by
  obtain ⟨d, v, r, b, out⟩ := a
  unfold SetVectorData SetVectorDataSteps runSteps
  cases v <;> simp +decide [Step.run]

/-- Executing the steps of `SetDataSet` gives the state `SetDataSet` returns. -/
theorem runSteps_SetDataSet {K : Type} [LinearOrderedField K] [FloorRing K]
    (m : MathLib K) (a : StepArgs K) (p : Pipeline K) :
    runSteps m a p (SetDataSetSteps a.dataSet) =
      SetDataSet m p a.dataSet a.dataRange a.bounds a.out := by
  obtain ⟨d, v, r, b, out⟩ := a
  unfold SetDataSet SetDataSetSteps
  cases d
  · simp only [runSteps, List.foldl_append]
    rw [runSteps_UpdateClipping_of_clipType m _ _ _ (by
      simp +decide only [List.foldl, Step.run, if_true, if_false]
      rw [ResetClippingBox_frame, ResetColorMapRange, SetColorMapRange_frame]
      exact SetClipType_clipType _ _)]
    simp +decide [Step.run]
  · simp only [runSteps, List.foldl_append]
    rw [runSteps_UpdateClipping_of_clipType m _ _ _ (by
      simp +decide only [List.foldl, Step.run, if_true, if_false]
      rw [ResetClippingBox_frame, ResetColorMapRange, SetColorMapRange_frame]
      exact SetClipType_clipType _ _)]
    simp +decide [Step.run]

/-- C24 (as amended): the steps of `UpdateClipping`, `SetVectorData` and `SetDataSet`,
executed in their order, give the state the action returns.  Within `SetVectorData`
and within `UpdateClipping`, every re-linking step happens before any recomputation
(colour-map rebuild, `ComputeStatistics`); within `SetDataSet`, every re-linking step
happens before `ComputeStatistics` and the re-linking of `dataAttribute` and of
`dataMapper` happens before the colour-map rebuild, while the clip stages
(`clipDataPlanesFirst`, `dataTriangle`) are re-linked, by the `UpdateClipping` call
that ends the action, after the colour-map rebuild. -/
theorem steps_relink_before_recompute {K : Type} [LinearOrderedField K] [FloorRing K]
    (m : MathLib K) (a : StepArgs K) (p : Pipeline K) :
    (runSteps m a p (UpdateClippingSteps p.clipType) = UpdateClipping m p a.out ∧
      runSteps m a p (SetVectorDataSteps a.vectorData) =
        SetVectorData m p a.vectorData a.dataRange a.out ∧
      runSteps m a p (SetDataSetSteps a.dataSet) =
        SetDataSet m p a.dataSet a.dataRange a.bounds a.out) ∧
      relinksFirst (UpdateClippingSteps p.clipType) ∧
      relinksFirst (SetVectorDataSteps a.vectorData) ∧
      (SetDataSetSteps a.dataSet).Pairwise
        (fun s t => ¬ (s = Step.computeStatistics ∧ t.isRelink = true)) ∧
      ∃ (reader input head : Port) (before after : List Step),
        SetDataSetSteps a.dataSet = before ++ Step.rebuildColorMap :: after ∧
          Step.setInputConnection "dataAttribute" reader ∈ before ∧
          Step.setInputConnection "dataMapper" input ∈ before ∧
          (∀ s ∈ before, s.isRecompute = false) ∧
          Step.setInputConnection "clipDataPlanesFirst" head ∈ after ∧
          Step.setInputConnection "dataTriangle" Port.clipDataPlanesLast ∈ after := by
  refine ⟨⟨runSteps_UpdateClipping m a p, runSteps_SetVectorData m a p,
    runSteps_SetDataSet m a p⟩, ?_, ?_, ?_, ?_⟩
  · unfold relinksFirst UpdateClippingSteps
    split_ifs <;> decide
  · unfold relinksFirst
    cases a.vectorData <;> decide
  · cases a.dataSet <;> decide
  · cases a.dataSet
    · exact ⟨.roofOffsetReader, .roofOffsetExtrusion, .dataAttribute,
        [.other "dataSet = which", .other "SetClipType(AccurateClip)",
         .setInputConnection "dataAttribute" .roofOffsetReader,
         .other "dataMapper->ImmediateModeRenderingOff",
         .setInputConnection "dataMapper" .roofOffsetExtrusion,
         .other "volumeLabel->VisibilityOff", .other "fileNameLabel->SetInput",
         .other "dataAttribute->Update"], _, rfl, by decide, by decide, by decide,
        by decide, by decide⟩
    · exact ⟨.meshReader, .dataSurface, .cutData,
        [.other "dataSet = which", .other "SetClipType(CutZ)",
         .setInputConnection "dataAttribute" .meshReader,
         .other "dataMapper->ImmediateModeRenderingOn",
         .setInputConnection "dataMapper" .dataSurface,
         .other "volumeLabel->VisibilityOn", .other "fileNameLabel->SetInput",
         .other "dataAttribute->Update"], _, rfl, by decide, by decide, by decide,
        by decide, by decide⟩

/-- C24 as stated fails: in `SetDataSet(Mesh)` the colour-map rebuild comes before the
re-linking of `clipDataPlanesFirst` and `dataTriangle` done by `UpdateClipping`. -/
theorem SetDataSet_relinks_after_color_map : ¬ relinksFirst (SetDataSetSteps DataSet.Mesh) := by
  unfold relinksFirst
  decide

/-! ### C25: the range of the mean angle -/

/-- The stages upstream of the triangulation once the cutter feeds the head of
the plane-clip chain and the end of the chain feeds the triangulation. -/
theorem upstreamOf_cut_chain {K : Type} (q : Pipeline K)
    (h1 : q.clipDataPlanesFirstInput = some Port.cutData)
    (h2 : q.dataTriangleInput = Port.clipDataPlanesLast) :
    upstreamOf q 7 Port.dataTriangle =
      [Port.clipDataPlanesLast, Port.dataClip5, Port.dataClip4, Port.dataClip3,
        Port.dataClip2, Port.clipDataPlanesFirst, Port.cutData] := by
  simp only [upstreamOf, inputOf, h1, h2]

/-- What the re-linking sets for the three cut types. -/
theorem relinkClipping_cut {K : Type} [LinearOrderedField K] (p : Pipeline K)
    (ht : p.clipType = ClipType.CutX ∨ p.clipType = ClipType.CutY ∨
      p.clipType = ClipType.CutZ) :
    (relinkClipping p).cutPlaneNormal =
        ⟨if p.clipType = ClipType.CutX then 1 else 0,
         if p.clipType = ClipType.CutY then 1 else 0,
         if p.clipType = ClipType.CutZ then 1 else 0⟩ ∧
      (relinkClipping p).clipDataPlanesFirstInput = some Port.cutData ∧
      (relinkClipping p).dataTriangleInput = Port.clipDataPlanesLast := by
  rcases ht with h | h | h <;>
    simp +decide [relinkClipping, h]

/-- C26 (as amended): for each of CutX, CutY and CutZ, after `UpdateClipping` the cut
plane's normal is the unit vector of that axis, the cutter's output feeds the head of the
plane-clip chain, and the data reaching the triangulation stage has passed through the
cut followed by the six plane clips of the accurate-clip chain (planes 1 to 6, the
chain that `AccurateClip` uses). -/
theorem UpdateClipping_cut_chain {K : Type} [LinearOrderedField K] (m : MathLib K)
    (p : Pipeline K) (out : PipelineOutput K)
    (ht : p.clipType = ClipType.CutX ∨ p.clipType = ClipType.CutY ∨
      p.clipType = ClipType.CutZ) :
    (UpdateClipping m p out).cutPlaneNormal =
        ⟨if p.clipType = ClipType.CutX then 1 else 0,
         if p.clipType = ClipType.CutY then 1 else 0,
         if p.clipType = ClipType.CutZ then 1 else 0⟩ ∧
      inputOf (UpdateClipping m p out) Port.clipDataPlanesFirst = some Port.cutData ∧
      inputOf (UpdateClipping m p out) Port.cutData = some Port.dataAttribute ∧
      upstreamOf (UpdateClipping m p out) 7 Port.dataTriangle =
        [Port.clipDataPlanesLast, Port.dataClip5, Port.dataClip4, Port.dataClip3,
          Port.dataClip2, Port.clipDataPlanesFirst, Port.cutData] ∧
      (upstreamOf (UpdateClipping m p out) 7 Port.dataTriangle).filterMap clipPlaneOf =
        [6, 5, 4, 3, 2, 1] := by
  obtain ⟨hn, h1, h2⟩ := relinkClipping_cut p ht
  have e1 : (UpdateClipping m p out).clipDataPlanesFirstInput = some Port.cutData := by
    rw [UpdateClipping_frame]
    exact h1
  have e2 : (UpdateClipping m p out).dataTriangleInput = Port.clipDataPlanesLast := by
    rw [UpdateClipping_frame]
    exact h2
  have e3 : (UpdateClipping m p out).cutPlaneNormal = (relinkClipping p).cutPlaneNormal := by
    rw [UpdateClipping_frame]
  have hup := upstreamOf_cut_chain (UpdateClipping m p out) e1 e2
  refine ⟨e3.trans hn, e1, rfl, hup, ?_⟩
  rw [hup]
  rfl

/-- Witness of C26 (as amended): `UpdateClipping` on a new pipeline of clip type `CutX`. -/
theorem UpdateClipping_cut_chain_witness :
    (UpdateClipping realMath (newPipeline ClipType.CutX DataSet.Mesh)
        ⟨none, none, none, none⟩).cutPlaneNormal = ⟨1, 0, 0⟩ ∧
      (upstreamOf (UpdateClipping realMath (newPipeline ClipType.CutX DataSet.Mesh)
        ⟨none, none, none, none⟩) 7 Port.dataTriangle).filterMap clipPlaneOf =
        [6, 5, 4, 3, 2, 1] := by
  have h := UpdateClipping_cut_chain realMath (newPipeline ClipType.CutX DataSet.Mesh)
    ⟨none, none, none, none⟩ (Or.inl rfl)
  refine ⟨?_, h.2.2.2.2⟩
  rw [h.1]
  have hc : (newPipeline ClipType.CutX DataSet.Mesh : Pipeline ℝ).clipType = ClipType.CutX :=
    rfl
  rw [hc]
  simp +decide

/-- C26 as stated fails: in `CutX` mode the data reaching the triangulation stage has
passed through six plane clips, not five. -/
theorem UpdateClipping_cut_six_plane_clips :
    ((upstreamOf (UpdateClipping realMath (newPipeline ClipType.CutX DataSet.Mesh)
        ⟨none, none, none, none⟩) 7 Port.dataTriangle).filterMap clipPlaneOf).length = 6 ∧
      ((upstreamOf (UpdateClipping realMath (newPipeline ClipType.CutX DataSet.Mesh)
        ⟨none, none, none, none⟩) 7 Port.dataTriangle).filterMap clipPlaneOf).length ≠ 5 := by
  have hup := upstreamOf_cut_chain
    (UpdateClipping realMath (newPipeline ClipType.CutX DataSet.Mesh) ⟨none, none, none, none⟩)
    rfl rfl
  rw [hup]
  exact ⟨rfl, by decide⟩

/-! ### C27: the mean lies between the smallest and the largest cell value -/

/-- A sum weighted by non-negative weights lies between the bounds of its values. -/
theorem weighted_sum_bounds {K : Type} [LinearOrderedField K] (is : List Nat) (f g : Nat → K)
    (a b : K) (hg : ∀ i ∈ is, 0 ≤ g i) (hf : ∀ i ∈ is, a ≤ f i ∧ f i ≤ b) :
    a * (is.map g).sum ≤ (is.map (fun i => f i * g i)).sum ∧
      (is.map (fun i => f i * g i)).sum ≤ b * (is.map g).sum := by
  induction is with
  | nil => simp
  | cons i is ih =>
    have h := ih (fun j hj => hg j (List.mem_cons_of_mem _ hj))
      (fun j hj => hf j (List.mem_cons_of_mem _ hj))
    have hgi := hg i (List.mem_cons_self _ _)
    have hfi := hf i (List.mem_cons_self _ _)
    simp only [List.map_cons, List.sum_cons]
    constructor
    · nlinarith [mul_le_mul_of_nonneg_right hfi.1 hgi, h.1]
    · nlinarith [mul_le_mul_of_nonneg_right hfi.2 hgi, h.2]

/-- C27 (as amended): with the arithmetic taken as exact (real numbers), in a
non-angular mode, for every cell list (one scalar per cell) with non-negative cell
sizes and positive total size (so the list is not empty), the mean reported by
`ComputeStatistics` lies between the smallest and the largest per-cell scalar value. -/
theorem ComputeStatistics_mean_between {K : Type} [LinearOrderedField K] (m : MathLib K)
    (p : Pipeline K) (data : List (vtkCell K)) (pd cd : List K) (cv : List (Vec3 K))
    (hmode : p.vectorData ≠ VectorData.XYAngle)
    (hlen : cd.length = data.length)
    (hnn : ∀ c ∈ data, 0 ≤ cellSize m c)
    (hpos : 0 < (data.map (cellSize m)).sum) :
    data ≠ [] ∧
    ∃ mean : K,
      (ComputeStatistics m p ⟨some data, some pd, some cd, some cv⟩).statisticsLabel.map
          (fun t => t.mean) = some mean ∧
        ∃ lo ∈ cd, ∃ hi ∈ cd, (∀ v ∈ cd, lo ≤ v ∧ v ≤ hi) ∧ lo ≤ mean ∧ mean ≤ hi := by
  have hne : data ≠ [] := by
    rintro rfl
    simp at hpos
  have hcd : cd ≠ [] := by
    rintro rfl
    exact hne (List.length_eq_zero.1 hlen.symm)
  obtain ⟨hlo, hhi, hall⟩ := pointMinMax_spec cd hcd
  have hsize := cellSums_size m p.vectorData data cd cv hlen
  have hsum : (cellSums m p.vectorData data cd cv).sum =
      ((List.range cd.length).map
        (fun i => cd.getD i 0 * cellSize m (data.getD i (.other 0)))).sum := by
    rw [cellSums, foldl_cellStep_sum m _ hmode]
    simp
  have hsize2 : (cellSums m p.vectorData data cd cv).size =
      ((List.range cd.length).map (fun i => cellSize m (data.getD i (.other 0)))).sum := by
    rw [cellSums, foldl_cellStep_size]
    simp
  have hb := weighted_sum_bounds (List.range cd.length) (fun i => cd.getD i 0)
    (fun i => cellSize m (data.getD i (.other 0))) (pointMinMax cd).1 (pointMinMax cd).2
    (fun i hi => by
      have hi2 : i < data.length := by
        rw [← hlen]
        exact List.mem_range.1 hi
      simp only [List.getD_eq_getElem?_getD, List.getElem?_eq_getElem hi2, Option.getD_some]
      exact hnn _ (List.getElem_mem hi2))
    (fun i hi => by
      have hi2 : i < cd.length := List.mem_range.1 hi
      simp only [List.getD_eq_getElem?_getD, List.getElem?_eq_getElem hi2, Option.getD_some]
      exact hall _ (List.getElem_mem hi2))
  rw [← hsum, ← hsize2] at hb
  have hp : 0 < (cellSums m p.vectorData data cd cv).size := by
    rw [hsize]
    exact hpos
  refine ⟨hne, (cellSums m p.vectorData data cd cv).sum / (cellSums m p.vectorData data cd cv).size,
    ?_, _, hlo, _, hhi, hall, ?_, ?_⟩
  · rw [(ComputeStatistics_labels _ _ _ _ _ _).1]
    simp only [Option.map_some', statisticsMean, if_neg hmode]
  · rw [le_div_iff₀ hp]
    exact hb.1
  · rw [div_le_iff₀ hp]
    exact hb.2

/-- Witness of C27: two cells of volume 1 and 2 with the scalars 3 and 6; the mean is 5. -/
theorem ComputeStatistics_mean_between_witness :
    ∃ mean : ℝ,
      (ComputeStatistics realMath (newPipeline ClipType.CutZ DataSet.Mesh)
          ⟨some [.tetra ⟨0, 0, 0⟩ ⟨1, 0, 0⟩ ⟨0, 1, 0⟩ ⟨0, 0, 6⟩,
                 .tetra ⟨0, 0, 0⟩ ⟨2, 0, 0⟩ ⟨0, 1, 0⟩ ⟨0, 0, 6⟩],
            some [3, 6], some [3, 6],
            some [⟨3, 0, 0⟩, ⟨6, 0, 0⟩]⟩).statisticsLabel.map (fun t => t.mean)
          = some mean ∧
        ∃ lo ∈ ([3, 6] : List ℝ), ∃ hi ∈ ([3, 6] : List ℝ),
          (∀ v ∈ ([3, 6] : List ℝ), lo ≤ v ∧ v ≤ hi) ∧ lo ≤ mean ∧ mean ≤ hi := by
  have hv1 : |ComputeVolume (⟨0, 0, 0⟩ : Vec3 ℝ) ⟨1, 0, 0⟩ ⟨0, 1, 0⟩ ⟨0, 0, 6⟩| = 1 := by
    norm_num [ComputeVolume, Determinant3x3]
  have hv2 : |ComputeVolume (⟨0, 0, 0⟩ : Vec3 ℝ) ⟨2, 0, 0⟩ ⟨0, 1, 0⟩ ⟨0, 0, 6⟩| = 2 := by
    norm_num [ComputeVolume, Determinant3x3]
  exact (ComputeStatistics_mean_between realMath (newPipeline ClipType.CutZ DataSet.Mesh)
    [.tetra ⟨0, 0, 0⟩ ⟨1, 0, 0⟩ ⟨0, 1, 0⟩ ⟨0, 0, 6⟩,
     .tetra ⟨0, 0, 0⟩ ⟨2, 0, 0⟩ ⟨0, 1, 0⟩ ⟨0, 0, 6⟩]
    [3, 6] [3, 6] [⟨3, 0, 0⟩, ⟨6, 0, 0⟩] (by decide) rfl
    (by
      intro c hc
      simp only [List.mem_cons, List.mem_singleton, List.not_mem_nil, or_false] at hc
      rcases hc with rfl | rfl
      · simp only [cellSize, hv1]
        norm_num
      · simp only [cellSize, hv2]
        norm_num)
    (by
      simp only [List.map_cons, List.map_nil, List.sum_cons, List.sum_nil, cellSize, hv1, hv2]
      norm_num)).2

/-- C27 as stated fails in the code's double arithmetic: for one tetrahedron of volume 3
whose scalar is the `double` 0.1 (3602879701896397 / 2 ^ 55), in `ZComponent` mode, the
cell size is positive and the mean `(0.1 * 3.0) / 3.0 = 0.10000000000000002` lies above
the largest (the only) per-cell scalar value. -/
theorem ComputeStatistics_mean_double_above_largest :
    0 < cellSize realMath (.tetra ⟨0, 0, 0⟩ ⟨3, 0, 0⟩ ⟨0, 1, 0⟩ ⟨0, 0, 6⟩) ∧
    ∀ v ∈ ([3602879701896397 / 36028797018963968] : List ℝ),
      v < scalarMeanDouble (cellSumsDouble realMath VectorData.ZComponent
        [.tetra ⟨0, 0, 0⟩ ⟨3, 0, 0⟩ ⟨0, 1, 0⟩ ⟨0, 0, 6⟩]
        [3602879701896397 / 36028797018963968] [⟨0, 0, 0⟩]) := by
  have hc : cellSize realMath (.tetra ⟨0, 0, 0⟩ ⟨3, 0, 0⟩ ⟨0, 1, 0⟩ ⟨0, 0, 6⟩) = 3 := by
    norm_num [cellSize, ComputeVolume, Determinant3x3]
  have h := scalarMeanDouble_tenth_tetra realMath VectorData.ZComponent (by decide)
    (.tetra ⟨0, 0, 0⟩ ⟨3, 0, 0⟩ ⟨0, 1, 0⟩ ⟨0, 0, 6⟩) [⟨0, 0, 0⟩] hc
  refine ⟨by rw [hc]; norm_num, ?_⟩
  intro v hv
  rw [List.mem_singleton] at hv
  rw [h, hv]
  norm_num

/-! ### C28: the divisor of the scale factors after `SetDataSet` -/

/-- C28 fails on the code: when the bounds of the active geometry extend by less than 1
along Z, the `UpdateClipping` call that ends `SetDataSet` runs on a clipping box whose
Z size is 0, so its scale factor `1.0 / size[2]` divides by zero, and the size
`SetDataSet` leaves has the Z component 0. -/
theorem SetDataSet_zero_size {K : Type} [LinearOrderedField K] [FloorRing K] (m : MathLib K)
    (p : Pipeline K) (which : DataSet) (dataRange : Fin 2 → K) (bounds : Fin 6 → K)
    (out : PipelineOutput K) (hle : bounds 4 ≤ bounds 5) (hlt : bounds 5 - bounds 4 < 1) :
    (∃ q : Pipeline K, SetDataSet m p which dataRange bounds out = UpdateClipping m q out ∧
        q.clippingBoxActor.Scale.z = 0) ∧
      (GetClippingBoxSize (SetDataSet m p which dataRange bounds out)).z = 0 := by
  obtain ⟨q, hq, _, _, ha⟩ := SetDataSet_eq_UpdateClipping m p which dataRange bounds out
  have hs := (ResetClippingBox_getters p bounds).2.1
  unfold GetClippingBoxSize at hs
  have hz : q.clippingBoxActor.Scale.z = 0 := by
    rw [ha, hs]
    exact ((truncToInt_extent (bounds 4) (bounds 5) hle).2).2 hlt
  refine ⟨⟨q, hq, hz⟩, ?_⟩
  unfold GetClippingBoxSize
  rw [hq, UpdateClipping_clippingBoxActor]
  exact hz

/-- Witness of C28 (failing input): a roof-offset surface with the bounds
[0, 10] x [0, 10] x [0, 1/2]. -/
theorem SetDataSet_zero_size_witness :
    (GetClippingBoxSize (SetDataSet realMath (newPipeline ClipType.CutZ DataSet.Mesh)
        DataSet.RoofOffset ![0, 1] ![0, 10, 0, 10, 0, 1 / 2] ⟨none, none, none, none⟩)).z
      = 0 := by
  have e4 : (![0, 10, 0, 10, 0, 1 / 2] : Fin 6 → ℝ) 4 = 0 := rfl
  have e5 : (![0, 10, 0, 10, 0, 1 / 2] : Fin 6 → ℝ) 5 = 1 / 2 := rfl
  exact (SetDataSet_zero_size realMath (newPipeline ClipType.CutZ DataSet.Mesh)
    DataSet.RoofOffset ![0, 1] ![0, 10, 0, 10, 0, 1 / 2] ⟨none, none, none, none⟩
    (by rw [e4, e5]; norm_num) (by rw [e4, e5]; norm_num)).2

/-! ### C29: the size column of the export and the measure of the statistics -/

/-- In any field of numbers the integer 1234567 is written as 1.23457e+06. -/
theorem streamDouble_seven_digits {K : Type} [LinearOrderedField K] [FloorRing K] :
    streamDouble (1234567 : K) = 1234570 := by
  have hlog : Int.log 10 |(1234567 : K)| = 6 := by
    have h1 : |(1234567 : K)| = ((1234567 : ℕ) : K) := by norm_num
    have h2 : Nat.log 10 1234567 = 6 := by
      rw [Nat.log_eq_iff (by norm_num)]
      norm_num
    rw [h1, Int.log_natCast, h2]
    rfl
  have hr : roundHalfEven ((1234567 : K) / 10 ^ ((6 : ℤ) - 5)) = 123457 := by
    have h := roundHalfEven_of_half_lt (x := (1234567 : K) / 10 ^ ((6 : ℤ) - 5)) (n := 123456)
      (by norm_num) (by norm_num)
    simpa using h
  unfold streamDouble
  rw [if_neg (by norm_num)]
  simp only [hlog, hr]
  norm_num

/-- The size column of the records `SaveData` writes, when there is one scalar per cell. -/
theorem SaveData_size_column {K : Type} [LinearOrderedField K] [FloorRing K] (m : MathLib K)
    (uninit : Nat → Vec3 K) (data : List (vtkCell K)) (cd : List K)
    (hlen : cd.length = data.length) :
    ((List.range cd.length).map (saveDataRecord m uninit data cd)).map (fun r => r.cellSize) =
      data.map (fun c => streamDouble (cellSize m c)) := by
  rw [List.map_map, hlen, ← map_range_getD data (.other 0) (fun c => streamDouble (cellSize m c))]
  rfl

/-- C29 (as amended): for every cell list (one scalar per cell) and the same pipeline
state, each per-cell size `SaveData` writes is the value `ComputeStatistics` sums, as
the stream writes it (six significant digits), and the measure `ComputeStatistics`
passes to the volume/area label is the sum of those values; when every cell size has
at most six significant digits, the size column holds the cell sizes themselves and its
sum equals that measure. -/
theorem SaveData_size_column_sum {K : Type} [LinearOrderedField K] [FloorRing K]
    (m : MathLib K) (p : Pipeline K) (data : List (vtkCell K)) (pd cd : List K)
    (cv : List (Vec3 K)) (uninit : Nat → Vec3 K)
    (hlen : cd.length = data.length) :
    ∃ f : SaveDataFile K,
      SaveData m p ⟨some data, some pd, some cd, some cv⟩ uninit = some f ∧
        f.records.map (fun r => r.cellSize) = data.map (fun c => streamDouble (cellSize m c)) ∧
        (ComputeStatistics m p ⟨some data, some pd, some cd, some cv⟩).volumeLabel.map
          (fun t => t.size) = some (data.map (cellSize m)).sum ∧
        ((∀ c ∈ data, SixDigits (cellSize m c)) →
          f.records.map (fun r => r.cellSize) = data.map (cellSize m) ∧
          (ComputeStatistics m p ⟨some data, some pd, some cd, some cv⟩).volumeLabel.map
            (fun t => t.size) = some (f.records.map (fun r => r.cellSize)).sum) := by
  have hcol := SaveData_size_column m uninit data cd hlen
  have hm : (ComputeStatistics m p ⟨some data, some pd, some cd, some cv⟩).volumeLabel.map
      (fun t => t.size) = some (data.map (cellSize m)).sum := by
    rw [(ComputeStatistics_labels _ _ _ _ _ _).2, cellSums_size m _ data cd cv hlen]
  refine ⟨_, rfl, hcol, hm, ?_⟩
  intro hsix
  have hself : data.map (fun c => streamDouble (cellSize m c)) = data.map (cellSize m) :=
    List.map_congr_left (fun c hc => streamDouble_eq_self (hsix c hc))
  refine ⟨hcol.trans hself, ?_⟩
  rw [hm]
  simp only []
  rw [hcol, hself]

/-- Witness of C29 (as amended): one tetrahedron of volume 32. -/
theorem SaveData_size_column_sum_witness :
    ∃ f : SaveDataFile ℝ,
      SaveData realMath (newPipeline ClipType.AccurateClip DataSet.Mesh)
          ⟨some [.tetra ⟨0, 0, 0⟩ ⟨4, 0, 0⟩ ⟨0, 4, 0⟩ ⟨0, 0, 12⟩], some [2], some [2],
            some [⟨2, 0, 0⟩]⟩ (fun _ => ⟨0, 0, 0⟩) = some f ∧
        (ComputeStatistics realMath (newPipeline ClipType.AccurateClip DataSet.Mesh)
          ⟨some [.tetra ⟨0, 0, 0⟩ ⟨4, 0, 0⟩ ⟨0, 4, 0⟩ ⟨0, 0, 12⟩], some [2], some [2],
            some [⟨2, 0, 0⟩]⟩).volumeLabel.map (fun t => t.size)
          = some (f.records.map (fun r => r.cellSize)).sum := by
  have hv : |ComputeVolume (⟨0, 0, 0⟩ : Vec3 ℝ) ⟨4, 0, 0⟩ ⟨0, 4, 0⟩ ⟨0, 0, 12⟩| = 32 := by
    norm_num [ComputeVolume, Determinant3x3]
  obtain ⟨f, h1, _, _, h4⟩ := SaveData_size_column_sum realMath
    (newPipeline ClipType.AccurateClip DataSet.Mesh)
    [.tetra ⟨0, 0, 0⟩ ⟨4, 0, 0⟩ ⟨0, 4, 0⟩ ⟨0, 0, 12⟩] [2] [2] [⟨2, 0, 0⟩]
    (fun _ => ⟨0, 0, 0⟩) rfl
  refine ⟨f, h1, (h4 ?_).2⟩
  intro c hc
  rw [List.mem_singleton] at hc
  subst hc
  refine ⟨32, 0, by norm_num, ?_⟩
  simp only [cellSize, hv]
  norm_num

/-- C29 as stated fails: for one tetrahedron of volume 1234567 `SaveData` writes the
size 1.23457e+06, so the size column sums to 1234570 while `ComputeStatistics` passes
1234567 to the volume label. -/
theorem SaveData_size_column_sum_ne :
    (SaveData realMath (newPipeline ClipType.AccurateClip DataSet.Mesh)
        ⟨some [.tetra ⟨0, 0, 0⟩ ⟨1234567, 0, 0⟩ ⟨0, 6, 0⟩ ⟨0, 0, 1⟩], some [2], some [2],
          some [⟨2, 0, 0⟩]⟩ (fun _ => ⟨0, 0, 0⟩)).map
        (fun f => (f.records.map (fun r => r.cellSize)).sum) = some 1234570 ∧
      (ComputeStatistics realMath (newPipeline ClipType.AccurateClip DataSet.Mesh)
        ⟨some [.tetra ⟨0, 0, 0⟩ ⟨1234567, 0, 0⟩ ⟨0, 6, 0⟩ ⟨0, 0, 1⟩], some [2], some [2],
          some [⟨2, 0, 0⟩]⟩).volumeLabel.map (fun t => t.size) = some 1234567 ∧
      (1234570 : ℝ) ≠ 1234567 := by
  have hv : |ComputeVolume (⟨0, 0, 0⟩ : Vec3 ℝ) ⟨1234567, 0, 0⟩ ⟨0, 6, 0⟩ ⟨0, 0, 1⟩|
      = 1234567 := by
    norm_num [ComputeVolume, Determinant3x3]
  refine ⟨?_, ?_, by norm_num⟩
  · have hcol := SaveData_size_column realMath (fun _ => (⟨0, 0, 0⟩ : Vec3 ℝ))
      [.tetra ⟨0, 0, 0⟩ ⟨1234567, 0, 0⟩ ⟨0, 6, 0⟩ ⟨0, 0, 1⟩] [2] rfl
    simp only [SaveData, Option.map_some']
    rw [hcol]
    simp only [List.map_cons, List.map_nil, List.sum_cons, List.sum_nil, cellSize, hv,
      streamDouble_seven_digits, add_zero]
  · rw [(ComputeStatistics_labels _ _ _ _ _ _).2, cellSums_size _ _ _ _ _ rfl]
    simp only [List.map_cons, List.map_nil, List.sum_cons, List.sum_nil, cellSize, hv,
      add_zero]

/-! ### C30: the clip type read from a clip settings file -/

/-- A clip type is one of the six enumerators exactly when its integer is in 0..5. -/
theorem ClipType.mem_enumerators_iff (t : Int) :
    (⟨t⟩ : ClipType) ∈ ClipType.enumerators ↔ 0 ≤ t ∧ t ≤ 5 := by
  simp only [ClipType.enumerators, ClipType.Extract, ClipType.FastClip, ClipType.AccurateClip,
    ClipType.CutX, ClipType.CutY, ClipType.CutZ, List.mem_cons, List.mem_singleton,
    List.not_mem_nil, or_false, ClipType.mk.injEq]
  omega

/-- A clip type that is no enumerator leaves the cube lengths as they are. -/
theorem SetClipType_cube_of_not_enumerator {K : Type} [LinearOrderedField K] (p : Pipeline K)
    (t : Int) (ht : ¬ (0 ≤ t ∧ t ≤ 5)) :
    (SetClipType p ⟨t⟩).clippingCubeSource = p.clippingCubeSource := by
  have h0 : (⟨t⟩ : ClipType) ≠ ClipType.Extract := fun h => ht (by cases h; decide)
  have h1 : (⟨t⟩ : ClipType) ≠ ClipType.FastClip := fun h => ht (by cases h; decide)
  have h2 : (⟨t⟩ : ClipType) ≠ ClipType.AccurateClip := fun h => ht (by cases h; decide)
  have h3 : (⟨t⟩ : ClipType) ≠ ClipType.CutX := fun h => ht (by cases h; decide)
  have h4 : (⟨t⟩ : ClipType) ≠ ClipType.CutY := fun h => ht (by cases h; decide)
  have h5 : (⟨t⟩ : ClipType) ≠ ClipType.CutZ := fun h => ht (by cases h; decide)
  simp only [SetClipType, h0, h1, h2, h3, h4, h5, or_self, if_false]

/-- C30 (as amended): for every integer `t` read as the eighth number of a clip settings
file, after `OpenClipSettings` `GetClipType` returns `(ClipType)t`; it is one of the six
`ClipType` values exactly when `t` is in 0..5, and a `t` outside 0..5 is installed as the
clip type while the lengths of the representative cube stay as they were. -/
theorem OpenClipSettings_GetClipType {K : Type} [LinearOrderedField K] (p : Pipeline K)
    (file : ClipSettingsFile K) :
    GetClipType (OpenClipSettings p file) = ⟨file.t⟩ ∧
      (GetClipType (OpenClipSettings p file) ∈ ClipType.enumerators ↔
        0 ≤ file.t ∧ file.t ≤ 5) ∧
      (¬ (0 ≤ file.t ∧ file.t ≤ 5) →
        (OpenClipSettings p file).clippingCubeSource = p.clippingCubeSource) := by
  have hg := (OpenClipSettings_getters p file).2.2.2
  refine ⟨hg, ?_, ?_⟩
  · rw [hg]
    exact ClipType.mem_enumerators_iff file.t
  · intro ht
    unfold OpenClipSettings
    simp only []
    rw [SetClipType_cube_of_not_enumerator _ _ ht]
    rfl

/-- Witness of C30 (as amended): a file whose eighth number is 3 installs `CutX`. -/
theorem OpenClipSettings_GetClipType_witness :
    GetClipType (OpenClipSettings (newPipeline ClipType.CutZ DataSet.Mesh : Pipeline ℚ)
        ⟨"Center, Size, Rotation, Type", ⟨0, 0, 0⟩, ⟨1, 1, 1⟩, 0, 3⟩) = ClipType.CutX ∧
      GetClipType (OpenClipSettings (newPipeline ClipType.CutZ DataSet.Mesh : Pipeline ℚ)
        ⟨"Center, Size, Rotation, Type", ⟨0, 0, 0⟩, ⟨1, 1, 1⟩, 0, 3⟩) ∈ ClipType.enumerators := by
  have h := OpenClipSettings_GetClipType (newPipeline ClipType.CutZ DataSet.Mesh : Pipeline ℚ)
    ⟨"Center, Size, Rotation, Type", ⟨0, 0, 0⟩, ⟨1, 1, 1⟩, 0, 3⟩
  exact ⟨h.1, h.2.1.2 (by decide)⟩

/-- C30 as stated fails: a file whose eighth number is 7 makes `GetClipType` return
`(ClipType)7`, which is none of the six `ClipType` values. -/
theorem OpenClipSettings_installs_non_enumerator :
    GetClipType (OpenClipSettings (newPipeline ClipType.CutZ DataSet.Mesh : Pipeline ℚ)
        ⟨"Center, Size, Rotation, Type", ⟨0, 0, 0⟩, ⟨1, 1, 1⟩, 0, 7⟩) = ⟨7⟩ ∧
      GetClipType (OpenClipSettings (newPipeline ClipType.CutZ DataSet.Mesh : Pipeline ℚ)
        ⟨"Center, Size, Rotation, Type", ⟨0, 0, 0⟩, ⟨1, 1, 1⟩, 0, 7⟩) ∉ ClipType.enumerators := by
  have hg := (OpenClipSettings_getters (newPipeline ClipType.CutZ DataSet.Mesh : Pipeline ℚ)
    ⟨"Center, Size, Rotation, Type", ⟨0, 0, 0⟩, ⟨1, 1, 1⟩, 0, 7⟩).2.2.2
  refine ⟨hg, ?_⟩
  rw [hg]
  decide

end ManhattanProject
